import Mathlib

/-!
# AccelerometerSensor (sensors/AccelerometerSensor.cpp)

A shallow embedding of the driver object `AccelerometerSensor`: its fields are the
record `State`, each method is a function from the state before the call (and what
the environment answers during the call) to the returned value, the state after the
call, the events written to the caller's buffer and the ordered list of requests
made to the collaborators (device ioctls, AKM side channel).

Values of the C type `float` are elements of an arbitrary type `F`; the conversion
from `int`, the multiplication and the literals used by the source are fields of
`Config`, so nothing is assumed about rounding.
-/

namespace AccelerometerSensor

/-! ## Platform constants -/

/-- The value of `EV_SYN` in linux/input.h. -/
def EV_SYN : Int := 0

/-- The value of `EV_ABS` in linux/input.h. -/
def EV_ABS : Int := 3

/-- The value of `EV_MSC` in linux/input.h. -/
def EV_MSC : Int := 4

/-- The value of `EINVAL` in errno.h. -/
def EINVAL : Int := 22

/-! ## Declarations of AccelerometerSensor.h -/

/-- Modelled from the spec: the enumerator `ACC` of AccelerometerSensor.h (the header is
not among the sources); the spec lists the slots in the order accelerometer,
screen-orientation, significant-motion. -/
def ACC : Nat := 0

/-- Modelled from the spec: the enumerator `SO` of AccelerometerSensor.h. -/
def SO : Nat := 1

/-- Modelled from the spec: the enumerator `SM` of AccelerometerSensor.h. -/
def SM : Nat := 2

/-- Modelled from the spec: the enumerator `NUM_SENSORS` of AccelerometerSensor.h. -/
def NUM_SENSORS : Nat := 3

/-- A `struct timeval`. -/
structure TimeVal where
  tv_sec : Int
  tv_usec : Int
deriving DecidableEq, Repr

/-- A kernel `struct input_event`. -/
structure InputEvent where
  time : TimeVal
  type : Int
  code : Int
  value : Int
deriving DecidableEq, Repr

/-- The constants, macros and helpers the source takes from headers that are not part
of the sources (sensors.h, lis3dh.h, SensorBase.h, hardware/sensors.h), as parameters. -/
structure Config (F : Type) where
  /-- Handle of the accelerometer. -/
  ID_A : Int
  /-- Handle of the screen-orientation sensor. -/
  ID_SO : Int
  /-- Handle of the significant-motion sensor. -/
  ID_SM : Int
  /-- Handle of the orientation side channel. -/
  ID_O : Int
  /-- The mask `MODE_ACCEL`, as the `uint32_t` it converts to. -/
  MODE_ACCEL : Nat
  /-- The mask `MODE_ROTATE`, as the `uint32_t` it converts to. -/
  MODE_ROTATE : Nat
  /-- The mask `MODE_MOVEMENT`, as the `uint32_t` it converts to. -/
  MODE_MOVEMENT : Nat
  EVENT_TYPE_ACCEL_X : Int
  EVENT_TYPE_ACCEL_Y : Int
  EVENT_TYPE_ACCEL_Z : Int
  EVENT_TYPE_SO : Int
  EVENT_TYPE_SM : Int
  CONVERT_A_X : F
  CONVERT_A_Y : F
  CONVERT_A_Z : F
  /-- Conversion `int` to `float` (`float value = event->value`). -/
  ofInt : Int → F
  /-- The multiplication of `value * CONVERT_A_X`. -/
  fmul : F → F → F
  /-- The literal `1.0f`. -/
  fone : F
  /-- The `float` whose bytes are all zero (`memset`). -/
  fzero : F
  /-- The helper `timevalToNano` of SensorBase.h. -/
  timevalToNano : TimeVal → Int
  sizeof_sensors_event_t : Int
  SENSOR_TYPE_ACCELEROMETER : Int
  SENSOR_TYPE_SCREEN_ORIENTATION : Int
  SENSOR_TYPE_SIGNIFICANT_MOTION : Int
  SENSOR_STATUS_ACCURACY_HIGH : Int
  META_DATA_VERSION : Int
  SENSOR_TYPE_META_DATA : Int
  META_DATA_FLUSH_COMPLETE : Int

/-- Modelled from the spec: the helper `indexToMask` of AccelerometerSensor.h (absent
from the sources). The spec has one enabled set for the three logical sensors, so the
slot `i` is tested with the mask that `enable` sets or clears for that sensor. -/
def indexToMask {F : Type} (cfg : Config F) (i : Nat) : Nat :=
  if i = ACC then cfg.MODE_ACCEL
  else if i = SO then cfg.MODE_ROTATE
  else if i = SM then cfg.MODE_MOVEMENT
  else 0

/-- The handle that the constructor stores in slot `i`. -/
def slotId {F : Type} (cfg : Config F) (i : Nat) : Int :=
  if i = ACC then cfg.ID_A else if i = SO then cfg.ID_SO else cfg.ID_SM

/-! ## Data model -/

/-- An array of `NUM_SENSORS` = 3 elements. -/
structure Slots (α : Type) where
  acc : α
  so : α
  sm : α
deriving DecidableEq, Repr

/-- Read `a[i]`; the source only uses `i < NUM_SENSORS`. -/
def Slots.get {α : Type} (a : Slots α) (i : Nat) : α :=
  if i = ACC then a.acc else if i = SO then a.so else a.sm

/-- Write `a[i] = v`; the source only uses `i < NUM_SENSORS`. -/
def Slots.set {α : Type} (a : Slots α) (i : Nat) (v : α) : Slots α :=
  if i = ACC then { a with acc := v }
  else if i = SO then { a with so := v }
  else { a with sm := v }

/-- The fields of a `sensors_event_t` that the source reads or writes. `data0`, `data1`,
`data2` are `data[0..2]`, which the union also names `acceleration.x/y/z`. -/
structure SensorsEvent (F : Type) where
  version : Int
  sensor : Int
  type : Int
  timestamp : Int
  data0 : F
  data1 : F
  data2 : F
  status : Int
deriving DecidableEq, Repr

/-- The fields of the local `sensors_meta_data_event_t flushEvent` that the source sets. -/
structure MetaEvent where
  version : Int
  type : Int
  what : Int
  sensor : Int
  reserved0 : Int
  timestamp : Int
deriving DecidableEq, Repr

/-- One element written through `*data++`: the flush event, or a copy of
`mPendingEvents[slot]` (the slot is recorded with the copy). -/
inductive OutEvent (F : Type) where
  | flushComplete (m : MetaEvent)
  | data (slot : Nat) (e : SensorsEvent F)
deriving DecidableEq, Repr

/-- A request to a collaborator. -/
inductive Effect (F : Type) where
  | ioctlSetEnable (flag : Nat)
  | ioctlSetDelay (delay : Int)
  | writeAkmDelay (handle : Int) (ns : Int)
  | writeAkmAccel (x y z : F)
deriving DecidableEq, Repr

/-- Whether the request is a device ioctl. -/
def Effect.isIoctl {F : Type} : Effect F → Bool
  | .ioctlSetEnable _ => true
  | .ioctlSetDelay _ => true
  | _ => false

/-- Whether the request goes to the AKM side channel. -/
def Effect.isAkm {F : Type} : Effect F → Bool
  | .writeAkmDelay _ _ => true
  | .writeAkmAccel _ _ _ => true
  | _ => false

/-- The fields of the object. `mInputReader` is the queue of events that the reader
holds and has not yet passed. The `uint32_t` fields `mEnabled` and `mPendingEventsMask`
hold their value as a natural number; `|` and `&` of values below `2^32` stay below
`2^32`, so no reduction is written. The array `mPendingEventsFlushCount` is declared in
AccelerometerSensor.h, which is not among the sources; its elements are taken to be of
type `int`, the type of every other counter of the file (`hasPendingEvents` compares them
with `> 0`): they hold values of the 32-bit two's-complement range, and `++` and `--` on
them are taken modulo `2^32` (`toInt32`). -/
structure State (F : Type) where
  mEnabled : Nat
  mOriEnabled : Bool
  mInputReader : List InputEvent
  mPendingEvents : Slots (SensorsEvent F)
  mPendingEventsFlushCount : Slots Int
  mPendingEventsMask : Nat
  mAccelDelay : Int
deriving DecidableEq, Repr

/-- The test `mEnabled & indexToMask(i)` of `readEvents` and `flush`. -/
def isEnabled {F : Type} (cfg : Config F) (st : State F) (i : Nat) : Bool :=
  st.mEnabled &&& indexToMask cfg i != 0

/-- The test `mPendingEventsMask & (1 << i)`. -/
def isPending {F : Type} (st : State F) (i : Nat) : Bool :=
  st.mPendingEventsMask &&& (1 <<< i) != 0

/-- What a method hands back: returned `int`, state after the call, events written to
`data` in order, requests to the collaborators in order. -/
structure Result (F : Type) where
  ret : Int
  st : State F
  out : List (OutEvent F)
  fx : List (Effect F)
deriving DecidableEq, Repr

/-! ## Constructor -/

/-- The state that `AccelerometerSensor::AccelerometerSensor()` builds. -/
def init {F : Type} (cfg : Config F) : State F :=
  let zero : SensorsEvent F :=
    { version := 0, sensor := 0, type := 0, timestamp := 0,
      data0 := cfg.fzero, data1 := cfg.fzero, data2 := cfg.fzero, status := 0 }
  { mEnabled := 0
    mOriEnabled := false
    mInputReader := []
    mPendingEvents :=
      { acc := { zero with version := cfg.sizeof_sensors_event_t, sensor := cfg.ID_A,
                           type := cfg.SENSOR_TYPE_ACCELEROMETER,
                           status := cfg.SENSOR_STATUS_ACCURACY_HIGH }
        so := { zero with version := cfg.sizeof_sensors_event_t, sensor := cfg.ID_SO,
                          type := cfg.SENSOR_TYPE_SCREEN_ORIENTATION }
        sm := { zero with version := cfg.sizeof_sensors_event_t, sensor := cfg.ID_SM,
                          type := cfg.SENSOR_TYPE_SIGNIFICANT_MOTION } }
    mPendingEventsFlushCount := { acc := 0, so := 0, sm := 0 }
    mPendingEventsMask := 0
    mAccelDelay := 0 }

/-- The requests the constructor makes. -/
def initEffects {F : Type} (cfg : Config F) : List (Effect F) :=
  [Effect.writeAkmDelay cfg.ID_A (-1)]

/-! ## enable -/

/-- The part of `enable` after the `switch`, for a handle that selected `mask`.
`ioctlRet` is what the ioctl returns if it is issued. -/
def enableMasked {F : Type} (cfg : Config F) (st : State F) (handle : Int) (en : Int)
    (mask : Nat) (ioctlRet : Int) : Result F :=
  let enable : Nat := if en ≠ 0 then 1 else 0
  if st.mEnabled &&& mask = enable then
    { ret := 0, st := st, out := [], fx := [] }
  else
    let flag : Nat :=
      if enable ≠ 0 then st.mEnabled ||| mask else st.mEnabled &&& (4294967295 ^^^ mask)
    if ioctlRet < 0 then
      { ret := ioctlRet, st := st, out := [], fx := [Effect.ioctlSetEnable flag] }
    else
      { ret := 0
        st := { st with mEnabled := flag }
        out := []
        fx := Effect.ioctlSetEnable flag ::
          (if handle = cfg.ID_A then
            [Effect.writeAkmDelay handle (if enable ≠ 0 then st.mAccelDelay else -1)]
           else []) }

/-- The method `int AccelerometerSensor::enable(int32_t handle, int en)`. -/
def enable {F : Type} (cfg : Config F) (st : State F) (handle : Int) (en : Int)
    (ioctlRet : Int) : Result F :=
  if handle = cfg.ID_A then enableMasked cfg st handle en cfg.MODE_ACCEL ioctlRet
  else if handle = cfg.ID_SO then enableMasked cfg st handle en cfg.MODE_ROTATE ioctlRet
  else if handle = cfg.ID_SM then enableMasked cfg st handle en cfg.MODE_MOVEMENT ioctlRet
  else if handle = cfg.ID_O then
    { ret := 0, st := { st with mOriEnabled := decide (en ≠ 0) }, out := [], fx := [] }
  else { ret := -1, st := st, out := [], fx := [] }

/-! ## hasPendingEvents -/

/-- The method `bool AccelerometerSensor::hasPendingEvents() const`. -/
def hasPendingEvents {F : Type} (st : State F) : Bool :=
  (List.range NUM_SENSORS).any fun i => decide (st.mPendingEventsFlushCount.get i > 0)

/-! ## setDelay -/

/-- The value of type `int` (32 bits, two's complement) that is congruent to `x` modulo
`2^32`: the narrowing of an `int64_t` to `int`, and the result of `int` arithmetic that
leaves the range. -/
def toInt32 (x : Int) : Int := (x + 2147483648) % 4294967296 - 2147483648

/-- The part of `setDelay` after the `switch`. `ioctlRet` is what the ioctl returns. -/
def setDelayDevice {F : Type} (cfg : Config F) (st : State F) (handle : Int) (ns : Int)
    (ioctlRet : Int) : Result F :=
  let delay : Int := toInt32 (Int.tdiv ns 1000000)
  if handle = cfg.ID_A then
    { ret := ioctlRet
      st := { st with mAccelDelay := ns }
      out := []
      fx := Effect.ioctlSetDelay delay ::
        (if isEnabled cfg st ACC then [Effect.writeAkmDelay cfg.ID_A ns] else []) }
  else { ret := ioctlRet, st := st, out := [], fx := [Effect.ioctlSetDelay delay] }

/-- The method `int AccelerometerSensor::setDelay(int32_t handle, int64_t ns)`.
`ioctlRet` is what the ioctl returns if it is issued. -/
def setDelay {F : Type} (cfg : Config F) (st : State F) (handle : Int) (ns : Int)
    (ioctlRet : Int) : Result F :=
  if handle = cfg.ID_A then setDelayDevice cfg st handle ns ioctlRet
  else if handle = cfg.ID_SO then { ret := 0, st := st, out := [], fx := [] }
  else if handle = cfg.ID_SM then { ret := 0, st := st, out := [], fx := [] }
  else setDelayDevice cfg st handle ns ioctlRet

/-! ## flush -/

/-- The method `int AccelerometerSensor::flush(int handle)`. -/
def flush {F : Type} (cfg : Config F) (st : State F) (handle : Int) : Result F :=
  if handle = cfg.ID_A ∨ handle = cfg.ID_SO then
    let id : Nat := if handle = cfg.ID_A then ACC else SO
    if !isEnabled cfg st id then { ret := -EINVAL, st := st, out := [], fx := [] }
    else
      { ret := 0
        st := { st with mPendingEventsFlushCount := st.mPendingEventsFlushCount.set id (toInt32 (st.mPendingEventsFlushCount.get id + 1)) }
        out := []
        fx := [] }
  else { ret := -EINVAL, st := st, out := [], fx := [] }

/-! ## readEvents -/

/-- What the environment answers during one call of `readEvents`: the raw device reader
(`InputEventCircularReader`, not among the sources; the spec gives it the entry points
fill, has-next, current, advance), the clock `getTimestamp()` and the device ioctls. -/
structure ReadEnv where
  /-- The value `mInputReader.fill(data_fd)` returns. -/
  n : Int
  /-- The events that this `fill` added to the reader. -/
  incoming : List InputEvent
  /-- The value of the `k`-th call of `getTimestamp()` in this call. -/
  getTimestamp : Nat → Int
  /-- The value the `k`-th ioctl of this call returns. -/
  ioctl : Nat → Int

/-- The local variables of `readEvents` together with the object. -/
structure Run (F : Type) where
  st : State F
  /-- The parameter `count`, decremented with every element written. -/
  count : Int
  numEventReceived : Int
  /-- The elements written through `*data++`, in order. -/
  out : List (OutEvent F)
  fx : List (Effect F)
deriving DecidableEq, Repr

/-- Number of ioctls issued so far in this call. -/
def Run.ioctls {F : Type} (r : Run F) : Nat := (r.fx.filter Effect.isIoctl).length

/-- The body of the first `for` loop after its `break` test, for index `i`. -/
def flushStep {F : Type} (cfg : Config F) (env : ReadEnv) (i : Nat) (r : Run F) : Run F :=
  if r.st.mPendingEventsFlushCount.get i = 0 then r
  else
    let flushEvent : MetaEvent :=
      { version := cfg.META_DATA_VERSION
        type := cfg.SENSOR_TYPE_META_DATA
        what := cfg.META_DATA_FLUSH_COMPLETE
        sensor := (r.st.mPendingEvents.get i).sensor
        reserved0 := 0
        timestamp := env.getTimestamp r.out.length }
    { st := { r.st with mPendingEventsFlushCount := r.st.mPendingEventsFlushCount.set i (toInt32 (r.st.mPendingEventsFlushCount.get i - 1)) }
      count := r.count - 1
      numEventReceived := r.numEventReceived + 1
      out := r.out ++ [OutEvent.flushComplete flushEvent]
      fx := r.fx }

/-- The first `for` loop of `readEvents`, over the indices still to visit. -/
def flushLoop {F : Type} (cfg : Config F) (env : ReadEnv) : List Nat → Run F → Run F
  | [], r => r
  | i :: rest, r =>
    if r.count = 0 then r else flushLoop cfg env rest (flushStep cfg env i r)

/-- The statement `mPendingEventsMask &= ~(1 << i)` followed by
`mPendingEvents[i].timestamp = timevalToNano(event->time)`. -/
def stampSlot {F : Type} (cfg : Config F) (t : TimeVal) (i : Nat) (st : State F) : State F :=
  { st with
    mPendingEventsMask := st.mPendingEventsMask &&& (4294967295 ^^^ (1 <<< i))
    mPendingEvents := st.mPendingEvents.set i
      { st.mPendingEvents.get i with timestamp := cfg.timevalToNano t } }

/-- The block under `if (mEnabled & indexToMask(i))`: write `mPendingEvents[i]`, and for
the significant-motion slot call `enable(ID_SM, 0)` (its returned value is not used). -/
def syncEmit {F : Type} (cfg : Config F) (env : ReadEnv) (i : Nat) (r : Run F) : Run F :=
  let r2 : Run F :=
    { st := r.st
      count := r.count - 1
      numEventReceived := r.numEventReceived + 1
      out := r.out ++ [OutEvent.data i (r.st.mPendingEvents.get i)]
      fx := r.fx }
  if i = SM then
    let e := enable cfg r2.st cfg.ID_SM 0 (env.ioctl r2.ioctls)
    { r2 with st := e.st, fx := r2.fx ++ e.fx }
  else r2

/-- The statement `if (i == ACC && mOriEnabled) writeAkmAccel(...)`. -/
def syncAkm {F : Type} (i : Nat) (r : Run F) : Run F :=
  if i = ACC ∧ r.st.mOriEnabled = true then
    { r with fx := r.fx ++
        [Effect.writeAkmAccel (r.st.mPendingEvents.get ACC).data0
          (r.st.mPendingEvents.get ACC).data1 (r.st.mPendingEvents.get ACC).data2] }
  else r

/-- The body of the `for` loop of the `EV_SYN` branch, for index `i` and the marker's
time `t`. -/
def syncStep {F : Type} (cfg : Config F) (env : ReadEnv) (t : TimeVal) (i : Nat)
    (r : Run F) : Run F :=
  if r.st.mPendingEventsMask &&& (1 <<< i) ≠ 0 then
    let r1 : Run F := { r with st := stampSlot cfg t i r.st }
    syncAkm i (if r1.st.mEnabled &&& indexToMask cfg i ≠ 0 then syncEmit cfg env i r1 else r1)
  else r

/-- The `for` loop of the `EV_SYN` branch, over the indices still to visit. -/
def syncLoop {F : Type} (cfg : Config F) (env : ReadEnv) (t : TimeVal) :
    List Nat → Run F → Run F
  | [], r => r
  | i :: rest, r =>
    if r.count = 0 ∨ r.st.mPendingEventsMask = 0 then r
    else syncLoop cfg env t rest (syncStep cfg env t i r)

/-- Assign `mPendingEvents[i] = ev` and set bit `i` of `mPendingEventsMask`. -/
def markPending {F : Type} (st : State F) (i : Nat) (ev : SensorsEvent F) : State F :=
  { st with
    mPendingEventsMask := st.mPendingEventsMask ||| (1 <<< i)
    mPendingEvents := st.mPendingEvents.set i ev }

/-- The body of the `while` loop of `readEvents` for the raw event `e`, up to the call
of `mInputReader.next()`. -/
def processEvent {F : Type} (cfg : Config F) (env : ReadEnv) (e : InputEvent)
    (r : Run F) : Run F :=
  if e.type = EV_ABS then
    let value : F := cfg.ofInt e.value
    let a := r.st.mPendingEvents.get ACC
    if e.code = cfg.EVENT_TYPE_ACCEL_X then
      { r with st := markPending r.st ACC { a with data0 := cfg.fmul value cfg.CONVERT_A_X } }
    else if e.code = cfg.EVENT_TYPE_ACCEL_Y then
      { r with st := markPending r.st ACC { a with data1 := cfg.fmul value cfg.CONVERT_A_Y } }
    else if e.code = cfg.EVENT_TYPE_ACCEL_Z then
      { r with st := markPending r.st ACC { a with data2 := cfg.fmul value cfg.CONVERT_A_Z } }
    else r
  else if e.type = EV_MSC then
    if e.code = cfg.EVENT_TYPE_SO then
      { r with st := markPending r.st SO
                  { r.st.mPendingEvents.get SO with data0 := cfg.ofInt e.value } }
    else if e.code = cfg.EVENT_TYPE_SM then
      { r with st := markPending r.st SM { r.st.mPendingEvents.get SM with data0 := cfg.fone } }
    else r
  else if e.type = EV_SYN then
    syncLoop cfg env e.time (List.range NUM_SENSORS) r
  else r

/-- The `while` loop of `readEvents` over the events `q` that the reader holds:
`readEvent` hands out the first one, `next` drops it; when the loop stops the reader
keeps the events not passed. -/
def eventLoop {F : Type} (cfg : Config F) (env : ReadEnv) : List InputEvent → Run F → Run F
  | [], r => { r with st := { r.st with mInputReader := [] } }
  | e :: q, r =>
    if r.count = 0 then { r with st := { r.st with mInputReader := e :: q } }
    else eventLoop cfg env q (processEvent cfg env e r)

/-- The object and the local variables of `readEvents` after a `fill` that did not fail:
the reader holds what it held plus what `fill` added, nothing is written yet. -/
def startRun {F : Type} (st : State F) (count : Int) (env : ReadEnv) : Run F :=
  { st := { st with mInputReader := st.mInputReader ++ env.incoming }
    count := count
    numEventReceived := 0
    out := []
    fx := [] }

/-- The method `int AccelerometerSensor::readEvents(sensors_event_t* data, int count)`. -/
def readEvents {F : Type} (cfg : Config F) (st : State F) (count : Int) (env : ReadEnv) :
    Result F :=
  if count < 1 then { ret := -EINVAL, st := st, out := [], fx := [] }
  else if env.n < 0 then { ret := env.n, st := st, out := [], fx := [] }
  else
    let r0 : Run F := startRun st count env
    let r1 := flushLoop cfg env (List.range NUM_SENSORS) r0
    let r2 := eventLoop cfg env r1.st.mInputReader r1
    { ret := r2.numEventReceived, st := r2.st, out := r2.out, fx := r2.fx }

/-! ## Conditions on the parameters -/

/-- The four handles are different numbers, as the labels of one `switch` have to be. -/
def Config.handlesDistinct {F : Type} (cfg : Config F) : Prop :=
  cfg.ID_A ≠ cfg.ID_SO ∧ cfg.ID_A ≠ cfg.ID_SM ∧ cfg.ID_A ≠ cfg.ID_O ∧
  cfg.ID_SO ≠ cfg.ID_SM ∧ cfg.ID_SO ≠ cfg.ID_O ∧ cfg.ID_SM ≠ cfg.ID_O

instance {F : Type} (cfg : Config F) : Decidable cfg.handlesDistinct := by
  unfold Config.handlesDistinct; infer_instance

/-- The three masks are not zero, fit in 32 bits, and no two of them share a bit. -/
def Config.masksSeparate {F : Type} (cfg : Config F) : Prop :=
  cfg.MODE_ACCEL ≠ 0 ∧ cfg.MODE_ROTATE ≠ 0 ∧ cfg.MODE_MOVEMENT ≠ 0 ∧
  cfg.MODE_ACCEL < 4294967296 ∧ cfg.MODE_ROTATE < 4294967296 ∧
  cfg.MODE_MOVEMENT < 4294967296 ∧
  cfg.MODE_ACCEL &&& cfg.MODE_ROTATE = 0 ∧ cfg.MODE_ACCEL &&& cfg.MODE_MOVEMENT = 0 ∧
  cfg.MODE_ROTATE &&& cfg.MODE_MOVEMENT = 0

instance {F : Type} (cfg : Config F) : Decidable cfg.masksSeparate := by
  unfold Config.masksSeparate; infer_instance

/-- The three axis codes are different numbers, and so are the two channel codes. -/
def Config.codesDistinct {F : Type} (cfg : Config F) : Prop :=
  cfg.EVENT_TYPE_ACCEL_X ≠ cfg.EVENT_TYPE_ACCEL_Y ∧
  cfg.EVENT_TYPE_ACCEL_X ≠ cfg.EVENT_TYPE_ACCEL_Z ∧
  cfg.EVENT_TYPE_ACCEL_Y ≠ cfg.EVENT_TYPE_ACCEL_Z ∧
  cfg.EVENT_TYPE_SO ≠ cfg.EVENT_TYPE_SM

instance {F : Type} (cfg : Config F) : Decidable cfg.codesDistinct := by
  unfold Config.codesDistinct; infer_instance

/-- Every slot still carries the handle the constructor stored in it. -/
def State.idsIntact {F : Type} (cfg : Config F) (st : State F) : Prop :=
  st.mPendingEvents.acc.sensor = cfg.ID_A ∧ st.mPendingEvents.so.sensor = cfg.ID_SO ∧
  st.mPendingEvents.sm.sensor = cfg.ID_SM

instance {F : Type} (cfg : Config F) (st : State F) : Decidable (st.idsIntact cfg) := by
  unfold State.idsIntact; infer_instance

/-- The value `enable` computes in `flag` for the sensor of slot `i`. -/
def newFlag {F : Type} (cfg : Config F) (st : State F) (i : Nat) (en : Int) : Nat :=
  if en ≠ 0 then st.mEnabled ||| indexToMask cfg i
  else st.mEnabled &&& (4294967295 ^^^ indexToMask cfg i)

/-- Whether the element written is a copy of the record of slot `i`. -/
def OutEvent.isDataOf {F : Type} (i : Nat) : OutEvent F → Bool
  | .data slot _ => slot == i
  | .flushComplete _ => false

/-- Whether the element written is a flush event naming the handle `id`. -/
def OutEvent.isFlushOf {F : Type} (id : Int) : OutEvent F → Bool
  | .flushComplete m => m.sensor == id
  | .data _ _ => false

/-- The bookkeeping of `readEvents` for a call with capacity `c0`: the remaining capacity
is not negative, `numEventReceived` is the number of elements written, and the elements
written and the remaining capacity add up to `c0`. -/
def Run.Counted {F : Type} (c0 : Int) (r : Run F) : Prop :=
  0 ≤ r.count ∧ r.numEventReceived = r.out.length ∧ r.numEventReceived + r.count = c0

/-- The number of slots whose flush counter is not zero. -/
def dueFlush {F : Type} (st : State F) : Int :=
  (if st.mPendingEventsFlushCount.acc ≠ 0 then 1 else 0) +
  (if st.mPendingEventsFlushCount.so ≠ 0 then 1 else 0) +
  (if st.mPendingEventsFlushCount.sm ≠ 0 then 1 else 0)

/-- 1 when slot `i` is pending and enabled (a sync marker then writes its record), else 0. -/
def dueData {F : Type} (cfg : Config F) (st : State F) (i : Nat) : Int :=
  if isPending st i = true ∧ isEnabled cfg st i = true then 1 else 0

/-- Whether the element written is a flush event. -/
def OutEvent.isFlush {F : Type} : OutEvent F → Bool
  | .flushComplete _ => true
  | .data _ _ => false

/-- The states the object can be in: the one the constructor builds, and the state any
call of `enable`, `setDelay`, `flush` or `readEvents` leaves, for any arguments and any
answers of the device, the clock and the reader. -/
inductive Reachable {F : Type} (cfg : Config F) : State F → Prop where
  | constructed : Reachable cfg (AccelerometerSensor.init cfg)
  | afterEnable (st : State F) (handle en ioctlRet : Int) :
      Reachable cfg st → Reachable cfg (AccelerometerSensor.enable cfg st handle en ioctlRet).st
  | afterSetDelay (st : State F) (handle ns ioctlRet : Int) :
      Reachable cfg st →
      Reachable cfg (AccelerometerSensor.setDelay cfg st handle ns ioctlRet).st
  | afterFlush (st : State F) (handle : Int) :
      Reachable cfg st → Reachable cfg (AccelerometerSensor.flush cfg st handle).st
  | afterReadEvents (st : State F) (count : Int) (env : ReadEnv) :
      Reachable cfg st → Reachable cfg (AccelerometerSensor.readEvents cfg st count env).st

/-- The largest value of type `int`. -/
def INT_MAX : Int := 2147483647

/-- The smallest value of type `int`. -/
def INT_MIN : Int := -2147483648

/-- The reachable states when integer overflow is left out: as `Reachable`, but a call of
`flush` is only followed when the counter it increments, if any, is below `INT_MAX`, so
that no `++` leaves the range of `int`. -/
inductive ReachableNoOverflow {F : Type} (cfg : Config F) : State F → Prop where
  | constructed : ReachableNoOverflow cfg (AccelerometerSensor.init cfg)
  | afterEnable (st : State F) (handle en ioctlRet : Int) :
      ReachableNoOverflow cfg st →
      ReachableNoOverflow cfg (AccelerometerSensor.enable cfg st handle en ioctlRet).st
  | afterSetDelay (st : State F) (handle ns ioctlRet : Int) :
      ReachableNoOverflow cfg st →
      ReachableNoOverflow cfg (AccelerometerSensor.setDelay cfg st handle ns ioctlRet).st
  | afterFlush (st : State F) (handle : Int) :
      ReachableNoOverflow cfg st →
      (∀ i, i < NUM_SENSORS →
        (AccelerometerSensor.flush cfg st handle).st.mPendingEventsFlushCount.get i =
            st.mPendingEventsFlushCount.get i ∨
          st.mPendingEventsFlushCount.get i < INT_MAX) →
      ReachableNoOverflow cfg (AccelerometerSensor.flush cfg st handle).st
  | afterReadEvents (st : State F) (count : Int) (env : ReadEnv) :
      ReachableNoOverflow cfg st →
      ReachableNoOverflow cfg (AccelerometerSensor.readEvents cfg st count env).st

/-- The handles stored in the three records. -/
def slotSensors {F : Type} (a : Slots (SensorsEvent F)) : Int × Int × Int :=
  (a.acc.sensor, a.so.sensor, a.sm.sensor)

/-- Whether the request is a `writeAkmAccel`. -/
def Effect.isAkmAccel {F : Type} : Effect F → Bool
  | .writeAkmAccel _ _ _ => true
  | _ => false

/-- The assignment that the `EV_ABS` branch of `readEvents` makes to the accelerometer
record `a` for the raw event `e`. -/
def axisUpdate {F : Type} (cfg : Config F) (e : InputEvent) (a : SensorsEvent F) :
    SensorsEvent F :=
  if e.code = cfg.EVENT_TYPE_ACCEL_X then
    { a with data0 := cfg.fmul (cfg.ofInt e.value) cfg.CONVERT_A_X }
  else if e.code = cfg.EVENT_TYPE_ACCEL_Y then
    { a with data1 := cfg.fmul (cfg.ofInt e.value) cfg.CONVERT_A_Y }
  else if e.code = cfg.EVENT_TYPE_ACCEL_Z then
    { a with data2 := cfg.fmul (cfg.ofInt e.value) cfg.CONVERT_A_Z }
  else a

/-- Whether the raw event is an `EV_ABS` event for one of the three axes. -/
def isAxisEvent {F : Type} (cfg : Config F) (e : InputEvent) : Prop :=
  e.type = EV_ABS ∧
    (e.code = cfg.EVENT_TYPE_ACCEL_X ∨ e.code = cfg.EVENT_TYPE_ACCEL_Y ∨
      e.code = cfg.EVENT_TYPE_ACCEL_Z)

instance {F : Type} (cfg : Config F) (e : InputEvent) : Decidable (isAxisEvent cfg e) := by
  unfold isAxisEvent; infer_instance

/-- The state after the `EV_ABS` branch has handled the axis events `axes` in order. -/
def absorbAxes {F : Type} (cfg : Config F) (axes : List InputEvent) (st : State F) : State F :=
  axes.foldl (fun s e => markPending s ACC (axisUpdate cfg e s.mPendingEvents.acc)) st

/-- What the slots that a sync marker visits before slot `j` take of the capacity. -/
def dueBefore {F : Type} (cfg : Config F) (st : State F) (j : Nat) : Int :=
  (if ACC < j then dueData cfg st ACC else 0) + (if SO < j then dueData cfg st SO else 0)

/-- The object and the local variables of `readEvents` after the body of its `while` loop
has run for each of the events `evs` in order. -/
def runTo {F : Type} (cfg : Config F) (env : ReadEnv) (evs : List InputEvent) (r : Run F) :
    Run F :=
  evs.foldl (fun r e => processEvent cfg env e r) r

/-- The object and the local variables of a call `readEvents(data, count)` from `st` at the
moment its `while` loop has passed the events `evs`, the first events that the reader
holds: the first `for` loop has run, then the body of the `while` loop for each of `evs`.
This is where the call stands when it reads the event after `evs`, if `count` is not zero
there. -/
def readEventsUpTo {F : Type} (cfg : Config F) (st : State F) (count : Int) (env : ReadEnv)
    (evs : List InputEvent) : Run F :=
  runTo cfg env evs (flushLoop cfg env (List.range NUM_SENSORS) (startRun st count env))

/-- Significant motion has fired at most once in this call: either it is still enabled,
no significant-motion record is written and no ioctl is issued yet, or it is disabled and
exactly one significant-motion record is written. -/
def Run.smOneShot {F : Type} (cfg : Config F) (r : Run F) : Prop :=
  (isEnabled cfg r.st SM = true ∧ r.out.filter (OutEvent.isDataOf SM) = [] ∧ r.ioctls = 0) ∨
    (isEnabled cfg r.st SM = false ∧ (r.out.filter (OutEvent.isDataOf SM)).length = 1)

/-- The state after `n` successive calls of `flush(handle)` from `st`. -/
def flushTimes {F : Type} (cfg : Config F) (st : State F) (handle : Int) : Nat → State F
  | 0 => st
  | n + 1 => (flush cfg (flushTimes cfg st handle n) handle).st

/-! ## A concrete configuration -/

/-- A configuration with `float` read as `Int`, used to evaluate the methods. -/
def sampleConfig : Config Int :=
  { ID_A := 0, ID_SO := 9, ID_SM := 10, ID_O := 2
    MODE_ACCEL := 1, MODE_ROTATE := 2, MODE_MOVEMENT := 4
    EVENT_TYPE_ACCEL_X := 0, EVENT_TYPE_ACCEL_Y := 1, EVENT_TYPE_ACCEL_Z := 2
    EVENT_TYPE_SO := 3, EVENT_TYPE_SM := 4
    CONVERT_A_X := 2, CONVERT_A_Y := 3, CONVERT_A_Z := 5
    ofInt := fun v => v
    fmul := fun a b => a * b
    fone := 1
    fzero := 0
    timevalToNano := fun t => t.tv_sec * 1000000000 + t.tv_usec * 1000
    sizeof_sensors_event_t := 104
    SENSOR_TYPE_ACCELEROMETER := 1
    SENSOR_TYPE_SCREEN_ORIENTATION := 65536
    SENSOR_TYPE_SIGNIFICANT_MOTION := 17
    SENSOR_STATUS_ACCURACY_HIGH := 3
    META_DATA_VERSION := 104
    SENSOR_TYPE_META_DATA := 0
    META_DATA_FLUSH_COMPLETE := 1 }

/-- The state after the constructor and successful `enable(ID_A, 1)`, `enable(ID_SO, 1)`,
`enable(ID_SM, 1)`. -/
def sampleAllEnabled : State Int :=
  (enable sampleConfig
    (enable sampleConfig (enable sampleConfig (init sampleConfig) sampleConfig.ID_A 1 0).st
      sampleConfig.ID_SO 1 0).st
    sampleConfig.ID_SM 1 0).st

/-- An answer of the environment: `fill` returns `n` after adding `incoming`, the clock
reads `1000 + k`, every ioctl returns `io`. -/
def sampleEnv (n : Int) (incoming : List InputEvent) (io : Int) : ReadEnv :=
  { n := n, incoming := incoming, getTimestamp := fun k => 1000 + k, ioctl := fun _ => io }

/-- A call with capacity 1 from `sampleAllEnabled` whose reader receives an axis event, a
screen-orientation event, a significant-motion event and a sync marker. -/
def sampleCrowdedCall : Result Int :=
  readEvents sampleConfig sampleAllEnabled 1
    (sampleEnv 4
      [{ time := ⟨1, 0⟩, type := EV_ABS, code := sampleConfig.EVENT_TYPE_ACCEL_X, value := 7 },
       { time := ⟨1, 1⟩, type := EV_MSC, code := sampleConfig.EVENT_TYPE_SO, value := 3 },
       { time := ⟨1, 2⟩, type := EV_MSC, code := sampleConfig.EVENT_TYPE_SM, value := 0 },
       { time := ⟨5, 6⟩, type := EV_SYN, code := 0, value := 0 }] 0)

/-- The next call, again with capacity 1, whose reader receives one sync marker. -/
def sampleNextMarkerCall : Result Int :=
  readEvents sampleConfig sampleCrowdedCall.st 1
    (sampleEnv 1 [{ time := ⟨9, 0⟩, type := EV_SYN, code := 0, value := 0 }] 0)

/-! ## Array access -/

@[simp] theorem Slots.get_ACC {α : Type} (a : Slots α) : a.get ACC = a.acc := rfl

@[simp] theorem Slots.get_SO {α : Type} (a : Slots α) : a.get SO = a.so := rfl

@[simp] theorem Slots.get_SM {α : Type} (a : Slots α) : a.get SM = a.sm := rfl

@[simp] theorem Slots.set_ACC {α : Type} (a : Slots α) (v : α) :
    a.set ACC v = { a with acc := v } := rfl

@[simp] theorem Slots.set_SO {α : Type} (a : Slots α) (v : α) :
    a.set SO v = { a with so := v } := rfl

@[simp] theorem Slots.set_SM {α : Type} (a : Slots α) (v : α) :
    a.set SM v = { a with sm := v } := rfl

@[simp] theorem Slots.get_zero {α : Type} (a : Slots α) : a.get 0 = a.acc := rfl

@[simp] theorem Slots.get_one {α : Type} (a : Slots α) : a.get 1 = a.so := rfl

@[simp] theorem Slots.get_two {α : Type} (a : Slots α) : a.get 2 = a.sm := rfl

@[simp] theorem Slots.set_zero {α : Type} (a : Slots α) (v : α) :
    a.set 0 v = { a with acc := v } := rfl

@[simp] theorem Slots.set_one {α : Type} (a : Slots α) (v : α) :
    a.set 1 v = { a with so := v } := rfl

@[simp] theorem Slots.set_two {α : Type} (a : Slots α) (v : α) :
    a.set 2 v = { a with sm := v } := rfl

/-! ## Arithmetic of `int` -/

theorem toInt32_of_range (x : Int) (h1 : -2147483648 ≤ x) (h2 : x < 2147483648) :
    toInt32 x = x := by
  unfold toInt32
  omega

theorem toInt32_succ (c : Int) (h1 : INT_MIN ≤ c) (h2 : c < INT_MAX) :
    toInt32 (c + 1) = c + 1 := by
  unfold INT_MIN at h1
  unfold INT_MAX at h2
  exact toInt32_of_range _ (by omega) (by omega)

theorem toInt32_pred (c : Int) (h1 : INT_MIN < c) (h2 : c ≤ INT_MAX) :
    toInt32 (c - 1) = c - 1 := by
  unfold INT_MIN at h1
  unfold INT_MAX at h2
  exact toInt32_of_range _ (by omega) (by omega)

@[simp] theorem toInt32_zero : toInt32 0 = 0 := by decide

@[simp] theorem toInt32_one : toInt32 1 = 1 := by decide

/-! ## Bit arithmetic -/

theorem or_and_of_disjoint (a m k : Nat) (h : m &&& k = 0) : (a ||| m) &&& k = a &&& k := by
  apply Nat.eq_of_testBit_eq
  intro j
  have hj := congrArg (fun x => x.testBit j) h
  simp only [Nat.testBit_and, Nat.zero_testBit] at hj
  simp only [Nat.testBit_and, Nat.testBit_or]
  cases ha : a.testBit j <;> cases hm : m.testBit j <;> cases hk : k.testBit j <;>
    simp_all

theorem testBit_u32max (j : Nat) : (4294967295 : Nat).testBit j = decide (j < 32) := by
  have h : (4294967295 : Nat) = 2 ^ 32 - 1 := by norm_num
  rw [h, Nat.testBit_two_pow_sub_one]

theorem testBit_of_lt_u32 (k j : Nat) (hk : k < 4294967296) (hj : 32 ≤ j) :
    k.testBit j = false := by
  apply Nat.testBit_lt_two_pow
  calc k < 2 ^ 32 := by simpa using hk
    _ ≤ 2 ^ j := Nat.pow_le_pow_right (by norm_num) hj

theorem andnot_and_of_disjoint (a m k : Nat) (h : m &&& k = 0) (hk : k < 4294967296) :
    (a &&& (4294967295 ^^^ m)) &&& k = a &&& k := by
  apply Nat.eq_of_testBit_eq
  intro j
  have hj := congrArg (fun x => x.testBit j) h
  simp only [Nat.testBit_and, Nat.zero_testBit] at hj
  simp only [Nat.testBit_and, Nat.testBit_xor, testBit_u32max]
  by_cases h32 : j < 32
  · cases ha : a.testBit j <;> cases hm : m.testBit j <;> cases hk : k.testBit j <;>
      simp_all
  · have := testBit_of_lt_u32 k j hk (by omega)
    simp [this]

theorem andnot_and_self (a m : Nat) (hm : m < 4294967296) :
    (a &&& (4294967295 ^^^ m)) &&& m = 0 := by
  apply Nat.eq_of_testBit_eq
  intro j
  simp only [Nat.testBit_and, Nat.testBit_xor, testBit_u32max, Nat.zero_testBit]
  by_cases h32 : j < 32
  · cases ha : a.testBit j <;> cases hb : m.testBit j <;> simp [h32]
  · have := testBit_of_lt_u32 m j hm (by omega)
    simp [this]

theorem or_and_self (a m : Nat) : (a ||| m) &&& m = m := by
  apply Nat.eq_of_testBit_eq
  intro j
  simp only [Nat.testBit_and, Nat.testBit_or]
  cases ha : a.testBit j <;> cases hm : m.testBit j <;> simp

/-! ## enable -/

/-- The short cut `(mEnabled & mask) == enable` of `enable` compares the masked word with
0 or 1: a request to switch on a sensor whose mask bits are set goes to the device
whenever those bits are not the number 1. -/
theorem enableMasked_on_not_short_cut {F : Type} (cfg : Config F) (st : State F)
    (handle en : Int) (mask : Nat) (ioctlRet : Int) (hen : en ≠ 0)
    (hne : st.mEnabled &&& mask ≠ 1) :
    Effect.ioctlSetEnable (st.mEnabled ||| mask) ∈
      (enableMasked cfg st handle en mask ioctlRet).fx := by
  unfold enableMasked
  by_cases hr : ioctlRet < 0 <;> simp [hen, hne, hr]

/-- C5, evaluated: after `enable(ID_SO, 1)` has succeeded the screen-orientation bit
(mask 2) is set; a second `enable(ID_SO, 1)` does not take the short cut: it sends the
set-enable request with flag 2 and returns what the ioctl returns, here -5. -/
theorem enable_on_already_enabled_reaches_device :
    isEnabled sampleConfig
        (enable sampleConfig (init sampleConfig) sampleConfig.ID_SO 1 0).st SO = true ∧
      enable sampleConfig (enable sampleConfig (init sampleConfig) sampleConfig.ID_SO 1 0).st
          sampleConfig.ID_SO 1 (-5) =
        { ret := -5
          st := (enable sampleConfig (init sampleConfig) sampleConfig.ID_SO 1 0).st
          out := []
          fx := [Effect.ioctlSetEnable 2] } := by
  decide

/-- C6: for each of the three logical sensors, when its bit is clear in the enabled mask,
`enable(sensor, 0)` returns 0, makes no request (no ioctl, no side-channel call) and
leaves the state as it was, whatever the device would have answered. -/
theorem enable_off_when_disabled_is_noop {F : Type} (cfg : Config F)
    (hd : cfg.handlesDistinct) (st : State F) (i : Nat) (hi : i < NUM_SENSORS)
    (hoff : isEnabled cfg st i = false) (ioctlRet : Int) :
    enable cfg st (slotId cfg i) 0 ioctlRet = { ret := 0, st := st, out := [], fx := [] } := by
  obtain ⟨h1, h2, h3, h4, h5, h6⟩ := hd
  have hi3 : i = 0 ∨ i = 1 ∨ i = 2 := by unfold NUM_SENSORS at hi; omega
  rcases hi3 with rfl | rfl | rfl <;>
    simp_all [enable, enableMasked, slotId, isEnabled, indexToMask, ACC, SO, SM, Ne.symm]

theorem enable_off_when_disabled_is_noop_witness :
    sampleConfig.handlesDistinct ∧ SM < NUM_SENSORS ∧
      isEnabled sampleConfig (init sampleConfig) SM = false ∧
      enable sampleConfig (init sampleConfig) (slotId sampleConfig SM) 0 (-5) =
        { ret := 0, st := init sampleConfig, out := [], fx := [] } :=
  ⟨by decide, by decide, by decide,
    enable_off_when_disabled_is_noop sampleConfig (by decide) (init sampleConfig) SM
      (by decide) (by decide) (-5)⟩

/-- C7: when `enable(sensor, on)` changes the state of one of the three logical sensors
(it was off and `on` is non-zero, or it was on and `on` is zero), exactly one device
request is made, a set-enable whose flag is the previous enabled mask with that sensor's
mask or-ed in (on) or and-ed out (off); if the ioctl succeeds the stored mask is that
flag, the sensor's test then agrees with `on`, and the masked bits of the other two
sensors are what they were. -/
theorem enable_change_sends_combined_mask {F : Type} (cfg : Config F)
    (hd : cfg.handlesDistinct) (hm : cfg.masksSeparate) (st : State F) (i : Nat)
    (hi : i < NUM_SENSORS) (en ioctlRet : Int)
    (hchange : isEnabled cfg st i ≠ decide (en ≠ 0)) :
    (enable cfg st (slotId cfg i) en ioctlRet).fx.filter Effect.isIoctl =
        [Effect.ioctlSetEnable (newFlag cfg st i en)] ∧
      (0 ≤ ioctlRet →
        (enable cfg st (slotId cfg i) en ioctlRet).ret = 0 ∧
        (enable cfg st (slotId cfg i) en ioctlRet).st =
          { st with mEnabled := newFlag cfg st i en } ∧
        isEnabled cfg (enable cfg st (slotId cfg i) en ioctlRet).st i = decide (en ≠ 0) ∧
        ∀ j, j < NUM_SENSORS → j ≠ i →
          (enable cfg st (slotId cfg i) en ioctlRet).st.mEnabled &&& indexToMask cfg j =
            st.mEnabled &&& indexToMask cfg j) := by
  obtain ⟨h1, h2, h3, h4, h5, h6⟩ := hd
  obtain ⟨z1, z2, z3, b1, b2, b3, d1, d2, d3⟩ := hm
  have d1s : cfg.MODE_ROTATE &&& cfg.MODE_ACCEL = 0 := by rw [Nat.land_comm]; exact d1
  have d2s : cfg.MODE_MOVEMENT &&& cfg.MODE_ACCEL = 0 := by rw [Nat.land_comm]; exact d2
  have d3s : cfg.MODE_MOVEMENT &&& cfg.MODE_ROTATE = 0 := by rw [Nat.land_comm]; exact d3
  have key : ∀ (handle : Int) (mask : Nat), mask ≠ 0 → mask < 4294967296 →
      ((st.mEnabled &&& mask != 0) ≠ decide (en ≠ 0)) →
      (enableMasked cfg st handle en mask ioctlRet).fx.filter Effect.isIoctl =
        [Effect.ioctlSetEnable (if en ≠ 0 then st.mEnabled ||| mask
          else st.mEnabled &&& (4294967295 ^^^ mask))] ∧
      (0 ≤ ioctlRet →
        (enableMasked cfg st handle en mask ioctlRet).ret = 0 ∧
        (enableMasked cfg st handle en mask ioctlRet).st =
          { st with mEnabled := (if en ≠ 0 then st.mEnabled ||| mask
              else st.mEnabled &&& (4294967295 ^^^ mask)) } ∧
        ((enableMasked cfg st handle en mask ioctlRet).st.mEnabled &&& mask != 0) =
          decide (en ≠ 0)) := by
    intro handle mask hmask0 hmask hch
    by_cases hen : en = 0
    · subst hen
      have hnz : st.mEnabled &&& mask ≠ 0 := by
        intro h0; apply hch; simp [h0]
      unfold enableMasked
      by_cases hr : ioctlRet < 0
      · simp [hnz, hr, Effect.isIoctl]
      · by_cases hA : handle = cfg.ID_A <;>
          simp [hnz, hr, hA, Effect.isIoctl, andnot_and_self _ _ hmask]
    · have hz : st.mEnabled &&& mask = 0 := by
        by_contra h0; apply hch; simp [h0, hen]
      unfold enableMasked
      by_cases hr : ioctlRet < 0
      · simp [hz, hr, hen, Effect.isIoctl]
      · by_cases hA : handle = cfg.ID_A <;>
          simp [hz, hr, hA, hen, Effect.isIoctl, or_and_self, hmask0]
  have hi3 : i = 0 ∨ i = 1 ∨ i = 2 := by unfold NUM_SENSORS at hi; omega
  rcases hi3 with rfl | rfl | rfl
  · have k := key cfg.ID_A cfg.MODE_ACCEL z1 b1
      (by simpa [isEnabled, indexToMask, ACC] using hchange)
    have e : enable cfg st (slotId cfg 0) en ioctlRet =
        enableMasked cfg st cfg.ID_A en cfg.MODE_ACCEL ioctlRet := by
      simp [enable, slotId, ACC]
    have f : newFlag cfg st 0 en = (if en ≠ 0 then st.mEnabled ||| cfg.MODE_ACCEL
        else st.mEnabled &&& (4294967295 ^^^ cfg.MODE_ACCEL)) := by
      simp [newFlag, indexToMask, ACC]
    rw [e, f]
    refine ⟨k.1, fun hr => ⟨(k.2 hr).1, (k.2 hr).2.1, ?_, ?_⟩⟩
    · simpa [isEnabled, indexToMask, ACC] using (k.2 hr).2.2
    · intro j hj hji
      have hj3 : j = 1 ∨ j = 2 := by unfold NUM_SENSORS at hj; omega
      rw [(k.2 hr).2.1]
      rcases hj3 with rfl | rfl <;> by_cases hen : en = 0 <;>
        simp [indexToMask, ACC, SO, SM, hen, or_and_of_disjoint, andnot_and_of_disjoint,
          d1, d2, b2, b3]
  · have k := key cfg.ID_SO cfg.MODE_ROTATE z2 b2
      (by simpa [isEnabled, indexToMask, ACC, SO] using hchange)
    have e : enable cfg st (slotId cfg 1) en ioctlRet =
        enableMasked cfg st cfg.ID_SO en cfg.MODE_ROTATE ioctlRet := by
      simp [enable, slotId, ACC, SO, Ne.symm h1]
    have f : newFlag cfg st 1 en = (if en ≠ 0 then st.mEnabled ||| cfg.MODE_ROTATE
        else st.mEnabled &&& (4294967295 ^^^ cfg.MODE_ROTATE)) := by
      simp [newFlag, indexToMask, ACC, SO]
    rw [e, f]
    refine ⟨k.1, fun hr => ⟨(k.2 hr).1, (k.2 hr).2.1, ?_, ?_⟩⟩
    · simpa [isEnabled, indexToMask, ACC, SO] using (k.2 hr).2.2
    · intro j hj hji
      have hj3 : j = 0 ∨ j = 2 := by unfold NUM_SENSORS at hj; omega
      rw [(k.2 hr).2.1]
      rcases hj3 with rfl | rfl <;> by_cases hen : en = 0 <;>
        simp [indexToMask, ACC, SO, SM, hen, or_and_of_disjoint, andnot_and_of_disjoint,
          d1s, d3, b1, b3]
  · have k := key cfg.ID_SM cfg.MODE_MOVEMENT z3 b3
      (by simpa [isEnabled, indexToMask, ACC, SO, SM] using hchange)
    have e : enable cfg st (slotId cfg 2) en ioctlRet =
        enableMasked cfg st cfg.ID_SM en cfg.MODE_MOVEMENT ioctlRet := by
      simp [enable, slotId, ACC, SO, Ne.symm h2, Ne.symm h4]
    have f : newFlag cfg st 2 en = (if en ≠ 0 then st.mEnabled ||| cfg.MODE_MOVEMENT
        else st.mEnabled &&& (4294967295 ^^^ cfg.MODE_MOVEMENT)) := by
      simp [newFlag, indexToMask, ACC, SO, SM]
    rw [e, f]
    refine ⟨k.1, fun hr => ⟨(k.2 hr).1, (k.2 hr).2.1, ?_, ?_⟩⟩
    · simpa [isEnabled, indexToMask, ACC, SO, SM] using (k.2 hr).2.2
    · intro j hj hji
      have hj3 : j = 0 ∨ j = 1 := by unfold NUM_SENSORS at hj; omega
      rw [(k.2 hr).2.1]
      rcases hj3 with rfl | rfl <;> by_cases hen : en = 0 <;>
        simp [indexToMask, ACC, SO, SM, hen, or_and_of_disjoint, andnot_and_of_disjoint,
          d2s, d3s, b1, b2]

theorem enable_change_sends_combined_mask_witness :
    sampleConfig.handlesDistinct ∧ sampleConfig.masksSeparate ∧ SO < NUM_SENSORS ∧
      isEnabled sampleConfig { init sampleConfig with mEnabled := 5 } SO ≠ decide ((1 : Int) ≠ 0) ∧
      (enable sampleConfig { init sampleConfig with mEnabled := 5 }
          (slotId sampleConfig SO) 1 0).fx.filter Effect.isIoctl =
        [Effect.ioctlSetEnable 7] :=
  ⟨by decide, by decide, by decide, by decide,
    (enable_change_sends_combined_mask sampleConfig (by decide) (by decide)
      { init sampleConfig with mEnabled := 5 } SO (by decide) 1 0 (by decide)).1⟩

/-- C8: if `enable` makes the set-enable request and the ioctl returns a negative value,
`enable` returns that value, the state after the call is the state before it (enabled
mask, side-channel flag, cached delay, pending mask, flush counters, all fields), and no
request goes to the side channel. -/
theorem enable_ioctl_failure_keeps_state {F : Type} (cfg : Config F) (st : State F)
    (handle en ioctlRet : Int) (hneg : ioctlRet < 0)
    (hreq : ∃ flag, Effect.ioctlSetEnable flag ∈ (enable cfg st handle en ioctlRet).fx) :
    (enable cfg st handle en ioctlRet).ret = ioctlRet ∧
      (enable cfg st handle en ioctlRet).st = st ∧
      (enable cfg st handle en ioctlRet).fx.filter Effect.isAkm = [] := by
  have key : ∀ mask : Nat,
      (∃ flag, Effect.ioctlSetEnable flag ∈ (enableMasked cfg st handle en mask ioctlRet).fx) →
      (enableMasked cfg st handle en mask ioctlRet).ret = ioctlRet ∧
        (enableMasked cfg st handle en mask ioctlRet).st = st ∧
        (enableMasked cfg st handle en mask ioctlRet).fx.filter Effect.isAkm = [] := by
    intro mask
    unfold enableMasked
    by_cases hen : en = 0
    · by_cases hs : st.mEnabled &&& mask = 0 <;> simp [hen, hs, hneg, Effect.isAkm]
    · by_cases hs : st.mEnabled &&& mask = 1 <;> simp [hen, hs, hneg, Effect.isAkm]
  unfold enable at hreq ⊢
  by_cases hA : handle = cfg.ID_A
  · rw [if_pos hA] at hreq ⊢
    exact key _ hreq
  · rw [if_neg hA] at hreq ⊢
    by_cases hSO : handle = cfg.ID_SO
    · rw [if_pos hSO] at hreq ⊢
      exact key _ hreq
    · rw [if_neg hSO] at hreq ⊢
      by_cases hSM : handle = cfg.ID_SM
      · rw [if_pos hSM] at hreq ⊢
        exact key _ hreq
      · rw [if_neg hSM] at hreq
        by_cases hO : handle = cfg.ID_O
        · rw [if_pos hO] at hreq; simp at hreq
        · rw [if_neg hO] at hreq; simp at hreq

theorem enable_ioctl_failure_keeps_state_witness :
    (-5 : Int) < 0 ∧
      (∃ flag, Effect.ioctlSetEnable flag ∈
        (enable sampleConfig (init sampleConfig) sampleConfig.ID_A 1 (-5)).fx) ∧
      (enable sampleConfig (init sampleConfig) sampleConfig.ID_A 1 (-5)).ret = -5 ∧
      (enable sampleConfig (init sampleConfig) sampleConfig.ID_A 1 (-5)).st =
        init sampleConfig ∧
      (enable sampleConfig (init sampleConfig) sampleConfig.ID_A 1 (-5)).fx.filter
        Effect.isAkm = [] :=
  ⟨by decide, ⟨1, by decide⟩,
    enable_ioctl_failure_keeps_state sampleConfig (init sampleConfig) sampleConfig.ID_A 1 (-5)
      (by decide) ⟨1, by decide⟩⟩

/-! ## flush -/

/-- C9, as the source has it: `flush(ID_SM)` returns `-EINVAL`; `flush(ID_A)` and
`flush(ID_SO)` return `-EINVAL` when the sensor's bit is clear in the enabled mask; `flush`
of any other handle returns `-EINVAL`; in these cases the state, every flush counter
included, is unchanged and no request is made. When the sensor is enabled `flush` returns
0, makes no request and changes nothing but that sensor's flush counter: a counter (a
value of type `int`, so at least `INT_MIN`) below `INT_MAX` becomes one higher, a counter
equal to `INT_MAX` becomes `INT_MIN`. -/
theorem flush_contract {F : Type} (cfg : Config F) (hd : cfg.handlesDistinct)
    (st : State F) :
    flush cfg st cfg.ID_SM = { ret := -EINVAL, st := st, out := [], fx := [] } ∧
    (isEnabled cfg st ACC = false →
      flush cfg st cfg.ID_A = { ret := -EINVAL, st := st, out := [], fx := [] }) ∧
    (isEnabled cfg st SO = false →
      flush cfg st cfg.ID_SO = { ret := -EINVAL, st := st, out := [], fx := [] }) ∧
    (∀ handle : Int, handle ≠ cfg.ID_A → handle ≠ cfg.ID_SO →
      flush cfg st handle = { ret := -EINVAL, st := st, out := [], fx := [] }) ∧
    (isEnabled cfg st ACC = true → INT_MIN ≤ st.mPendingEventsFlushCount.acc →
      st.mPendingEventsFlushCount.acc < INT_MAX →
      flush cfg st cfg.ID_A =
        { ret := 0
          st := { st with mPendingEventsFlushCount :=
                    { st.mPendingEventsFlushCount with
                      acc := st.mPendingEventsFlushCount.acc + 1 } }
          out := []
          fx := [] }) ∧
    (isEnabled cfg st SO = true → INT_MIN ≤ st.mPendingEventsFlushCount.so →
      st.mPendingEventsFlushCount.so < INT_MAX →
      flush cfg st cfg.ID_SO =
        { ret := 0
          st := { st with mPendingEventsFlushCount :=
                    { st.mPendingEventsFlushCount with
                      so := st.mPendingEventsFlushCount.so + 1 } }
          out := []
          fx := [] }) ∧
    (isEnabled cfg st ACC = true → st.mPendingEventsFlushCount.acc = INT_MAX →
      flush cfg st cfg.ID_A =
        { ret := 0
          st := { st with mPendingEventsFlushCount :=
                    { st.mPendingEventsFlushCount with acc := INT_MIN } }
          out := []
          fx := [] }) ∧
    (isEnabled cfg st SO = true → st.mPendingEventsFlushCount.so = INT_MAX →
      flush cfg st cfg.ID_SO =
        { ret := 0
          st := { st with mPendingEventsFlushCount :=
                    { st.mPendingEventsFlushCount with so := INT_MIN } }
          out := []
          fx := [] }) := by
  obtain ⟨h1, h2, h3, h4, h5, h6⟩ := hd
  have hmax : toInt32 (INT_MAX + 1) = INT_MIN := by decide
  refine ⟨?_, ?_, ?_, ?_, ?_, ?_, ?_, ?_⟩
  · simp [flush, Ne.symm h2, Ne.symm h4]
  · intro h; simp [flush, h]
  · intro h; simp [flush, h, Ne.symm h1]
  · intro handle hA hSO; simp [flush, hA, hSO]
  · intro h lo hi; simp [flush, h, toInt32_succ _ lo hi]
  · intro h lo hi; simp [flush, h, Ne.symm h1, toInt32_succ _ lo hi]
  · intro h e; simp [flush, h, e, hmax]
  · intro h e; simp [flush, h, Ne.symm h1, e, hmax]

theorem flush_contract_witness :
    sampleConfig.handlesDistinct ∧
      isEnabled sampleConfig { init sampleConfig with mEnabled := 2 } ACC = false ∧
      isEnabled sampleConfig { init sampleConfig with mEnabled := 2 } SO = true ∧
      flush sampleConfig { init sampleConfig with mEnabled := 2 } sampleConfig.ID_A =
        { ret := -EINVAL, st := { init sampleConfig with mEnabled := 2 }, out := [], fx := [] } ∧
      (flush sampleConfig { init sampleConfig with mEnabled := 2 }
        sampleConfig.ID_SO).st.mPendingEventsFlushCount = { acc := 0, so := 1, sm := 0 } ∧
      (flush sampleConfig
        { init sampleConfig with
          mEnabled := 2, mPendingEventsFlushCount := { acc := 0, so := 2147483647, sm := 0 } }
        sampleConfig.ID_SO).st.mPendingEventsFlushCount =
          { acc := 0, so := -2147483648, sm := 0 } :=
  ⟨by decide, by decide, by decide,
    (flush_contract sampleConfig (by decide) { init sampleConfig with mEnabled := 2 }).2.1
      (by decide),
    by
      rw [(flush_contract sampleConfig (by decide)
        { init sampleConfig with mEnabled := 2 }).2.2.2.2.2.1 (by decide) (by decide)
        (by decide)]
      decide,
    by
      rw [(flush_contract sampleConfig (by decide)
        { init sampleConfig with
          mEnabled := 2
          mPendingEventsFlushCount := { acc := 0, so := 2147483647, sm := 0 } }).2.2.2.2.2.2.2
        (by decide) (by decide)]
      decide⟩

/-! ## readEvents: count of the elements written -/

theorem flushStep_counted {F : Type} (cfg : Config F) (env : ReadEnv) (i : Nat) (c0 : Int)
    (r : Run F) (h : r.Counted c0) (hc : r.count ≠ 0) : (flushStep cfg env i r).Counted c0 := by
  obtain ⟨h1, h2, h3⟩ := h
  unfold flushStep
  split_ifs
  · exact ⟨h1, h2, h3⟩
  · refine ⟨?_, ?_, ?_⟩
    · show 0 ≤ r.count - 1
      omega
    · show r.numEventReceived + 1 = ((r.out ++ [_]).length : Int)
      simp [h2]
    · show r.numEventReceived + 1 + (r.count - 1) = c0
      omega

theorem flushLoop_counted {F : Type} (cfg : Config F) (env : ReadEnv) (c0 : Int) :
    ∀ (l : List Nat) (r : Run F), r.Counted c0 → (flushLoop cfg env l r).Counted c0
  | [], r, h => by simpa [flushLoop] using h
  | i :: rest, r, h => by
    unfold flushLoop
    split_ifs with hc
    · exact h
    · exact flushLoop_counted cfg env c0 rest _ (flushStep_counted cfg env i c0 r h hc)

theorem syncAkm_counted {F : Type} (i : Nat) (c0 : Int) (r : Run F) (h : r.Counted c0) :
    (syncAkm i r).Counted c0 := by
  unfold syncAkm
  split_ifs
  · exact h
  · exact h

theorem syncEmit_counted {F : Type} (cfg : Config F) (env : ReadEnv) (i : Nat) (c0 : Int)
    (r : Run F) (h : r.Counted c0) (hc : r.count ≠ 0) : (syncEmit cfg env i r).Counted c0 := by
  obtain ⟨h1, h2, h3⟩ := h
  have key : (0 : Int) ≤ r.count - 1 ∧
      r.numEventReceived + 1 = ((r.out ++ [OutEvent.data i (r.st.mPendingEvents.get i)]).length : Int) ∧
      r.numEventReceived + 1 + (r.count - 1) = c0 := by
    refine ⟨by omega, by simp [h2], by omega⟩
  unfold syncEmit
  split_ifs
  · exact key
  · exact key

theorem syncStep_counted {F : Type} (cfg : Config F) (env : ReadEnv) (t : TimeVal) (i : Nat)
    (c0 : Int) (r : Run F) (h : r.Counted c0) (hc : r.count ≠ 0) :
    (syncStep cfg env t i r).Counted c0 := by
  have h1 : Run.Counted c0 ({ r with st := stampSlot cfg t i r.st } : Run F) := h
  unfold syncStep
  split_ifs
  · apply syncAkm_counted
    split_ifs
    · exact syncEmit_counted cfg env i c0 _ h1 hc
    · exact h1
  · exact h

theorem syncLoop_counted {F : Type} (cfg : Config F) (env : ReadEnv) (t : TimeVal) (c0 : Int) :
    ∀ (l : List Nat) (r : Run F), r.Counted c0 → (syncLoop cfg env t l r).Counted c0
  | [], r, h => by simpa [syncLoop] using h
  | i :: rest, r, h => by
    unfold syncLoop
    split_ifs with hc
    · exact h
    · have hc0 : r.count ≠ 0 := fun h0 => hc (Or.inl h0)
      exact syncLoop_counted cfg env t c0 rest _ (syncStep_counted cfg env t i c0 r h hc0)

theorem processEvent_counted {F : Type} (cfg : Config F) (env : ReadEnv) (e : InputEvent)
    (c0 : Int) (r : Run F) (h : r.Counted c0) : (processEvent cfg env e r).Counted c0 := by
  unfold processEvent
  split_ifs
  all_goals first
    | exact h
    | exact syncLoop_counted cfg env e.time c0 _ r h

theorem eventLoop_counted {F : Type} (cfg : Config F) (env : ReadEnv) (c0 : Int) :
    ∀ (q : List InputEvent) (r : Run F), r.Counted c0 → (eventLoop cfg env q r).Counted c0
  | [], r, h => by simpa [eventLoop] using h
  | e :: q, r, h => by
    unfold eventLoop
    split_ifs with hc
    · exact h
    · exact eventLoop_counted cfg env c0 q _ (processEvent_counted cfg env e c0 r h)

/-- C1: `readEvents` called with capacity `count` returns `-EINVAL` when `count < 1`;
otherwise, when the reader's `fill` does not fail, the returned value is between 0 and
`count` and is the number of elements written to the output (flush events and data
events together). -/
theorem readEvents_returns_number_written {F : Type} (cfg : Config F) (st : State F)
    (count : Int) (env : ReadEnv) :
    (count < 1 → (readEvents cfg st count env).ret = -EINVAL) ∧
      (1 ≤ count → 0 ≤ env.n →
        0 ≤ (readEvents cfg st count env).ret ∧
        (readEvents cfg st count env).ret ≤ count ∧
        (readEvents cfg st count env).ret = ((readEvents cfg st count env).out.length : Int)) := by
  constructor
  · intro h
    simp [readEvents, h]
  · intro h1 hn
    have hc : ¬ count < 1 := by omega
    have hn' : ¬ env.n < 0 := by omega
    have h0 : Run.Counted count (startRun st count env) :=
      ⟨by show 0 ≤ count; omega, by simp [startRun], by simp [startRun]⟩
    have hf := flushLoop_counted cfg env count (List.range NUM_SENSORS) _ h0
    obtain ⟨e1, e2, e3⟩ := eventLoop_counted cfg env count
      (flushLoop cfg env (List.range NUM_SENSORS) _).st.mInputReader _ hf
    simp only [readEvents, hc, hn', if_false]
    refine ⟨?_, ?_, e2⟩
    · rw [e2]; exact Int.natCast_nonneg _
    · omega

theorem readEvents_returns_number_written_witness :
    (readEvents sampleConfig (init sampleConfig) 0 (sampleEnv 0 [] 0)).ret = -EINVAL ∧
      (readEvents sampleConfig (init sampleConfig) 2 (sampleEnv 0 [] 0)).ret ≤ 2 :=
  ⟨(readEvents_returns_number_written sampleConfig (init sampleConfig) 0
      (sampleEnv 0 [] 0)).1 (by decide),
    ((readEvents_returns_number_written sampleConfig (init sampleConfig) 2
      (sampleEnv 0 [] 0)).2 (by decide) (by decide)).2.1⟩

/-! ## readEvents: order of the elements written -/

theorem flushStep_mPendingEvents {F : Type} (cfg : Config F) (env : ReadEnv) (i : Nat)
    (r : Run F) : (flushStep cfg env i r).st.mPendingEvents = r.st.mPendingEvents := by
  unfold flushStep
  split_ifs <;> rfl

theorem flushLoop_out {F : Type} (cfg : Config F) (env : ReadEnv) :
    ∀ (l : List Nat) (r : Run F), ∃ (idxs : List Nat) (ms : List MetaEvent),
      List.Sublist idxs l ∧
      ms.map MetaEvent.sensor = idxs.map (fun i => (r.st.mPendingEvents.get i).sensor) ∧
      (flushLoop cfg env l r).out = r.out ++ ms.map OutEvent.flushComplete
  | [], r => ⟨[], [], List.Sublist.slnil, rfl, by simp [flushLoop]⟩
  | i :: rest, r => by
    unfold flushLoop
    split_ifs with hc
    · exact ⟨[], [], List.nil_sublist _, rfl, by simp⟩
    · obtain ⟨idxs, ms, hsub, hsens, hout⟩ := flushLoop_out cfg env rest (flushStep cfg env i r)
      rw [flushStep_mPendingEvents] at hsens
      by_cases hz : r.st.mPendingEventsFlushCount.get i = 0
      · have e : flushStep cfg env i r = r := by simp [flushStep, hz]
        rw [e] at hout ⊢
        exact ⟨idxs, ms, List.Sublist.cons _ hsub, hsens, hout⟩
      · have e : (flushStep cfg env i r).out = r.out ++
            [OutEvent.flushComplete
              { version := cfg.META_DATA_VERSION
                type := cfg.SENSOR_TYPE_META_DATA
                what := cfg.META_DATA_FLUSH_COMPLETE
                sensor := (r.st.mPendingEvents.get i).sensor
                reserved0 := 0
                timestamp := env.getTimestamp r.out.length }] := by
          simp [flushStep, hz]
        rw [e] at hout
        refine ⟨i :: idxs,
          { version := cfg.META_DATA_VERSION
            type := cfg.SENSOR_TYPE_META_DATA
            what := cfg.META_DATA_FLUSH_COMPLETE
            sensor := (r.st.mPendingEvents.get i).sensor
            reserved0 := 0
            timestamp := env.getTimestamp r.out.length } :: ms,
          List.Sublist.cons₂ _ hsub, ?_, ?_⟩
        · simp only [List.map_cons, hsens]
        · rw [hout]; simp

theorem syncAkm_out {F : Type} (i : Nat) (r : Run F) : (syncAkm i r).out = r.out := by
  unfold syncAkm
  split_ifs <;> rfl

theorem syncEmit_out {F : Type} (cfg : Config F) (env : ReadEnv) (i : Nat) (r : Run F) :
    (syncEmit cfg env i r).out = r.out ++ [OutEvent.data i (r.st.mPendingEvents.get i)] := by
  unfold syncEmit
  split_ifs <;> rfl

theorem syncStep_out {F : Type} (cfg : Config F) (env : ReadEnv) (t : TimeVal) (i : Nat)
    (r : Run F) : ∃ ds : List (OutEvent F),
      (∀ d ∈ ds, ∃ e, d = OutEvent.data i e) ∧ (syncStep cfg env t i r).out = r.out ++ ds := by
  unfold syncStep
  split_ifs
  · rw [syncAkm_out]
    split_ifs
    · rw [syncEmit_out]
      exact ⟨[_], by simp, rfl⟩
    · exact ⟨[], by simp, by simp⟩
  · exact ⟨[], by simp, by simp⟩

theorem syncLoop_out {F : Type} (cfg : Config F) (env : ReadEnv) (t : TimeVal) :
    ∀ (l : List Nat) (r : Run F), ∃ ds : List (OutEvent F),
      (∀ d ∈ ds, ∃ i e, i ∈ l ∧ d = OutEvent.data i e) ∧
      (syncLoop cfg env t l r).out = r.out ++ ds
  | [], r => ⟨[], by simp, by simp [syncLoop]⟩
  | i :: rest, r => by
    unfold syncLoop
    split_ifs with hc
    · exact ⟨[], by simp, by simp⟩
    · obtain ⟨ds1, hd1, ho1⟩ := syncStep_out cfg env t i r
      obtain ⟨ds2, hd2, ho2⟩ := syncLoop_out cfg env t rest (syncStep cfg env t i r)
      refine ⟨ds1 ++ ds2, ?_, ?_⟩
      · intro d hd
        rcases List.mem_append.mp hd with h | h
        · obtain ⟨e, he⟩ := hd1 d h
          exact ⟨i, e, List.mem_cons_self _ _, he⟩
        · obtain ⟨j, e, hj, he⟩ := hd2 d h
          exact ⟨j, e, List.mem_cons_of_mem _ hj, he⟩
      · rw [ho2, ho1, List.append_assoc]

theorem processEvent_out {F : Type} (cfg : Config F) (env : ReadEnv) (e : InputEvent)
    (r : Run F) : ∃ ds : List (OutEvent F),
      (∀ d ∈ ds, ∃ i ev, i < NUM_SENSORS ∧ d = OutEvent.data i ev) ∧
      (processEvent cfg env e r).out = r.out ++ ds := by
  unfold processEvent
  split_ifs
  all_goals first
    | (obtain ⟨ds, hd, ho⟩ := syncLoop_out cfg env e.time (List.range NUM_SENSORS) r
       refine ⟨ds, ?_, ho⟩
       intro d hdm
       obtain ⟨i, ev, hi, he⟩ := hd d hdm
       exact ⟨i, ev, List.mem_range.mp hi, he⟩)
    | exact ⟨[], by simp, by simp⟩

theorem eventLoop_out {F : Type} (cfg : Config F) (env : ReadEnv) :
    ∀ (q : List InputEvent) (r : Run F), ∃ ds : List (OutEvent F),
      (∀ d ∈ ds, ∃ i ev, i < NUM_SENSORS ∧ d = OutEvent.data i ev) ∧
      (eventLoop cfg env q r).out = r.out ++ ds
  | [], r => ⟨[], by simp, by simp [eventLoop]⟩
  | e :: q, r => by
    unfold eventLoop
    split_ifs with hc
    · exact ⟨[], by simp, by simp⟩
    · obtain ⟨ds1, hd1, ho1⟩ := processEvent_out cfg env e r
      obtain ⟨ds2, hd2, ho2⟩ := eventLoop_out cfg env q (processEvent cfg env e r)
      refine ⟨ds1 ++ ds2, ?_, ?_⟩
      · intro d hd
        rcases List.mem_append.mp hd with h | h
        · exact hd1 d h
        · exact hd2 d h
      · rw [ho2, ho1, List.append_assoc]

/-- C2: the elements one call of `readEvents` writes are flush events followed by data
events: the flush events name the handles stored in slots `idxs`, where `idxs` is a
sublist of `[ACC, SO, SM]` (so the slot indices strictly ascend), and every element after
them is a copy of a pending record. -/
theorem readEvents_flush_events_first {F : Type} (cfg : Config F) (st : State F)
    (count : Int) (env : ReadEnv) :
    ∃ (idxs : List Nat) (ms : List MetaEvent) (ds : List (OutEvent F)),
      List.Sublist idxs [ACC, SO, SM] ∧ List.Pairwise (fun a b => a < b) idxs ∧
      ms.map MetaEvent.sensor = idxs.map (fun i => (st.mPendingEvents.get i).sensor) ∧
      (∀ d ∈ ds, ∃ i ev, i < NUM_SENSORS ∧ d = OutEvent.data i ev) ∧
      (readEvents cfg st count env).out = ms.map OutEvent.flushComplete ++ ds := by
  unfold readEvents
  split_ifs with hc hn
  · exact ⟨[], [], [], List.nil_sublist _, List.Pairwise.nil, rfl, by simp, rfl⟩
  · exact ⟨[], [], [], List.nil_sublist _, List.Pairwise.nil, rfl, by simp, rfl⟩
  · obtain ⟨idxs, ms, hsub, hsens, hout⟩ := flushLoop_out cfg env (List.range NUM_SENSORS)
      (startRun st count env)
    obtain ⟨ds, hds, hout2⟩ := eventLoop_out cfg env
      (flushLoop cfg env (List.range NUM_SENSORS) (startRun st count env)).st.mInputReader
      (flushLoop cfg env (List.range NUM_SENSORS) (startRun st count env))
    have hst : (startRun st count env).st.mPendingEvents = st.mPendingEvents := rfl
    have hso : (startRun st count env).out = [] := rfl
    rw [hst] at hsens
    rw [hso] at hout
    have hrange : List.range NUM_SENSORS = [ACC, SO, SM] := by decide
    rw [hrange] at hsub
    have hpw : List.Pairwise (fun a b => a < b) [ACC, SO, SM] := by decide
    refine ⟨idxs, ms, ds, hsub, hpw.sublist hsub, hsens, hds, ?_⟩
    show (eventLoop cfg env _ _).out = _
    rw [hout2, hout]
    simp

/-! ## readEvents: one accelerometer frame -/

theorem enableMasked_st {F : Type} (cfg : Config F) (st : State F) (handle en : Int)
    (mask : Nat) (ioctlRet : Int) :
    (enableMasked cfg st handle en mask ioctlRet).st = st ∨
      (0 ≤ ioctlRet ∧ (enableMasked cfg st handle en mask ioctlRet).st =
        { st with mEnabled :=
            if en ≠ 0 then st.mEnabled ||| mask else st.mEnabled &&& (4294967295 ^^^ mask) }) := by
  unfold enableMasked
  by_cases hr : ioctlRet < 0
  · left
    by_cases hen : en = 0
    · by_cases hs : st.mEnabled &&& mask = 0 <;> simp [hen, hs, hr]
    · by_cases hs : st.mEnabled &&& mask = 1 <;> simp [hen, hs, hr]
  · have hr0 : 0 ≤ ioctlRet := not_lt.mp hr
    by_cases hen : en = 0
    · by_cases hs : st.mEnabled &&& mask = 0
      · left; simp [hen, hs]
      · right; simp [hen, hs, hr, hr0]
    · by_cases hs : st.mEnabled &&& mask = 1
      · left; simp [hen, hs]
      · right; simp [hen, hs, hr, hr0]

theorem enable_st {F : Type} (cfg : Config F) (st : State F) (handle en ioctlRet : Int) :
    ∃ (f : Nat) (b : Bool),
      (enable cfg st handle en ioctlRet).st = { st with mEnabled := f, mOriEnabled := b } := by
  unfold enable
  split_ifs
  · rcases enableMasked_st cfg st handle en cfg.MODE_ACCEL ioctlRet with h | ⟨_, h⟩
    · exact ⟨st.mEnabled, st.mOriEnabled, by rw [h]⟩
    · exact ⟨_, st.mOriEnabled, by rw [h]⟩
  · rcases enableMasked_st cfg st handle en cfg.MODE_ROTATE ioctlRet with h | ⟨_, h⟩
    · exact ⟨st.mEnabled, st.mOriEnabled, by rw [h]⟩
    · exact ⟨_, st.mOriEnabled, by rw [h]⟩
  · rcases enableMasked_st cfg st handle en cfg.MODE_MOVEMENT ioctlRet with h | ⟨_, h⟩
    · exact ⟨st.mEnabled, st.mOriEnabled, by rw [h]⟩
    · exact ⟨_, st.mOriEnabled, by rw [h]⟩
  · exact ⟨st.mEnabled, _, rfl⟩
  · exact ⟨st.mEnabled, st.mOriEnabled, rfl⟩

theorem syncAkm_st {F : Type} (i : Nat) (r : Run F) : (syncAkm i r).st = r.st := by
  unfold syncAkm
  split_ifs <;> rfl

theorem syncEmit_st {F : Type} (cfg : Config F) (env : ReadEnv) (i : Nat) (r : Run F) :
    ∃ (f : Nat) (b : Bool),
      (syncEmit cfg env i r).st = { r.st with mEnabled := f, mOriEnabled := b } := by
  unfold syncEmit
  split_ifs
  · exact enable_st cfg r.st cfg.ID_SM 0 _
  · exact ⟨r.st.mEnabled, r.st.mOriEnabled, rfl⟩

theorem syncStep_flushCount {F : Type} (cfg : Config F) (env : ReadEnv) (t : TimeVal)
    (i : Nat) (r : Run F) :
    (syncStep cfg env t i r).st.mPendingEventsFlushCount = r.st.mPendingEventsFlushCount := by
  unfold syncStep
  split_ifs
  · rw [syncAkm_st]
    split_ifs
    · obtain ⟨f, b, h⟩ := syncEmit_st cfg env i ({ r with st := stampSlot cfg t i r.st } : Run F)
      rw [h]; rfl
    · rfl
  · rfl

theorem syncLoop_flushCount {F : Type} (cfg : Config F) (env : ReadEnv) (t : TimeVal) :
    ∀ (l : List Nat) (r : Run F),
      (syncLoop cfg env t l r).st.mPendingEventsFlushCount = r.st.mPendingEventsFlushCount
  | [], r => by simp [syncLoop]
  | i :: rest, r => by
    unfold syncLoop
    split_ifs
    · rfl
    · rw [syncLoop_flushCount cfg env t rest, syncStep_flushCount]

theorem processEvent_flushCount {F : Type} (cfg : Config F) (env : ReadEnv) (e : InputEvent)
    (r : Run F) :
    (processEvent cfg env e r).st.mPendingEventsFlushCount = r.st.mPendingEventsFlushCount := by
  unfold processEvent
  split_ifs
  all_goals first
    | exact syncLoop_flushCount cfg env e.time _ r
    | rfl

theorem eventLoop_flushCount {F : Type} (cfg : Config F) (env : ReadEnv) :
    ∀ (q : List InputEvent) (r : Run F),
      (eventLoop cfg env q r).st.mPendingEventsFlushCount = r.st.mPendingEventsFlushCount
  | [], r => by simp [eventLoop]
  | e :: q, r => by
    unfold eventLoop
    split_ifs
    · rfl
    · rw [eventLoop_flushCount cfg env q, processEvent_flushCount]

theorem readEvents_phases {F : Type} (cfg : Config F) (st : State F) (count : Int)
    (env : ReadEnv) (hcap : 1 ≤ count) (hn : 0 ≤ env.n) :
    ∃ ds : List (OutEvent F),
      (∀ d ∈ ds, ∃ i ev, i < NUM_SENSORS ∧ d = OutEvent.data i ev) ∧
      (readEvents cfg st count env).out =
        (flushLoop cfg env (List.range NUM_SENSORS) (startRun st count env)).out ++ ds ∧
      (readEvents cfg st count env).st.mPendingEventsFlushCount =
        (flushLoop cfg env (List.range NUM_SENSORS)
          (startRun st count env)).st.mPendingEventsFlushCount := by
  have hc : ¬ count < 1 := by omega
  have hn' : ¬ env.n < 0 := by omega
  obtain ⟨ds, hds, hout⟩ := eventLoop_out cfg env
    (flushLoop cfg env (List.range NUM_SENSORS) (startRun st count env)).st.mInputReader
    (flushLoop cfg env (List.range NUM_SENSORS) (startRun st count env))
  refine ⟨ds, hds, ?_, ?_⟩
  · simp only [readEvents, hc, hn', if_false]
    exact hout
  · simp only [readEvents, hc, hn', if_false]
    exact eventLoop_flushCount cfg env _ _

theorem filter_isFlushOf_data {F : Type} (id : Int) (ds : List (OutEvent F))
    (h : ∀ d ∈ ds, ∃ i ev, i < NUM_SENSORS ∧ d = OutEvent.data i ev) :
    ds.filter (OutEvent.isFlushOf id) = [] := by
  rw [List.filter_eq_nil_iff]
  intro d hd
  obtain ⟨i, ev, _, rfl⟩ := h d hd
  simp [OutEvent.isFlushOf]

/-! ## flush followed by readEvents -/

theorem flush_ID_A_enabled {F : Type} (cfg : Config F) (st : State F)
    (hen : isEnabled cfg st ACC = true) :
    flush cfg st cfg.ID_A =
      { ret := 0
        st := { st with mPendingEventsFlushCount :=
                  { st.mPendingEventsFlushCount with
                    acc := toInt32 (st.mPendingEventsFlushCount.acc + 1) } }
        out := []
        fx := [] } := by
  simp [flush, hen]

theorem flush_ID_SO_enabled {F : Type} (cfg : Config F) (hne : cfg.ID_A ≠ cfg.ID_SO)
    (st : State F) (hen : isEnabled cfg st SO = true) :
    flush cfg st cfg.ID_SO =
      { ret := 0
        st := { st with mPendingEventsFlushCount :=
                  { st.mPendingEventsFlushCount with
                    so := toInt32 (st.mPendingEventsFlushCount.so + 1) } }
        out := []
        fx := [] } := by
  simp [flush, hen, Ne.symm hne]

/-- C10, as the source has it: for the accelerometer or the screen-orientation sensor,
enabled and with flush counter zero, in a state whose records carry their handles,
`flush` returns 0; a following `readEvents` with capacity at least 1 whose `fill` does not
fail, and for the screen-orientation sensor with capacity at least 2 when the
accelerometer's flush counter is not zero, writes exactly one flush event naming that
sensor's handle and leaves that sensor's flush counter at zero. -/
theorem flush_then_readEvents_completes {F : Type} (cfg : Config F)
    (hd : cfg.handlesDistinct) (st : State F) (hids : st.idsIntact cfg) (i : Nat)
    (hi : i = ACC ∨ i = SO) (hen : isEnabled cfg st i = true)
    (hzero : st.mPendingEventsFlushCount.get i = 0) (count : Int) (env : ReadEnv)
    (hcap : 1 ≤ count) (hn : 0 ≤ env.n)
    (hroom : i = SO → st.mPendingEventsFlushCount.acc ≠ 0 → 2 ≤ count) :
    (flush cfg st (slotId cfg i)).ret = 0 ∧
      ((readEvents cfg (flush cfg st (slotId cfg i)).st count env).out.filter
        (OutEvent.isFlushOf (slotId cfg i))).length = 1 ∧
      (readEvents cfg (flush cfg st
        (slotId cfg i)).st count env).st.mPendingEventsFlushCount.get i = 0 := by
  obtain ⟨h1, h2, h3, h4, h5, h6⟩ := hd
  obtain ⟨i1, i2, i3⟩ := hids
  have hc0 : count ≠ 0 := by omega
  obtain ⟨ds, hds, hout, hcnt⟩ := readEvents_phases cfg (flush cfg st (slotId cfg i)).st
    count env hcap hn
  rw [hout, hcnt, List.filter_append, filter_isFlushOf_data _ ds hds, List.append_nil]
  rcases hi with rfl | rfl
  · have hf := flush_ID_A_enabled cfg st hen
    have hs : slotId cfg ACC = cfg.ID_A := by simp [slotId]
    rw [hs, hf]
    simp only [Slots.get_ACC] at hzero
    refine ⟨rfl, ?_⟩
    by_cases c1 : count = 1 <;> by_cases c2 : count = 2 <;>
    by_cases z1 : st.mPendingEventsFlushCount.so = 0 <;>
    by_cases z2 : st.mPendingEventsFlushCount.sm = 0 <;>
    simp [startRun, flushLoop, flushStep, NUM_SENSORS, List.range_succ, hc0, hzero, z1, z2,
      c1, c2, OutEvent.isFlushOf, i1, i2, i3, Ne.symm h1, Ne.symm h2, sub_eq_iff_eq_add]
  · have hf := flush_ID_SO_enabled cfg h1 st hen
    have hs : slotId cfg SO = cfg.ID_SO := by simp [slotId, SO, ACC]
    rw [hs, hf]
    simp only [Slots.get_SO] at hzero
    refine ⟨rfl, ?_⟩
    by_cases z0 : st.mPendingEventsFlushCount.acc = 0
    · by_cases c1 : count = 1 <;> by_cases c2 : count = 2 <;>
      by_cases z2 : st.mPendingEventsFlushCount.sm = 0 <;>
      simp [startRun, flushLoop, flushStep, NUM_SENSORS, List.range_succ, hc0, hzero, z0, z2,
        c1, c2, OutEvent.isFlushOf, i1, i2, i3, h1, h4, Ne.symm h4, sub_eq_iff_eq_add]
    · have hc2 : 2 ≤ count := hroom rfl z0
      have c1 : count ≠ 1 := by omega
      by_cases c2 : count = 2 <;>
      by_cases z2 : st.mPendingEventsFlushCount.sm = 0 <;>
      simp [startRun, flushLoop, flushStep, NUM_SENSORS, List.range_succ, hc0, hzero, z0, z2,
        c1, c2, OutEvent.isFlushOf, i1, i2, i3, h1, h4, Ne.symm h4, sub_eq_iff_eq_add]

theorem flush_then_readEvents_completes_witness :
    sampleConfig.handlesDistinct ∧
      isEnabled sampleConfig { init sampleConfig with mEnabled := 3 } SO = true ∧
      ((readEvents sampleConfig
          (flush sampleConfig { init sampleConfig with mEnabled := 3 }
            (slotId sampleConfig SO)).st 1 (sampleEnv 0 [] 0)).out.filter
        (OutEvent.isFlushOf (slotId sampleConfig SO))).length = 1 :=
  ⟨by decide, by decide,
    (flush_then_readEvents_completes sampleConfig (by decide)
      { init sampleConfig with mEnabled := 3 } (by decide) SO (Or.inr rfl) (by decide)
      (by decide) 1 (sampleEnv 0 [] 0) (by decide) (by decide)
      (fun _ h => absurd rfl h)).2.1⟩

/-- C10, refuted as stated: accelerometer and screen-orientation are enabled and a flush of
the accelerometer is outstanding; `flush(ID_SO)` succeeds with the screen-orientation
counter at zero, and the following `readEvents` with capacity 1 succeeds (returns 1) but
writes no flush event naming `ID_SO` and leaves the screen-orientation counter at 1. -/
theorem flush_then_readEvents_capacity_one :
    isEnabled sampleConfig
        (flush sampleConfig
          (enable sampleConfig (enable sampleConfig (init sampleConfig) sampleConfig.ID_A 1 0).st
            sampleConfig.ID_SO 1 0).st sampleConfig.ID_A).st SO = true ∧
      (flush sampleConfig
          (enable sampleConfig (enable sampleConfig (init sampleConfig) sampleConfig.ID_A 1 0).st
            sampleConfig.ID_SO 1 0).st sampleConfig.ID_A).st.mPendingEventsFlushCount.so = 0 ∧
      (flush sampleConfig
        (flush sampleConfig
          (enable sampleConfig (enable sampleConfig (init sampleConfig) sampleConfig.ID_A 1 0).st
            sampleConfig.ID_SO 1 0).st sampleConfig.ID_A).st sampleConfig.ID_SO).ret = 0 ∧
      (readEvents sampleConfig
        (flush sampleConfig
          (flush sampleConfig
            (enable sampleConfig (enable sampleConfig (init sampleConfig) sampleConfig.ID_A 1 0).st
              sampleConfig.ID_SO 1 0).st sampleConfig.ID_A).st sampleConfig.ID_SO).st
        1 (sampleEnv 0 [] 0)).ret = 1 ∧
      ((readEvents sampleConfig
        (flush sampleConfig
          (flush sampleConfig
            (enable sampleConfig (enable sampleConfig (init sampleConfig) sampleConfig.ID_A 1 0).st
              sampleConfig.ID_SO 1 0).st sampleConfig.ID_A).st sampleConfig.ID_SO).st
        1 (sampleEnv 0 [] 0)).out.filter (OutEvent.isFlushOf sampleConfig.ID_SO)) = [] ∧
      (readEvents sampleConfig
        (flush sampleConfig
          (flush sampleConfig
            (enable sampleConfig (enable sampleConfig (init sampleConfig) sampleConfig.ID_A 1 0).st
              sampleConfig.ID_SO 1 0).st sampleConfig.ID_A).st sampleConfig.ID_SO).st
        1 (sampleEnv 0 [] 0)).st.mPendingEventsFlushCount.so = 1 := by
  decide

/-! ## The sync fan-out, slot by slot -/

theorem syncAkm_count {F : Type} (i : Nat) (r : Run F) : (syncAkm i r).count = r.count := by
  unfold syncAkm
  split_ifs <;> rfl

theorem syncEmit_of_ne_SM {F : Type} (cfg : Config F) (env : ReadEnv) (i : Nat) (r : Run F)
    (h : i ≠ SM) :
    syncEmit cfg env i r =
      { st := r.st
        count := r.count - 1
        numEventReceived := r.numEventReceived + 1
        out := r.out ++ [OutEvent.data i (r.st.mPendingEvents.get i)]
        fx := r.fx } := by
  simp [syncEmit, h]

theorem syncEmit_count {F : Type} (cfg : Config F) (env : ReadEnv) (i : Nat) (r : Run F) :
    (syncEmit cfg env i r).count = r.count - 1 := by
  unfold syncEmit
  split_ifs <;> rfl

theorem shiftLeft_and_disjoint (i j : Nat) (hij : i ≠ j) : (1 <<< i) &&& (1 <<< j) = 0 := by
  apply Nat.eq_of_testBit_eq
  intro k
  simp only [Nat.testBit_and, Nat.zero_testBit, Nat.one_shiftLeft, Nat.testBit_two_pow]
  by_cases h1 : i = k <;> by_cases h2 : j = k <;> simp [h1, h2]
  omega

theorem syncStep_before_SM {F : Type} (cfg : Config F) (env : ReadEnv) (t : TimeVal)
    (i : Nat) (hi : i = ACC ∨ i = SO) (r : Run F) :
    (syncStep cfg env t i r).st.mEnabled = r.st.mEnabled ∧
      (∀ j, j ≠ i → j < NUM_SENSORS →
        (syncStep cfg env t i r).st.mPendingEventsMask &&& (1 <<< j) =
          r.st.mPendingEventsMask &&& (1 <<< j)) ∧
      (syncStep cfg env t i r).st.mPendingEvents.sm = r.st.mPendingEvents.sm ∧
      (syncStep cfg env t i r).count = r.count - dueData cfg r.st i ∧
      (syncStep cfg env t i r).out.filter (OutEvent.isDataOf SM) =
        r.out.filter (OutEvent.isDataOf SM) := by
  have hiSM : i ≠ SM := by rcases hi with rfl | rfl <;> decide
  have hsm : ∀ v, ((r.st.mPendingEvents.set i v).sm) = r.st.mPendingEvents.sm := by
    intro v; rcases hi with rfl | rfl <;> rfl
  have hbits : ∀ j, j ≠ i → j < NUM_SENSORS →
      (r.st.mPendingEventsMask &&& (4294967295 ^^^ (1 <<< i))) &&& (1 <<< j) =
        r.st.mPendingEventsMask &&& (1 <<< j) := by
    intro j hji hj
    apply andnot_and_of_disjoint _ _ _ (shiftLeft_and_disjoint i j (Ne.symm hji))
    have : j = 0 ∨ j = 1 ∨ j = 2 := by unfold NUM_SENSORS at hj; omega
    rcases this with rfl | rfl | rfl <;> decide
  unfold syncStep
  by_cases hp : r.st.mPendingEventsMask &&& (1 <<< i) ≠ 0
  · rw [if_pos hp, syncAkm_st, syncAkm_count, syncAkm_out]
    by_cases he : r.st.mEnabled &&& indexToMask cfg i ≠ 0
    · have he1 : (stampSlot cfg t i r.st).mEnabled &&& indexToMask cfg i ≠ 0 := he
      rw [if_pos he1, syncEmit_of_ne_SM _ _ _ _ hiSM]
      refine ⟨rfl, hbits, hsm _, ?_, ?_⟩
      · simp [dueData, isPending, isEnabled, hp, he]
      · simp [List.filter_append, OutEvent.isDataOf, hiSM]
    · have he1 : ¬ (stampSlot cfg t i r.st).mEnabled &&& indexToMask cfg i ≠ 0 := he
      rw [if_neg he1]
      refine ⟨rfl, hbits, hsm _, ?_, rfl⟩
      simp only [not_not] at he
      simp [dueData, isPending, isEnabled, he]
  · rw [if_neg hp]
    refine ⟨rfl, fun _ _ _ => rfl, rfl, ?_, rfl⟩
    simp only [not_not] at hp
    simp [dueData, isPending, hp]

theorem enable_ID_SM_off {F : Type} (cfg : Config F) (hd : cfg.handlesDistinct)
    (hb : cfg.MODE_MOVEMENT < 4294967296) (st : State F) (res : Int) (hres : 0 ≤ res) :
    isEnabled cfg (enable cfg st cfg.ID_SM 0 res).st SM = false := by
  obtain ⟨h1, h2, h3, h4, h5, h6⟩ := hd
  have e : enable cfg st cfg.ID_SM 0 res =
      enableMasked cfg st cfg.ID_SM 0 cfg.MODE_MOVEMENT res := by
    simp [enable, Ne.symm h2, Ne.symm h4]
  have hr : ¬ res < 0 := by omega
  rw [e]
  unfold enableMasked
  by_cases hs : st.mEnabled &&& cfg.MODE_MOVEMENT = 0
  · simp [hs, isEnabled, indexToMask, SM, SO, ACC]
  · simp [hs, hr, isEnabled, indexToMask, SM, SO, ACC, andnot_and_self _ _ hb]

theorem syncStep_SM_fires {F : Type} (cfg : Config F) (hd : cfg.handlesDistinct)
    (hb : cfg.MODE_MOVEMENT < 4294967296) (env : ReadEnv) (t : TimeVal) (r : Run F)
    (hp : r.st.mPendingEventsMask &&& (1 <<< SM) ≠ 0) (he : isEnabled cfg r.st SM = true)
    (hio : 0 ≤ env.ioctl r.ioctls) :
    (syncStep cfg env t SM r).out =
        r.out ++ [OutEvent.data SM
          { r.st.mPendingEvents.sm with timestamp := cfg.timevalToNano t }] ∧
      isEnabled cfg (syncStep cfg env t SM r).st SM = false := by
  have he1 : (stampSlot cfg t SM r.st).mEnabled &&& indexToMask cfg SM ≠ 0 := by
    simpa [isEnabled] using he
  unfold syncStep
  rw [if_pos hp, syncAkm_out, syncAkm_st, if_pos he1, syncEmit_out]
  refine ⟨by simp [stampSlot], ?_⟩
  simp only [syncEmit, if_true]
  exact enable_ID_SM_off cfg hd hb _ _ hio

theorem syncStep_SM_off {F : Type} (cfg : Config F) (env : ReadEnv) (t : TimeVal) (i : Nat)
    (r : Run F) (hoff : isEnabled cfg r.st SM = false) :
    (syncStep cfg env t i r).st.mEnabled = r.st.mEnabled ∧
      (syncStep cfg env t i r).out.filter (OutEvent.isDataOf SM) =
        r.out.filter (OutEvent.isDataOf SM) := by
  unfold syncStep
  by_cases hp : r.st.mPendingEventsMask &&& (1 <<< i) ≠ 0
  · rw [if_pos hp, syncAkm_st, syncAkm_out]
    by_cases he : (stampSlot cfg t i r.st).mEnabled &&& indexToMask cfg i ≠ 0
    · rw [if_pos he]
      have hiSM : i ≠ SM := by
        rintro rfl
        have : r.st.mEnabled &&& indexToMask cfg SM = 0 := by
          simpa [isEnabled] using hoff
        exact he this
      rw [syncEmit_of_ne_SM _ _ _ _ hiSM]
      exact ⟨rfl, by simp [List.filter_append, OutEvent.isDataOf, hiSM]⟩
    · rw [if_neg he]
      exact ⟨rfl, rfl⟩
  · rw [if_neg hp]
    exact ⟨rfl, rfl⟩

theorem isEnabled_congr {F : Type} (cfg : Config F) (a b : State F) (i : Nat)
    (h : a.mEnabled = b.mEnabled) : isEnabled cfg a i = isEnabled cfg b i := by
  simp [isEnabled, h]

theorem syncLoop_SM_off {F : Type} (cfg : Config F) (env : ReadEnv) (t : TimeVal) :
    ∀ (l : List Nat) (r : Run F), isEnabled cfg r.st SM = false →
      (syncLoop cfg env t l r).st.mEnabled = r.st.mEnabled ∧
        (syncLoop cfg env t l r).out.filter (OutEvent.isDataOf SM) =
          r.out.filter (OutEvent.isDataOf SM)
  | [], r, _ => by simp [syncLoop]
  | i :: rest, r, hoff => by
    unfold syncLoop
    split_ifs
    · exact ⟨rfl, rfl⟩
    · obtain ⟨s1, s2⟩ := syncStep_SM_off cfg env t i r hoff
      have hoff1 : isEnabled cfg (syncStep cfg env t i r).st SM = false := by
        rw [isEnabled_congr cfg _ _ SM s1]; exact hoff
      obtain ⟨l1, l2⟩ := syncLoop_SM_off cfg env t rest _ hoff1
      exact ⟨l1.trans s1, l2.trans s2⟩

theorem processEvent_SM_off {F : Type} (cfg : Config F) (env : ReadEnv) (e : InputEvent)
    (r : Run F) (hoff : isEnabled cfg r.st SM = false) :
    (processEvent cfg env e r).st.mEnabled = r.st.mEnabled ∧
      (processEvent cfg env e r).out.filter (OutEvent.isDataOf SM) =
        r.out.filter (OutEvent.isDataOf SM) := by
  unfold processEvent
  split_ifs
  all_goals first
    | exact syncLoop_SM_off cfg env e.time _ r hoff
    | exact ⟨rfl, rfl⟩

theorem eventLoop_SM_off {F : Type} (cfg : Config F) (env : ReadEnv) :
    ∀ (q : List InputEvent) (r : Run F), isEnabled cfg r.st SM = false →
      (eventLoop cfg env q r).st.mEnabled = r.st.mEnabled ∧
        (eventLoop cfg env q r).out.filter (OutEvent.isDataOf SM) =
          r.out.filter (OutEvent.isDataOf SM)
  | [], r, _ => by simp [eventLoop]
  | e :: q, r, hoff => by
    unfold eventLoop
    split_ifs
    · exact ⟨rfl, rfl⟩
    · obtain ⟨s1, s2⟩ := processEvent_SM_off cfg env e r hoff
      have hoff1 : isEnabled cfg (processEvent cfg env e r).st SM = false := by
        rw [isEnabled_congr cfg _ _ SM s1]; exact hoff
      obtain ⟨l1, l2⟩ := eventLoop_SM_off cfg env q _ hoff1
      exact ⟨l1.trans s1, l2.trans s2⟩

/-! ## The flush loop -/

theorem flushStep_st {F : Type} (cfg : Config F) (env : ReadEnv) (i : Nat) (r : Run F) :
    ∃ c, (flushStep cfg env i r).st = { r.st with mPendingEventsFlushCount := c } := by
  unfold flushStep
  split_ifs
  · exact ⟨r.st.mPendingEventsFlushCount, rfl⟩
  · exact ⟨_, rfl⟩

theorem flushLoop_st {F : Type} (cfg : Config F) (env : ReadEnv) :
    ∀ (l : List Nat) (r : Run F),
      ∃ c, (flushLoop cfg env l r).st = { r.st with mPendingEventsFlushCount := c }
  | [], r => ⟨r.st.mPendingEventsFlushCount, by simp [flushLoop]⟩
  | i :: rest, r => by
    unfold flushLoop
    split_ifs
    · exact ⟨r.st.mPendingEventsFlushCount, rfl⟩
    · obtain ⟨c1, h1⟩ := flushStep_st cfg env i r
      obtain ⟨c2, h2⟩ := flushLoop_st cfg env rest (flushStep cfg env i r)
      exact ⟨c2, by rw [h2, h1]⟩

theorem flushLoop_no_data {F : Type} (cfg : Config F) (env : ReadEnv) (l : List Nat)
    (r : Run F) (j : Nat) :
    (flushLoop cfg env l r).out.filter (OutEvent.isDataOf j) =
      r.out.filter (OutEvent.isDataOf j) := by
  obtain ⟨idxs, ms, _, _, hout⟩ := flushLoop_out cfg env l r
  rw [hout, List.filter_append]
  have : (ms.map OutEvent.flushComplete).filter (OutEvent.isDataOf (F := F) j) = [] := by
    rw [List.filter_eq_nil_iff]
    intro d hd
    obtain ⟨m, _, rfl⟩ := List.mem_map.mp hd
    simp [OutEvent.isDataOf]
  rw [this, List.append_nil]

theorem flushLoop_count_ge {F : Type} (cfg : Config F) (env : ReadEnv) (r : Run F) :
    r.count - dueFlush r.st ≤ (flushLoop cfg env (List.range NUM_SENSORS) r).count := by
  have hrange : List.range NUM_SENSORS = [0, 1, 2] := by decide
  rw [hrange]
  by_cases z0 : r.st.mPendingEventsFlushCount.acc = 0 <;>
  by_cases z1 : r.st.mPendingEventsFlushCount.so = 0 <;>
  by_cases z2 : r.st.mPendingEventsFlushCount.sm = 0 <;>
  simp [flushLoop, flushStep, dueFlush, z0, z1, z2] <;>
  split_ifs <;> simp <;> omega

/-! ## Significant motion -/

theorem dueData_congr {F : Type} (cfg : Config F) (a b : State F) (i : Nat)
    (h1 : a.mEnabled = b.mEnabled)
    (h2 : a.mPendingEventsMask &&& (1 <<< i) = b.mPendingEventsMask &&& (1 <<< i)) :
    dueData cfg a i = dueData cfg b i := by
  simp [dueData, isPending, isEnabled, h1, h2]

theorem dueData_nonneg {F : Type} (cfg : Config F) (a : State F) (i : Nat) :
    0 ≤ dueData cfg a i := by
  unfold dueData
  split_ifs <;> decide

theorem readEvents_SM_off {F : Type} (cfg : Config F) (st : State F) (count : Int)
    (env : ReadEnv) (hoff : isEnabled cfg st SM = false) :
    (readEvents cfg st count env).out.filter (OutEvent.isDataOf SM) = [] ∧
      isEnabled cfg (readEvents cfg st count env).st SM = false := by
  unfold readEvents
  split_ifs
  · exact ⟨rfl, hoff⟩
  · exact ⟨rfl, hoff⟩
  · obtain ⟨c, hc⟩ := flushLoop_st cfg env (List.range NUM_SENSORS) (startRun st count env)
    have hen : (flushLoop cfg env (List.range NUM_SENSORS) (startRun st count env)).st.mEnabled =
        st.mEnabled := by rw [hc]; rfl
    have hoff1 : isEnabled cfg
        (flushLoop cfg env (List.range NUM_SENSORS) (startRun st count env)).st SM = false := by
      rw [isEnabled_congr cfg _ _ SM hen]; exact hoff
    obtain ⟨e1, e2⟩ := eventLoop_SM_off cfg env
      (flushLoop cfg env (List.range NUM_SENSORS) (startRun st count env)).st.mInputReader _ hoff1
    refine ⟨?_, ?_⟩
    · show (eventLoop cfg env _ _).out.filter _ = []
      rw [e2, flushLoop_no_data]
      rfl
    · show isEnabled cfg (eventLoop cfg env _ _).st SM = false
      rw [isEnabled_congr cfg _ _ SM (e1.trans hen)]
      exact hoff

theorem syncLoop_cons_of_guard {F : Type} (cfg : Config F) (env : ReadEnv) (t : TimeVal)
    (i : Nat) (l : List Nat) (r : Run F) (h1 : r.count ≠ 0)
    (h2 : r.st.mPendingEventsMask &&& (1 <<< SM) ≠ 0) :
    syncLoop cfg env t (i :: l) r = syncLoop cfg env t l (syncStep cfg env t i r) := by
  have h3 : r.st.mPendingEventsMask ≠ 0 := by
    intro h0
    rw [h0] at h2
    simp at h2
  simp [syncLoop, h1, h3]

theorem eventLoop_cons {F : Type} (cfg : Config F) (env : ReadEnv) (e : InputEvent)
    (q : List InputEvent) (r : Run F) (h : r.count ≠ 0) :
    eventLoop cfg env (e :: q) r = eventLoop cfg env q (processEvent cfg env e r) := by
  simp [eventLoop, h]

/-- C4, refuted as stated: significant-motion has been enabled by `enable(ID_SM, 1)`, the
reader holds a significant-motion event and a sync marker, and the set-enable ioctl that
the automatic disable issues fails with -5. With capacity 1 the call writes the record
and returns 1, but significant-motion is still enabled afterwards; with the two events
held twice and capacity 2 one call writes two significant-motion records. -/
theorem readEvents_significant_motion_stays_enabled :
    isEnabled sampleConfig
        (enable sampleConfig (init sampleConfig) sampleConfig.ID_SM 1 0).st SM = true ∧
      (readEvents sampleConfig (enable sampleConfig (init sampleConfig) sampleConfig.ID_SM 1 0).st
        1 (sampleEnv 2
          [{ time := ⟨1, 0⟩, type := EV_MSC, code := sampleConfig.EVENT_TYPE_SM, value := 0 },
           { time := ⟨5, 6⟩, type := EV_SYN, code := 0, value := 0 }] (-5))).ret = 1 ∧
      isEnabled sampleConfig
        (readEvents sampleConfig
          (enable sampleConfig (init sampleConfig) sampleConfig.ID_SM 1 0).st
          1 (sampleEnv 2
            [{ time := ⟨1, 0⟩, type := EV_MSC, code := sampleConfig.EVENT_TYPE_SM, value := 0 },
             { time := ⟨5, 6⟩, type := EV_SYN, code := 0, value := 0 }] (-5))).st SM = true ∧
      ((readEvents sampleConfig
          (enable sampleConfig (init sampleConfig) sampleConfig.ID_SM 1 0).st
          2 (sampleEnv 4
            [{ time := ⟨1, 0⟩, type := EV_MSC, code := sampleConfig.EVENT_TYPE_SM, value := 0 },
             { time := ⟨5, 6⟩, type := EV_SYN, code := 0, value := 0 },
             { time := ⟨7, 0⟩, type := EV_MSC, code := sampleConfig.EVENT_TYPE_SM, value := 0 },
             { time := ⟨8, 6⟩, type := EV_SYN, code := 0, value := 0 }] (-5))).out.filter
        (OutEvent.isDataOf SM)).length = 2 := by
  decide

/-! ## readEvents: failure of the reader -/

/-- C13: when `readEvents` is called with capacity at least 1 and the reader's `fill`
returns a negative value `n`, `readEvents` returns `n`, writes nothing, makes no request
and leaves the state as it was: no flush counter is decremented, pending mask and enabled
mask are untouched. -/
theorem readEvents_fill_failure {F : Type} (cfg : Config F) (st : State F) (count : Int)
    (env : ReadEnv) (hc : 1 ≤ count) (hn : env.n < 0) :
    readEvents cfg st count env = { ret := env.n, st := st, out := [], fx := [] } := by
  have hc' : ¬ count < 1 := by omega
  simp [readEvents, hc', hn]

theorem readEvents_fill_failure_witness :
    (1 : Int) ≤ 4 ∧ (sampleEnv (-5) [] 0).n < 0 ∧
      readEvents sampleConfig
          { init sampleConfig with
            mEnabled := 3, mPendingEventsMask := 1
            mPendingEventsFlushCount := { acc := 1, so := 0, sm := 0 } }
          4 (sampleEnv (-5) [] 0) =
        { ret := -5
          st := { init sampleConfig with
                  mEnabled := 3, mPendingEventsMask := 1
                  mPendingEventsFlushCount := { acc := 1, so := 0, sm := 0 } }
          out := []
          fx := [] } :=
  ⟨by decide, by decide,
    readEvents_fill_failure sampleConfig _ 4 (sampleEnv (-5) [] 0) (by decide) (by decide)⟩

/-! ## setDelay -/

/-- C14: `setDelay(ID_A, ns)` makes exactly one device request, the set-delay carrying
`ns / 1000000` truncated toward zero and narrowed to `int`; the cached accelerometer delay
becomes `ns` and nothing else in the state changes, whatever the ioctl returns; `ns` is
forwarded to the side channel (`writeAkmDelay(ID_A, ns)`) exactly when the accelerometer
bit is set in the enabled mask; the returned value is what the ioctl returned. -/
theorem setDelay_accelerometer {F : Type} (cfg : Config F) (st : State F) (ns : Int)
    (ioctlRet : Int) :
    (setDelay cfg st cfg.ID_A ns ioctlRet).fx.filter Effect.isIoctl =
        [Effect.ioctlSetDelay (toInt32 (Int.tdiv ns 1000000))] ∧
      (setDelay cfg st cfg.ID_A ns ioctlRet).st = { st with mAccelDelay := ns } ∧
      (setDelay cfg st cfg.ID_A ns ioctlRet).fx.filter Effect.isAkm =
        (if isEnabled cfg st ACC = true then [Effect.writeAkmDelay cfg.ID_A ns] else []) ∧
      (setDelay cfg st cfg.ID_A ns ioctlRet).ret = ioctlRet ∧
      (setDelay cfg st cfg.ID_A ns ioctlRet).out = [] := by
  by_cases he : isEnabled cfg st ACC = true <;>
    simp [setDelay, setDelayDevice, he, Effect.isIoctl, Effect.isAkm]

/-- C15: `setDelay(ID_SO, ns)` and `setDelay(ID_SM, ns)` return 0, make no request (no
ioctl, no side-channel call) and leave the state, the cached accelerometer delay
included, as it was. -/
theorem setDelay_ignored {F : Type} (cfg : Config F) (hd : cfg.handlesDistinct)
    (st : State F) (ns : Int) (ioctlRet : Int) :
    setDelay cfg st cfg.ID_SO ns ioctlRet = { ret := 0, st := st, out := [], fx := [] } ∧
      setDelay cfg st cfg.ID_SM ns ioctlRet = { ret := 0, st := st, out := [], fx := [] } := by
  obtain ⟨h1, h2, h3, h4, h5, h6⟩ := hd
  constructor
  · simp [setDelay, Ne.symm h1]
  · simp [setDelay, Ne.symm h2, Ne.symm h4]

theorem setDelay_ignored_witness :
    sampleConfig.handlesDistinct ∧
      setDelay sampleConfig { init sampleConfig with mEnabled := 7 } sampleConfig.ID_SO
          66000000 (-5) =
        { ret := 0, st := { init sampleConfig with mEnabled := 7 }, out := [], fx := [] } :=
  ⟨by decide,
    (setDelay_ignored sampleConfig (by decide) { init sampleConfig with mEnabled := 7 }
      66000000 (-5)).1⟩

/-- C20: `setDelay` with a handle that is none of `ID_A`, `ID_SO`, `ID_SM` is not
rejected: the only request is the set-delay ioctl carrying `ns / 1000000` (truncated,
narrowed to `int`), the returned value is what the ioctl returned, the state (the cached
accelerometer delay included) is unchanged and nothing goes to the side channel. -/
theorem setDelay_other_handle {F : Type} (cfg : Config F) (st : State F)
    (handle ns ioctlRet : Int) (hA : handle ≠ cfg.ID_A) (hSO : handle ≠ cfg.ID_SO)
    (hSM : handle ≠ cfg.ID_SM) :
    setDelay cfg st handle ns ioctlRet =
      { ret := ioctlRet
        st := st
        out := []
        fx := [Effect.ioctlSetDelay (toInt32 (Int.tdiv ns 1000000))] } := by
  simp [setDelay, setDelayDevice, hA, hSO, hSM]

theorem setDelay_other_handle_witness :
    sampleConfig.ID_O ≠ sampleConfig.ID_A ∧ sampleConfig.ID_O ≠ sampleConfig.ID_SO ∧
      sampleConfig.ID_O ≠ sampleConfig.ID_SM ∧
      setDelay sampleConfig { init sampleConfig with mEnabled := 1 } sampleConfig.ID_O
          (-66999999) (-5) =
        { ret := -5
          st := { init sampleConfig with mEnabled := 1 }
          out := []
          fx := [Effect.ioctlSetDelay (toInt32 (Int.tdiv (-66999999) 1000000))] } :=
  ⟨by decide, by decide, by decide,
    setDelay_other_handle sampleConfig { init sampleConfig with mEnabled := 1 }
      sampleConfig.ID_O (-66999999) (-5) (by decide) (by decide) (by decide)⟩

/-! ## enable: unknown handle -/

theorem enable_unknown_handle {F : Type} (cfg : Config F) (st : State F)
    (handle en ioctlRet : Int) (hA : handle ≠ cfg.ID_A) (hSO : handle ≠ cfg.ID_SO)
    (hSM : handle ≠ cfg.ID_SM) (hO : handle ≠ cfg.ID_O) :
    enable cfg st handle en ioctlRet = { ret := -1, st := st, out := [], fx := [] } := by
  simp [enable, hA, hSO, hSM, hO]

/-- C16, evaluated: the handle 77 is none of the four handles; `enable(77, 1)` makes no
request and leaves the state unchanged, but the value it returns is -1, which is not
`-EINVAL` (-22), the value that `flush(77)` and `readEvents` with capacity 0 return. -/
theorem enable_unknown_handle_not_EINVAL :
    (77 : Int) ≠ sampleConfig.ID_A ∧ (77 : Int) ≠ sampleConfig.ID_SO ∧
      (77 : Int) ≠ sampleConfig.ID_SM ∧ (77 : Int) ≠ sampleConfig.ID_O ∧
      enable sampleConfig (init sampleConfig) 77 1 0 =
        { ret := -1, st := init sampleConfig, out := [], fx := [] } ∧
      (enable sampleConfig (init sampleConfig) 77 1 0).ret ≠ -EINVAL ∧
      (flush sampleConfig (init sampleConfig) 77).ret = -EINVAL ∧
      (readEvents sampleConfig (init sampleConfig) 0 (sampleEnv 0 [] 0)).ret = -EINVAL := by
  decide

/-! ## The sync fan-out and the pending mask -/

theorem Slots.get_set_self {α : Type} (a : Slots α) (i : Nat) (v : α) :
    (a.set i v).get i = v := by
  unfold Slots.get Slots.set
  split_ifs <;> rfl

theorem and_shiftLeft_eq_zero_iff (m k : Nat) : m &&& (1 <<< k) = 0 ↔ m.testBit k = false := by
  constructor
  · intro h
    have := congrArg (fun x => x.testBit k) h
    simpa [Nat.testBit_and, Nat.one_shiftLeft, Nat.testBit_two_pow_self] using this
  · intro h
    apply Nat.eq_of_testBit_eq
    intro j
    simp only [Nat.testBit_and, Nat.one_shiftLeft, Nat.testBit_two_pow, Nat.zero_testBit]
    by_cases hj : k = j
    · subst hj; simp [h]
    · simp [hj]

theorem syncStep_mask {F : Type} (cfg : Config F) (env : ReadEnv) (t : TimeVal) (i : Nat)
    (r : Run F) :
    (syncStep cfg env t i r).st.mPendingEventsMask =
      if r.st.mPendingEventsMask &&& (1 <<< i) ≠ 0 then
        r.st.mPendingEventsMask &&& (4294967295 ^^^ (1 <<< i))
      else r.st.mPendingEventsMask := by
  unfold syncStep
  by_cases hp : r.st.mPendingEventsMask &&& (1 <<< i) ≠ 0
  · rw [if_pos hp, if_pos hp, syncAkm_st]
    split_ifs
    · obtain ⟨f, b, h⟩ := syncEmit_st cfg env i ({ r with st := stampSlot cfg t i r.st } : Run F)
      rw [h]; rfl
    · rfl
  · rw [if_neg hp, if_neg hp]

theorem syncStep_mask_testBit_mono {F : Type} (cfg : Config F) (env : ReadEnv) (t : TimeVal)
    (i : Nat) (r : Run F) (k : Nat) (h : r.st.mPendingEventsMask.testBit k = false) :
    (syncStep cfg env t i r).st.mPendingEventsMask.testBit k = false := by
  rw [syncStep_mask]
  split_ifs
  · simp [Nat.testBit_and, h]
  · exact h

theorem syncStep_mask_testBit_self {F : Type} (cfg : Config F) (env : ReadEnv) (t : TimeVal)
    (i : Nat) (hi : i < 32) (r : Run F) :
    (syncStep cfg env t i r).st.mPendingEventsMask.testBit i = false := by
  rw [syncStep_mask]
  split_ifs with hp
  · simp [Nat.testBit_and, Nat.testBit_xor, testBit_u32max, hi, Nat.one_shiftLeft,
      Nat.testBit_two_pow_self]
  · simp only [not_not] at hp
    exact (and_shiftLeft_eq_zero_iff _ _).mp hp

theorem syncLoop_mask_testBit_mono {F : Type} (cfg : Config F) (env : ReadEnv) (t : TimeVal)
    (k : Nat) :
    ∀ (l : List Nat) (r : Run F), r.st.mPendingEventsMask.testBit k = false →
      (syncLoop cfg env t l r).st.mPendingEventsMask.testBit k = false
  | [], r, h => by simpa [syncLoop] using h
  | i :: rest, r, h => by
    unfold syncLoop
    split_ifs
    · exact h
    · exact syncLoop_mask_testBit_mono cfg env t k rest _
        (syncStep_mask_testBit_mono cfg env t i r k h)

theorem syncLoop_mask_cleared {F : Type} (cfg : Config F) (env : ReadEnv) (t : TimeVal) :
    ∀ (l : List Nat) (r : Run F), (∀ i ∈ l, i < 32) →
      (syncLoop cfg env t l r).count ≠ 0 →
      (syncLoop cfg env t l r).st.mPendingEventsMask = 0 ∨
        ∀ i ∈ l, (syncLoop cfg env t l r).st.mPendingEventsMask.testBit i = false
  | [], r, _, _ => Or.inr (by simp)
  | i :: rest, r, hl, hc => by
    unfold syncLoop at hc ⊢
    by_cases hg : r.count = 0 ∨ r.st.mPendingEventsMask = 0
    · rw [if_pos hg] at hc ⊢
      rcases hg with h0 | h0
      · exact absurd h0 hc
      · exact Or.inl h0
    · rw [if_neg hg] at hc ⊢
      rcases syncLoop_mask_cleared cfg env t rest (syncStep cfg env t i r)
        (fun j hj => hl j (List.mem_cons_of_mem _ hj)) hc with h | h
      · exact Or.inl h
      · right
        intro j hj
        rcases List.mem_cons.mp hj with rfl | hj'
        · exact syncLoop_mask_testBit_mono cfg env t j rest _
            (syncStep_mask_testBit_self cfg env t j (hl j (List.mem_cons_self _ _)) r)
        · exact h j hj'

/-- C17: at a sync marker, a pending slot that the fan-out visits has its pending bit
cleared whether or not the sensor is enabled: when enabled its record, stamped with the
marker's time, is written and the remaining capacity drops by one; when disabled nothing
is written and the capacity is unchanged. Hence, for a pending mask that only has bits of
the three slots, if capacity is still positive when the fan-out of the marker ends, the
pending mask is empty. -/
theorem syncStep_clears_pending {F : Type} (cfg : Config F) (env : ReadEnv) (t : TimeVal)
    (r : Run F) :
    (∀ i, i < NUM_SENSORS → isPending r.st i = true →
      isPending (syncStep cfg env t i r).st i = false ∧
      (isEnabled cfg r.st i = true →
        (syncStep cfg env t i r).out =
          r.out ++ [OutEvent.data i
            { r.st.mPendingEvents.get i with timestamp := cfg.timevalToNano t }] ∧
        (syncStep cfg env t i r).count = r.count - 1) ∧
      (isEnabled cfg r.st i = false →
        (syncStep cfg env t i r).out = r.out ∧ (syncStep cfg env t i r).count = r.count)) ∧
    (r.st.mPendingEventsMask < 8 →
      0 < (syncLoop cfg env t (List.range NUM_SENSORS) r).count →
      (syncLoop cfg env t (List.range NUM_SENSORS) r).st.mPendingEventsMask = 0) := by
  constructor
  · intro i hi hp
    have hp' : r.st.mPendingEventsMask &&& (1 <<< i) ≠ 0 := by
      simpa [isPending] using hp
    refine ⟨?_, ?_, ?_⟩
    · have h32 : i < 32 := by unfold NUM_SENSORS at hi; omega
      have := syncStep_mask_testBit_self cfg env t i h32 r
      simp [isPending, (and_shiftLeft_eq_zero_iff _ _).mpr this]
    · intro he
      have he' : (stampSlot cfg t i r.st).mEnabled &&& indexToMask cfg i ≠ 0 := by
        simpa [isEnabled] using he
      unfold syncStep
      rw [if_pos hp', syncAkm_out, syncAkm_count, if_pos he', syncEmit_out, syncEmit_count]
      exact ⟨by simp [stampSlot, Slots.get_set_self], rfl⟩
    · intro he
      have he' : ¬ (stampSlot cfg t i r.st).mEnabled &&& indexToMask cfg i ≠ 0 := by
        simpa [isEnabled] using he
      unfold syncStep
      rw [if_pos hp', syncAkm_out, syncAkm_count, if_neg he']
      exact ⟨rfl, rfl⟩
  · intro hm hc
    have hc' : (syncLoop cfg env t (List.range NUM_SENSORS) r).count ≠ 0 := by omega
    rcases syncLoop_mask_cleared cfg env t (List.range NUM_SENSORS) r
      (fun i hi => by
        have := List.mem_range.mp hi
        unfold NUM_SENSORS at this
        omega) hc' with h | h
    · exact h
    · apply Nat.eq_of_testBit_eq
      intro k
      rw [Nat.zero_testBit]
      by_cases hk : k < NUM_SENSORS
      · exact h k (List.mem_range.mpr hk)
      · apply syncLoop_mask_testBit_mono
        apply Nat.testBit_lt_two_pow
        have hk3 : 3 ≤ k := by unfold NUM_SENSORS at hk; omega
        calc r.st.mPendingEventsMask < 2 ^ 3 := by simpa using hm
          _ ≤ 2 ^ k := Nat.pow_le_pow_right (by norm_num) hk3

theorem syncStep_clears_pending_witness :
    isPending (startRun { init sampleConfig with mEnabled := 1, mPendingEventsMask := 3 } 5
        (sampleEnv 0 [] 0)).st SO = true ∧
      (syncStep sampleConfig (sampleEnv 0 [] 0) ⟨5, 6⟩ SO
        (startRun { init sampleConfig with mEnabled := 1, mPendingEventsMask := 3 } 5
          (sampleEnv 0 [] 0))).count = 5 ∧
      (syncLoop sampleConfig (sampleEnv 0 [] 0) ⟨5, 6⟩ (List.range NUM_SENSORS)
        (startRun { init sampleConfig with mEnabled := 1, mPendingEventsMask := 3 } 5
          (sampleEnv 0 [] 0))).st.mPendingEventsMask = 0 :=
  ⟨by decide,
    (((syncStep_clears_pending sampleConfig (sampleEnv 0 [] 0) ⟨5, 6⟩
      (startRun { init sampleConfig with mEnabled := 1, mPendingEventsMask := 3 } 5
        (sampleEnv 0 [] 0))).1 SO (by decide) (by decide)).2.2 (by decide)).2,
    (syncStep_clears_pending sampleConfig (sampleEnv 0 [] 0) ⟨5, 6⟩
      (startRun { init sampleConfig with mEnabled := 1, mPendingEventsMask := 3 } 5
        (sampleEnv 0 [] 0))).2 (by decide) (by decide)⟩

/-! ## Reachable states -/

theorem setDelay_st {F : Type} (cfg : Config F) (st : State F) (handle ns ioctlRet : Int) :
    ∃ d, (setDelay cfg st handle ns ioctlRet).st = { st with mAccelDelay := d } := by
  unfold setDelay setDelayDevice
  split_ifs
  all_goals first
    | exact ⟨ns, rfl⟩
    | exact ⟨st.mAccelDelay, rfl⟩

theorem flush_st {F : Type} (cfg : Config F) (st : State F) (handle : Int) :
    (flush cfg st handle).st = st ∨
      (flush cfg st handle).st =
        { st with mPendingEventsFlushCount :=
            { st.mPendingEventsFlushCount with acc := toInt32 (st.mPendingEventsFlushCount.acc + 1) } } ∨
      (flush cfg st handle).st =
        { st with mPendingEventsFlushCount :=
            { st.mPendingEventsFlushCount with so := toInt32 (st.mPendingEventsFlushCount.so + 1) } } := by
  unfold flush
  by_cases h : handle = cfg.ID_A ∨ handle = cfg.ID_SO
  · rw [if_pos h]
    by_cases hA : handle = cfg.ID_A
    · by_cases he : isEnabled cfg st ACC = true
      · right; left; simp [hA, he]
      · left; simp [hA, he]
    · by_cases he : isEnabled cfg st SO = true
      · right; right; simp [hA, he]
      · left; simp [hA, he]
  · rw [if_neg h]
    exact Or.inl rfl

theorem flushLoop_counters {F : Type} (cfg : Config F) (env : ReadEnv) (r : Run F) :
    ((flushLoop cfg env (List.range NUM_SENSORS) r).st.mPendingEventsFlushCount.acc =
        r.st.mPendingEventsFlushCount.acc ∨
      ((flushLoop cfg env (List.range NUM_SENSORS) r).st.mPendingEventsFlushCount.acc =
          toInt32 (r.st.mPendingEventsFlushCount.acc - 1) ∧ r.st.mPendingEventsFlushCount.acc ≠ 0)) ∧
    ((flushLoop cfg env (List.range NUM_SENSORS) r).st.mPendingEventsFlushCount.so =
        r.st.mPendingEventsFlushCount.so ∨
      ((flushLoop cfg env (List.range NUM_SENSORS) r).st.mPendingEventsFlushCount.so =
          toInt32 (r.st.mPendingEventsFlushCount.so - 1) ∧ r.st.mPendingEventsFlushCount.so ≠ 0)) ∧
    ((flushLoop cfg env (List.range NUM_SENSORS) r).st.mPendingEventsFlushCount.sm =
        r.st.mPendingEventsFlushCount.sm ∨
      ((flushLoop cfg env (List.range NUM_SENSORS) r).st.mPendingEventsFlushCount.sm =
          toInt32 (r.st.mPendingEventsFlushCount.sm - 1) ∧ r.st.mPendingEventsFlushCount.sm ≠ 0)) := by
  have hrange : List.range NUM_SENSORS = [0, 1, 2] := by decide
  rw [hrange]
  by_cases z0 : r.st.mPendingEventsFlushCount.acc = 0 <;>
  by_cases z1 : r.st.mPendingEventsFlushCount.so = 0 <;>
  by_cases z2 : r.st.mPendingEventsFlushCount.sm = 0 <;>
  simp [flushLoop, flushStep, z0, z1, z2] <;>
  split_ifs <;> simp [z0, z1, z2]

theorem stampSlot_sensors {F : Type} (cfg : Config F) (t : TimeVal) (i : Nat) (st : State F) :
    slotSensors (stampSlot cfg t i st).mPendingEvents = slotSensors st.mPendingEvents := by
  unfold stampSlot slotSensors Slots.set Slots.get
  split_ifs <;> rfl

theorem syncStep_sensors {F : Type} (cfg : Config F) (env : ReadEnv) (t : TimeVal) (i : Nat)
    (r : Run F) :
    slotSensors (syncStep cfg env t i r).st.mPendingEvents = slotSensors r.st.mPendingEvents := by
  unfold syncStep
  split_ifs
  · rw [syncAkm_st]
    split_ifs
    · obtain ⟨f, b, h⟩ := syncEmit_st cfg env i ({ r with st := stampSlot cfg t i r.st } : Run F)
      rw [h]
      exact stampSlot_sensors cfg t i r.st
    · exact stampSlot_sensors cfg t i r.st
  · rfl

theorem syncLoop_sensors {F : Type} (cfg : Config F) (env : ReadEnv) (t : TimeVal) :
    ∀ (l : List Nat) (r : Run F),
      slotSensors (syncLoop cfg env t l r).st.mPendingEvents = slotSensors r.st.mPendingEvents
  | [], r => by simp [syncLoop]
  | i :: rest, r => by
    unfold syncLoop
    split_ifs
    · rfl
    · rw [syncLoop_sensors cfg env t rest, syncStep_sensors]

theorem processEvent_sensors {F : Type} (cfg : Config F) (env : ReadEnv) (e : InputEvent)
    (r : Run F) :
    slotSensors (processEvent cfg env e r).st.mPendingEvents =
      slotSensors r.st.mPendingEvents := by
  unfold processEvent
  split_ifs
  all_goals first
    | exact syncLoop_sensors cfg env e.time _ r
    | rfl

theorem eventLoop_sensors {F : Type} (cfg : Config F) (env : ReadEnv) :
    ∀ (q : List InputEvent) (r : Run F),
      slotSensors (eventLoop cfg env q r).st.mPendingEvents = slotSensors r.st.mPendingEvents
  | [], r => by simp [eventLoop]
  | e :: q, r => by
    unfold eventLoop
    split_ifs
    · rfl
    · rw [eventLoop_sensors cfg env q, processEvent_sensors]

theorem readEvents_sensors {F : Type} (cfg : Config F) (st : State F) (count : Int)
    (env : ReadEnv) :
    slotSensors (readEvents cfg st count env).st.mPendingEvents =
      slotSensors st.mPendingEvents := by
  unfold readEvents
  split_ifs
  · rfl
  · rfl
  · show slotSensors (eventLoop cfg env _ _).st.mPendingEvents = _
    rw [eventLoop_sensors]
    obtain ⟨c, hc⟩ := flushLoop_st cfg env (List.range NUM_SENSORS) (startRun st count env)
    rw [hc]
    rfl

theorem readEvents_counters {F : Type} (cfg : Config F) (st : State F) (count : Int)
    (env : ReadEnv) :
    ((readEvents cfg st count env).st.mPendingEventsFlushCount.acc =
        st.mPendingEventsFlushCount.acc ∨
      ((readEvents cfg st count env).st.mPendingEventsFlushCount.acc =
          toInt32 (st.mPendingEventsFlushCount.acc - 1) ∧ st.mPendingEventsFlushCount.acc ≠ 0)) ∧
    ((readEvents cfg st count env).st.mPendingEventsFlushCount.so =
        st.mPendingEventsFlushCount.so ∨
      ((readEvents cfg st count env).st.mPendingEventsFlushCount.so =
          toInt32 (st.mPendingEventsFlushCount.so - 1) ∧ st.mPendingEventsFlushCount.so ≠ 0)) ∧
    ((readEvents cfg st count env).st.mPendingEventsFlushCount.sm =
        st.mPendingEventsFlushCount.sm ∨
      ((readEvents cfg st count env).st.mPendingEventsFlushCount.sm =
          toInt32 (st.mPendingEventsFlushCount.sm - 1) ∧ st.mPendingEventsFlushCount.sm ≠ 0)) := by
  unfold readEvents
  split_ifs
  · exact ⟨Or.inl rfl, Or.inl rfl, Or.inl rfl⟩
  · exact ⟨Or.inl rfl, Or.inl rfl, Or.inl rfl⟩
  · show ((eventLoop cfg env _ _).st.mPendingEventsFlushCount.acc = _ ∨ _) ∧
      ((eventLoop cfg env _ _).st.mPendingEventsFlushCount.so = _ ∨ _) ∧
      ((eventLoop cfg env _ _).st.mPendingEventsFlushCount.sm = _ ∨ _)
    rw [eventLoop_flushCount]
    exact flushLoop_counters cfg env (startRun st count env)

theorem reachable_invariant {F : Type} (cfg : Config F) (st : State F)
    (h : Reachable cfg st) :
    st.mPendingEventsFlushCount.sm = 0 ∧
      slotSensors st.mPendingEvents = (cfg.ID_A, cfg.ID_SO, cfg.ID_SM) := by
  induction h with
  | constructed => exact ⟨rfl, rfl⟩
  | afterEnable st handle en ioctlRet _ ih =>
    obtain ⟨f, b, e⟩ := enable_st cfg st handle en ioctlRet
    rw [e]
    exact ih
  | afterSetDelay st handle ns ioctlRet _ ih =>
    obtain ⟨d, e⟩ := setDelay_st cfg st handle ns ioctlRet
    rw [e]
    exact ih
  | afterFlush st handle _ ih =>
    rcases flush_st cfg st handle with e | e | e <;> rw [e] <;> exact ih
  | afterReadEvents st count env _ ih =>
    obtain ⟨c, d⟩ := ih
    obtain ⟨_, _, kc⟩ := readEvents_counters cfg st count env
    refine ⟨?_, ?_⟩
    · rcases kc with e | ⟨e, ne⟩
      · rw [e]; exact c
      · exact absurd c ne
    · rw [readEvents_sensors]; exact d

theorem reachableNoOverflow_invariant {F : Type} (cfg : Config F) (st : State F)
    (h : ReachableNoOverflow cfg st) :
    (0 ≤ st.mPendingEventsFlushCount.acc ∧ st.mPendingEventsFlushCount.acc ≤ INT_MAX) ∧
      (0 ≤ st.mPendingEventsFlushCount.so ∧ st.mPendingEventsFlushCount.so ≤ INT_MAX) ∧
      st.mPendingEventsFlushCount.sm = 0 := by
  induction h with
  | constructed =>
    have h0 : (0 : Int) ≤ INT_MAX := by decide
    exact ⟨⟨le_refl _, h0⟩, ⟨le_refl _, h0⟩, rfl⟩
  | afterEnable st handle en ioctlRet _ ih =>
    obtain ⟨f, b, e⟩ := enable_st cfg st handle en ioctlRet
    rw [e]
    exact ih
  | afterSetDelay st handle ns ioctlRet _ ih =>
    obtain ⟨d, e⟩ := setDelay_st cfg st handle ns ioctlRet
    rw [e]
    exact ih
  | afterFlush st handle _ hside ih =>
    obtain ⟨⟨a1, a2⟩, ⟨b1, b2⟩, c⟩ := ih
    have s0 := hside 0 (by decide)
    have s1 := hside 1 (by decide)
    simp only [Slots.get_zero, Slots.get_one] at s0 s1
    have hmin : INT_MIN = -2147483648 := rfl
    have hmax : INT_MAX = 2147483647 := rfl
    rcases flush_st cfg st handle with e | e | e
    · rw [e]
      exact ⟨⟨a1, a2⟩, ⟨b1, b2⟩, c⟩
    · rw [e] at s0
      rw [e]
      refine ⟨?_, ⟨b1, b2⟩, c⟩
      show 0 ≤ toInt32 (st.mPendingEventsFlushCount.acc + 1) ∧
        toInt32 (st.mPendingEventsFlushCount.acc + 1) ≤ INT_MAX
      rcases s0 with s0 | s0
      · have s0 : toInt32 (st.mPendingEventsFlushCount.acc + 1) =
            st.mPendingEventsFlushCount.acc := s0
        rw [s0]
        exact ⟨a1, a2⟩
      · rw [toInt32_succ _ (by omega) s0]
        omega
    · rw [e] at s1
      rw [e]
      refine ⟨⟨a1, a2⟩, ?_, c⟩
      show 0 ≤ toInt32 (st.mPendingEventsFlushCount.so + 1) ∧
        toInt32 (st.mPendingEventsFlushCount.so + 1) ≤ INT_MAX
      rcases s1 with s1 | s1
      · have s1 : toInt32 (st.mPendingEventsFlushCount.so + 1) =
            st.mPendingEventsFlushCount.so := s1
        rw [s1]
        exact ⟨b1, b2⟩
      · rw [toInt32_succ _ (by omega) s1]
        omega
  | afterReadEvents st count env _ ih =>
    obtain ⟨⟨a1, a2⟩, ⟨b1, b2⟩, c⟩ := ih
    obtain ⟨ka, kb, kc⟩ := readEvents_counters cfg st count env
    have hmin : INT_MIN = -2147483648 := rfl
    have hmax : INT_MAX = 2147483647 := rfl
    refine ⟨?_, ?_, ?_⟩
    · rcases ka with e | ⟨e, ne⟩
      · rw [e]; exact ⟨a1, a2⟩
      · rw [e, toInt32_pred _ (by omega) a2]; omega
    · rcases kb with e | ⟨e, ne⟩
      · rw [e]; exact ⟨b1, b2⟩
      · rw [e, toInt32_pred _ (by omega) b2]; omega
    · rcases kc with e | ⟨e, ne⟩
      · rw [e]; exact c
      · exact absurd c ne

theorem reachableNoOverflow_reachable {F : Type} (cfg : Config F) (st : State F)
    (h : ReachableNoOverflow cfg st) : Reachable cfg st := by
  induction h with
  | constructed => exact Reachable.constructed
  | afterEnable st handle en ioctlRet _ ih => exact Reachable.afterEnable _ _ _ _ ih
  | afterSetDelay st handle ns ioctlRet _ ih => exact Reachable.afterSetDelay _ _ _ _ ih
  | afterFlush st handle _ _ ih => exact Reachable.afterFlush _ _ ih
  | afterReadEvents st count env _ ih => exact Reachable.afterReadEvents _ _ _ ih

/-- C18: in every state reachable from the constructed one by calls of `enable`,
`setDelay`, `flush` and `readEvents` (any arguments, any device results, any raw events)
in which no `flush` overflows the counter it increments, each flush counter is at least 0,
and a call of `readEvents` leaves each counter as it was or lowers it by exactly one, the
latter only when the counter was positive. -/
theorem flush_counters_nonneg {F : Type} (cfg : Config F) (st : State F)
    (h : ReachableNoOverflow cfg st) :
    (∀ i, i < NUM_SENSORS → 0 ≤ st.mPendingEventsFlushCount.get i) ∧
      ∀ (count : Int) (env : ReadEnv) (i : Nat), i < NUM_SENSORS →
        (readEvents cfg st count env).st.mPendingEventsFlushCount.get i =
            st.mPendingEventsFlushCount.get i ∨
          ((readEvents cfg st count env).st.mPendingEventsFlushCount.get i =
              st.mPendingEventsFlushCount.get i - 1 ∧
            0 < st.mPendingEventsFlushCount.get i) := by
  obtain ⟨⟨a1, a2⟩, ⟨b1, b2⟩, c⟩ := reachableNoOverflow_invariant cfg st h
  have hmin : INT_MIN = -2147483648 := rfl
  constructor
  · intro i hi
    have hi3 : i = 0 ∨ i = 1 ∨ i = 2 := by unfold NUM_SENSORS at hi; omega
    rcases hi3 with rfl | rfl | rfl
    · simpa using a1
    · simpa using b1
    · simp [c]
  · intro count env i hi
    obtain ⟨ka, kb, kc⟩ := readEvents_counters cfg st count env
    have hi3 : i = 0 ∨ i = 1 ∨ i = 2 := by unfold NUM_SENSORS at hi; omega
    rcases hi3 with rfl | rfl | rfl
    · simp only [Slots.get_zero]
      rcases ka with e | ⟨e, ne⟩
      · exact Or.inl e
      · exact Or.inr ⟨by rw [e, toInt32_pred _ (by omega) a2], by omega⟩
    · simp only [Slots.get_one]
      rcases kb with e | ⟨e, ne⟩
      · exact Or.inl e
      · exact Or.inr ⟨by rw [e, toInt32_pred _ (by omega) b2], by omega⟩
    · simp only [Slots.get_two]
      rcases kc with e | ⟨e, ne⟩
      · exact Or.inl e
      · exact absurd c ne

theorem flush_counters_nonneg_witness :
    ReachableNoOverflow sampleConfig
        (flush sampleConfig (enable sampleConfig (init sampleConfig) sampleConfig.ID_A 1 0).st
          sampleConfig.ID_A).st ∧
      (flush sampleConfig (enable sampleConfig (init sampleConfig) sampleConfig.ID_A 1 0).st
          sampleConfig.ID_A).st.mPendingEventsFlushCount.get ACC = 1 ∧
      0 ≤ (flush sampleConfig (enable sampleConfig (init sampleConfig) sampleConfig.ID_A 1 0).st
          sampleConfig.ID_A).st.mPendingEventsFlushCount.get ACC :=
  ⟨ReachableNoOverflow.afterFlush _ _
      (ReachableNoOverflow.afterEnable _ _ _ _ ReachableNoOverflow.constructed)
      (by decide),
    by decide,
    (flush_counters_nonneg sampleConfig _
      (ReachableNoOverflow.afterFlush _ _
        (ReachableNoOverflow.afterEnable _ _ _ _ ReachableNoOverflow.constructed)
        (by decide))).1
      ACC (by decide)⟩

theorem filter_isFlush_data {F : Type} (ds : List (OutEvent F))
    (h : ∀ d ∈ ds, ∃ i ev, i < NUM_SENSORS ∧ d = OutEvent.data i ev) :
    ds.filter OutEvent.isFlush = [] := by
  rw [List.filter_eq_nil_iff]
  intro d hd
  obtain ⟨i, ev, _, rfl⟩ := h d hd
  simp [OutEvent.isFlush]

/-- C19: in every state reachable from the constructed one the significant-motion flush
counter is zero; hence a call of `readEvents` from such a state writes no flush event
naming `ID_SM` and writes at most two flush events. -/
theorem significant_motion_never_flushed {F : Type} (cfg : Config F)
    (hd : cfg.handlesDistinct) (st : State F) (h : Reachable cfg st) :
    st.mPendingEventsFlushCount.sm = 0 ∧
      ∀ (count : Int) (env : ReadEnv),
        (readEvents cfg st count env).out.filter (OutEvent.isFlushOf cfg.ID_SM) = [] ∧
          ((readEvents cfg st count env).out.filter OutEvent.isFlush).length ≤ 2 := by
  obtain ⟨h1, h2, h3, h4, h5, h6⟩ := hd
  obtain ⟨c, ids⟩ := reachable_invariant cfg st h
  have i1 : st.mPendingEvents.acc.sensor = cfg.ID_A := congrArg (fun x => x.1) ids
  have i2 : st.mPendingEvents.so.sensor = cfg.ID_SO := congrArg (fun x => x.2.1) ids
  refine ⟨c, ?_⟩
  intro count env
  by_cases hc : count < 1
  · simp [readEvents, hc]
  by_cases hn : env.n < 0
  · simp [readEvents, hc, hn]
  obtain ⟨ds, hds, hout, _⟩ := readEvents_phases cfg st count env (by omega) (by omega)
  have hc0 : count ≠ 0 := by omega
  rw [hout, List.filter_append, List.filter_append, filter_isFlushOf_data _ ds hds,
    filter_isFlush_data ds hds, List.append_nil, List.append_nil]
  by_cases c1 : count = 1 <;>
  by_cases z0 : st.mPendingEventsFlushCount.acc = 0 <;>
  by_cases z1 : st.mPendingEventsFlushCount.so = 0 <;>
  simp [startRun, flushLoop, flushStep, NUM_SENSORS, List.range_succ, hc0, c, z0, z1,
    c1, OutEvent.isFlushOf, OutEvent.isFlush, i1, i2, h2, h4, sub_eq_iff_eq_add]

theorem significant_motion_never_flushed_witness :
    sampleConfig.handlesDistinct ∧
      Reachable sampleConfig
        (flush sampleConfig (enable sampleConfig (init sampleConfig) sampleConfig.ID_SM 1 0).st
          sampleConfig.ID_SM).st ∧
      (flush sampleConfig (enable sampleConfig (init sampleConfig) sampleConfig.ID_SM 1 0).st
          sampleConfig.ID_SM).st.mPendingEventsFlushCount.sm = 0 :=
  ⟨by decide,
    Reachable.afterFlush _ _ (Reachable.afterEnable _ _ _ _ Reachable.constructed),
    (significant_motion_never_flushed sampleConfig (by decide) _
      (Reachable.afterFlush _ _ (Reachable.afterEnable _ _ _ _ Reachable.constructed))).1⟩

/-! ## The side channel with the accelerometer disabled -/

theorem processEvent_axis {F : Type} (cfg : Config F) (env : ReadEnv) (e : InputEvent)
    (r : Run F) (he : isAxisEvent cfg e) :
    processEvent cfg env e r =
      { r with st := markPending r.st ACC (axisUpdate cfg e r.st.mPendingEvents.acc) } := by
  obtain ⟨ht, hcode⟩ := he
  unfold processEvent axisUpdate
  rw [if_pos ht]
  by_cases hx : e.code = cfg.EVENT_TYPE_ACCEL_X
  · rw [if_pos hx, if_pos hx]
    rfl
  · by_cases hy : e.code = cfg.EVENT_TYPE_ACCEL_Y
    · rw [if_neg hx, if_pos hy, if_neg hx, if_pos hy]
      rfl
    · have hz : e.code = cfg.EVENT_TYPE_ACCEL_Z := by
        rcases hcode with h | h | h
        · exact absurd h hx
        · exact absurd h hy
        · exact h
      rw [if_neg hx, if_neg hy, if_pos hz, if_neg hx, if_neg hy, if_pos hz]
      rfl

theorem absorbAxes_frame {F : Type} (cfg : Config F) :
    ∀ (axes : List InputEvent) (st : State F),
      (absorbAxes cfg axes st).mEnabled = st.mEnabled ∧
      (absorbAxes cfg axes st).mOriEnabled = st.mOriEnabled ∧
      (absorbAxes cfg axes st).mPendingEvents.acc =
        axes.foldl (fun a e => axisUpdate cfg e a) st.mPendingEvents.acc ∧
      (st.mPendingEventsMask &&& (1 <<< ACC) ≠ 0 ∨ axes ≠ [] →
        (absorbAxes cfg axes st).mPendingEventsMask &&& (1 <<< ACC) ≠ 0)
  | [], st => ⟨rfl, rfl, rfl, fun h => h.elim id (fun h => absurd rfl h)⟩
  | e :: axes, st => by
    obtain ⟨a, b, c, d⟩ := absorbAxes_frame cfg axes
      (markPending st ACC (axisUpdate cfg e st.mPendingEvents.acc))
    refine ⟨a, b, c, fun _ => d (Or.inl ?_)⟩
    show (st.mPendingEventsMask ||| (1 <<< ACC)) &&& (1 <<< ACC) ≠ 0
    rw [or_and_self]
    decide

theorem flushLoop_fx {F : Type} (cfg : Config F) (env : ReadEnv) :
    ∀ (l : List Nat) (r : Run F), (flushLoop cfg env l r).fx = r.fx
  | [], r => by simp [flushLoop]
  | i :: rest, r => by
    unfold flushLoop
    split_ifs
    · rfl
    · rw [flushLoop_fx cfg env rest]
      unfold flushStep
      split_ifs <;> rfl

theorem enable_fx_no_accel {F : Type} (cfg : Config F) (st : State F)
    (handle en ioctlRet : Int) :
    (enable cfg st handle en ioctlRet).fx.filter Effect.isAkmAccel = [] := by
  have key : ∀ mask : Nat,
      (enableMasked cfg st handle en mask ioctlRet).fx.filter Effect.isAkmAccel = [] := by
    intro mask
    unfold enableMasked
    by_cases hr : ioctlRet < 0 <;> by_cases hen : en = 0 <;>
      by_cases h0 : st.mEnabled &&& mask = 0 <;> by_cases h1 : st.mEnabled &&& mask = 1 <;>
      by_cases hA : handle = cfg.ID_A <;>
      simp [hr, hen, h0, h1, hA, Effect.isAkmAccel]
  unfold enable
  split_ifs
  · exact key _
  · exact key _
  · exact key _
  · rfl
  · rfl

theorem syncStep_no_accel {F : Type} (cfg : Config F) (env : ReadEnv) (t : TimeVal) (i : Nat)
    (hi : i ≠ ACC) (r : Run F) :
    (syncStep cfg env t i r).fx.filter Effect.isAkmAccel = r.fx.filter Effect.isAkmAccel ∧
      (syncStep cfg env t i r).out.filter (OutEvent.isDataOf ACC) =
        r.out.filter (OutEvent.isDataOf ACC) := by
  have hakm : ∀ x : Run F, syncAkm i x = x := by
    intro x; simp [syncAkm, hi]
  unfold syncStep
  by_cases hp : r.st.mPendingEventsMask &&& (1 <<< i) ≠ 0
  · rw [if_pos hp, hakm]
    split_ifs
    · rw [syncEmit_out]
      refine ⟨?_, by simp [List.filter_append, OutEvent.isDataOf, hi]⟩
      unfold syncEmit
      split_ifs
      · show (r.fx ++ (enable cfg _ cfg.ID_SM 0 _).fx).filter Effect.isAkmAccel = _
        rw [List.filter_append, enable_fx_no_accel, List.append_nil]
      · rfl
    · exact ⟨rfl, rfl⟩
  · rw [if_neg hp]
    exact ⟨rfl, rfl⟩

theorem syncLoop_no_accel {F : Type} (cfg : Config F) (env : ReadEnv) (t : TimeVal) :
    ∀ (l : List Nat) (r : Run F), (∀ i ∈ l, i ≠ ACC) →
      (syncLoop cfg env t l r).fx.filter Effect.isAkmAccel = r.fx.filter Effect.isAkmAccel ∧
        (syncLoop cfg env t l r).out.filter (OutEvent.isDataOf ACC) =
          r.out.filter (OutEvent.isDataOf ACC)
  | [], r, _ => by simp [syncLoop]
  | i :: rest, r, h => by
    unfold syncLoop
    split_ifs
    · exact ⟨rfl, rfl⟩
    · obtain ⟨a, b⟩ := syncStep_no_accel cfg env t i (h i (List.mem_cons_self _ _)) r
      obtain ⟨c, d⟩ := syncLoop_no_accel cfg env t rest (syncStep cfg env t i r)
        (fun j hj => h j (List.mem_cons_of_mem _ hj))
      exact ⟨c.trans a, d.trans b⟩

theorem syncStep_ACC_side_channel {F : Type} (cfg : Config F) (env : ReadEnv) (t : TimeVal)
    (r : Run F) (hp : r.st.mPendingEventsMask &&& (1 <<< ACC) ≠ 0)
    (hoff : isEnabled cfg r.st ACC = false) (hori : r.st.mOriEnabled = true) :
    syncStep cfg env t ACC r =
      { r with
        st := stampSlot cfg t ACC r.st
        fx := r.fx ++ [Effect.writeAkmAccel r.st.mPendingEvents.acc.data0
          r.st.mPendingEvents.acc.data1 r.st.mPendingEvents.acc.data2] } := by
  have he : ¬ (stampSlot cfg t ACC r.st).mEnabled &&& indexToMask cfg ACC ≠ 0 := by
    simpa [isEnabled] using hoff
  unfold syncStep
  rw [if_pos hp]
  simp only []
  rw [if_neg he]
  simp [syncAkm, stampSlot, hori]

theorem syncLoop_cons_of_mask {F : Type} (cfg : Config F) (env : ReadEnv) (t : TimeVal)
    (i : Nat) (l : List Nat) (r : Run F) (h1 : r.count ≠ 0)
    (h2 : r.st.mPendingEventsMask ≠ 0) :
    syncLoop cfg env t (i :: l) r = syncLoop cfg env t l (syncStep cfg env t i r) := by
  simp [syncLoop, h1, h2]

theorem mask_ne_zero_of_bit (m i : Nat) (h : m &&& (1 <<< i) ≠ 0) : m ≠ 0 := by
  intro h0
  rw [h0] at h
  simp at h

theorem readEvents_eq {F : Type} (cfg : Config F) (st : State F) (count : Int)
    (env : ReadEnv) (hcap : 1 ≤ count) (hn : 0 ≤ env.n) :
    readEvents cfg st count env =
      { ret := (eventLoop cfg env
          (flushLoop cfg env (List.range NUM_SENSORS) (startRun st count env)).st.mInputReader
          (flushLoop cfg env (List.range NUM_SENSORS) (startRun st count env))).numEventReceived
        st := (eventLoop cfg env
          (flushLoop cfg env (List.range NUM_SENSORS) (startRun st count env)).st.mInputReader
          (flushLoop cfg env (List.range NUM_SENSORS) (startRun st count env))).st
        out := (eventLoop cfg env
          (flushLoop cfg env (List.range NUM_SENSORS) (startRun st count env)).st.mInputReader
          (flushLoop cfg env (List.range NUM_SENSORS) (startRun st count env))).out
        fx := (eventLoop cfg env
          (flushLoop cfg env (List.range NUM_SENSORS) (startRun st count env)).st.mInputReader
          (flushLoop cfg env (List.range NUM_SENSORS) (startRun st count env))).fx } := by
  have hc : ¬ count < 1 := by omega
  have hn' : ¬ env.n < 0 := by omega
  simp only [readEvents, hc, hn', if_false]

theorem readEvents_ret_eq_length {F : Type} (cfg : Config F) (st : State F) (count : Int)
    (env : ReadEnv) (hcap : 1 ≤ count) (hn : 0 ≤ env.n) :
    (readEvents cfg st count env).ret = ((readEvents cfg st count env).out.length : Int) := by
  have h0 : Run.Counted count (startRun st count env) :=
    ⟨by show 0 ≤ count; omega, by simp [startRun], by simp [startRun]⟩
  have hf := flushLoop_counted cfg env count (List.range NUM_SENSORS) _ h0
  obtain ⟨_, e2, _⟩ := eventLoop_counted cfg env count
    (flushLoop cfg env (List.range NUM_SENSORS) _).st.mInputReader _ hf
  rw [readEvents_eq cfg st count env hcap hn]
  exact e2

/-! ## Pending slots and exhausted capacity -/

theorem syncStep_emits {F : Type} (cfg : Config F) (env : ReadEnv) (t : TimeVal) (i : Nat)
    (r : Run F) (hp : r.st.mPendingEventsMask &&& (1 <<< i) ≠ 0)
    (he : isEnabled cfg r.st i = true) :
    (syncStep cfg env t i r).out =
      r.out ++ [OutEvent.data i
        { r.st.mPendingEvents.get i with timestamp := cfg.timevalToNano t }] := by
  have he' : (stampSlot cfg t i r.st).mEnabled &&& indexToMask cfg i ≠ 0 := by
    simpa [isEnabled] using he
  unfold syncStep
  rw [if_pos hp, syncAkm_out]
  simp only []
  rw [if_pos he', syncEmit_out]
  simp [stampSlot, Slots.get_set_self]

theorem syncStep_other {F : Type} (cfg : Config F) (env : ReadEnv) (t : TimeVal)
    (i : Nat) (hi : i = ACC ∨ i = SO) (j : Nat) (hj : j < NUM_SENSORS) (hji : j ≠ i)
    (r : Run F) :
    (syncStep cfg env t i r).st.mEnabled = r.st.mEnabled ∧
      (syncStep cfg env t i r).st.mPendingEventsMask &&& (1 <<< j) =
        r.st.mPendingEventsMask &&& (1 <<< j) ∧
      (syncStep cfg env t i r).st.mPendingEvents.get j = r.st.mPendingEvents.get j ∧
      (syncStep cfg env t i r).count = r.count - dueData cfg r.st i ∧
      (syncStep cfg env t i r).out.filter (OutEvent.isDataOf j) =
        r.out.filter (OutEvent.isDataOf j) := by
  have hiSM : i ≠ SM := by rcases hi with rfl | rfl <;> decide
  have hj3 : j = 0 ∨ j = 1 ∨ j = 2 := by unfold NUM_SENSORS at hj; omega
  have hrec : ∀ v, (r.st.mPendingEvents.set i v).get j = r.st.mPendingEvents.get j := by
    intro v
    rcases hi with rfl | rfl <;> rcases hj3 with rfl | rfl | rfl <;>
      first
        | exact absurd rfl hji
        | rfl
  have hbits : (r.st.mPendingEventsMask &&& (4294967295 ^^^ (1 <<< i))) &&& (1 <<< j) =
      r.st.mPendingEventsMask &&& (1 <<< j) := by
    apply andnot_and_of_disjoint _ _ _ (shiftLeft_and_disjoint i j (Ne.symm hji))
    rcases hj3 with rfl | rfl | rfl <;> decide
  have hij : i ≠ j := Ne.symm hji
  unfold syncStep
  by_cases hp : r.st.mPendingEventsMask &&& (1 <<< i) ≠ 0
  · rw [if_pos hp, syncAkm_st, syncAkm_count, syncAkm_out]
    by_cases he : r.st.mEnabled &&& indexToMask cfg i ≠ 0
    · have he1 : (stampSlot cfg t i r.st).mEnabled &&& indexToMask cfg i ≠ 0 := he
      simp only []
      rw [if_pos he1, syncEmit_of_ne_SM _ _ _ _ hiSM]
      refine ⟨rfl, hbits, hrec _, ?_, ?_⟩
      · simp [dueData, isPending, isEnabled, hp, he]
      · simp [List.filter_append, OutEvent.isDataOf, hij]
    · have he1 : ¬ (stampSlot cfg t i r.st).mEnabled &&& indexToMask cfg i ≠ 0 := he
      simp only []
      rw [if_neg he1]
      refine ⟨rfl, hbits, hrec _, ?_, rfl⟩
      simp only [not_not] at he
      simp [dueData, isPending, isEnabled, he]
  · rw [if_neg hp]
    refine ⟨rfl, rfl, rfl, ?_, rfl⟩
    simp only [not_not] at hp
    simp [dueData, isPending, hp]

theorem flushLoop_count_eq {F : Type} (cfg : Config F) (env : ReadEnv) (r : Run F)
    (h0 : 0 ≤ r.count) :
    (flushLoop cfg env (List.range NUM_SENSORS) r).count =
      if r.count ≤ dueFlush r.st then 0 else r.count - dueFlush r.st := by
  have hrange : List.range NUM_SENSORS = [0, 1, 2] := by decide
  rw [hrange]
  by_cases z0 : r.st.mPendingEventsFlushCount.acc = 0 <;>
  by_cases z1 : r.st.mPendingEventsFlushCount.so = 0 <;>
  by_cases z2 : r.st.mPendingEventsFlushCount.sm = 0 <;>
  simp [flushLoop, flushStep, dueFlush, z0, z1, z2] <;>
  split_ifs <;> (try simp) <;> omega

theorem eventLoop_of_count_zero {F : Type} (cfg : Config F) (env : ReadEnv)
    (q : List InputEvent) (r : Run F) (h : r.count = 0) :
    eventLoop cfg env q r = { r with st := { r.st with mInputReader := q } } := by
  cases q with
  | nil => rfl
  | cons e q => simp [eventLoop, h]

theorem syncLoop_of_count_zero {F : Type} (cfg : Config F) (env : ReadEnv) (t : TimeVal)
    (l : List Nat) (r : Run F) (h : r.count = 0) : syncLoop cfg env t l r = r := by
  cases l with
  | nil => rfl
  | cons i l => simp [syncLoop, h]

theorem dueData_le_one {F : Type} (cfg : Config F) (a : State F) (i : Nat) :
    dueData cfg a i ≤ 1 := by
  unfold dueData
  split_ifs <;> decide

theorem mask_bit_of_dueData {F : Type} (cfg : Config F) (a : State F) (i : Nat)
    (h : dueData cfg a i ≠ 0) : a.mPendingEventsMask &&& (1 <<< i) ≠ 0 := by
  unfold dueData at h
  split_ifs at h with hc
  · simpa [isPending] using hc.1
  · exact absurd rfl h

theorem syncLoop_exhausted {F : Type} (cfg : Config F) (env : ReadEnv) (t : TimeVal)
    (j : Nat) (hj : j < NUM_SENSORS) (r : Run F) (h0 : 0 ≤ r.count)
    (hex : r.count ≤ dueBefore cfg r.st j) :
    (syncLoop cfg env t (List.range NUM_SENSORS) r).count = 0 ∧
      (syncLoop cfg env t (List.range NUM_SENSORS) r).st.mEnabled = r.st.mEnabled ∧
      (syncLoop cfg env t (List.range NUM_SENSORS) r).st.mPendingEventsMask &&& (1 <<< j) =
        r.st.mPendingEventsMask &&& (1 <<< j) ∧
      (syncLoop cfg env t (List.range NUM_SENSORS) r).st.mPendingEvents.get j =
        r.st.mPendingEvents.get j ∧
      (syncLoop cfg env t (List.range NUM_SENSORS) r).out.filter (OutEvent.isDataOf j) =
        r.out.filter (OutEvent.isDataOf j) := by
  have hrange : List.range NUM_SENSORS = [ACC, SO, SM] := by decide
  rw [hrange]
  by_cases hc : r.count = 0
  · rw [syncLoop_of_count_zero cfg env t _ r hc]
    exact ⟨hc, rfl, rfl, rfl, rfl⟩
  have hdA := dueData_nonneg cfg r.st ACC
  have hdA1 := dueData_le_one cfg r.st ACC
  have hdS := dueData_nonneg cfg r.st SO
  have hdS1 := dueData_le_one cfg r.st SO
  have hj3 : j = ACC ∨ j = SO ∨ j = SM := by
    unfold NUM_SENSORS at hj; unfold ACC SO SM; omega
  rcases hj3 with rfl | rfl | rfl
  · exfalso
    simp [dueBefore, ACC, SO] at hex
    omega
  · have hd : dueBefore cfg r.st SO = dueData cfg r.st ACC := by simp [dueBefore, ACC, SO, SM]
    rw [hd] at hex
    have hA : dueData cfg r.st ACC ≠ 0 := by omega
    have hm := mask_ne_zero_of_bit _ _ (mask_bit_of_dueData cfg r.st ACC hA)
    obtain ⟨a1, a2, a3, a4, a5⟩ := syncStep_other cfg env t ACC (Or.inl rfl) SO (by decide)
      (by decide) r
    rw [syncLoop_cons_of_mask cfg env t ACC _ r hc hm,
      syncLoop_of_count_zero cfg env t _ _ (by rw [a4]; omega)]
    exact ⟨by rw [a4]; omega, a1, a2, a3, a5⟩
  · have hd : dueBefore cfg r.st SM = dueData cfg r.st ACC + dueData cfg r.st SO := by
      simp [dueBefore, ACC, SO, SM]
    rw [hd] at hex
    obtain ⟨a1, a2, a3, a4, a5⟩ := syncStep_other cfg env t ACC (Or.inl rfl) SM (by decide)
      (by decide) r
    obtain ⟨_, s2, _, _, _⟩ := syncStep_other cfg env t ACC (Or.inl rfl) SO (by decide)
      (by decide) r
    have hdSa : dueData cfg (syncStep cfg env t ACC r).st SO = dueData cfg r.st SO :=
      dueData_congr cfg _ _ _ a1 s2
    have hm : r.st.mPendingEventsMask ≠ 0 := by
      by_cases hA : dueData cfg r.st ACC ≠ 0
      · exact mask_ne_zero_of_bit _ _ (mask_bit_of_dueData cfg r.st ACC hA)
      · have hS : dueData cfg r.st SO ≠ 0 := by omega
        exact mask_ne_zero_of_bit _ _ (mask_bit_of_dueData cfg r.st SO hS)
    rw [syncLoop_cons_of_mask cfg env t ACC _ r hc hm]
    by_cases hca : (syncStep cfg env t ACC r).count = 0
    · rw [syncLoop_of_count_zero cfg env t _ _ hca]
      exact ⟨hca, a1, a2, a3, a5⟩
    · have hS : dueData cfg (syncStep cfg env t ACC r).st SO ≠ 0 := by
        rw [hdSa]; omega
      have hma := mask_ne_zero_of_bit _ _
        (mask_bit_of_dueData cfg (syncStep cfg env t ACC r).st SO hS)
      obtain ⟨b1, b2, b3, b4, b5⟩ := syncStep_other cfg env t SO (Or.inr rfl) SM (by decide)
        (by decide) (syncStep cfg env t ACC r)
      have hcb : (syncStep cfg env t SO (syncStep cfg env t ACC r)).count = 0 := by
        rw [b4, hdSa, a4]; omega
      rw [syncLoop_cons_of_mask cfg env t SO _ _ hca hma,
        syncLoop_of_count_zero cfg env t _ _ hcb]
      exact ⟨hcb, b1.trans a1, b2.trans a2, b3.trans a3, b5.trans a5⟩

theorem mem_of_eq_append {α : Type} (x : α) (l a b : List α) (h : l = a ++ [x] ++ b) :
    x ∈ l := by
  rw [h]
  simp

theorem syncLoop_reaches {F : Type} (cfg : Config F) (env : ReadEnv) (t : TimeVal)
    (j : Nat) (hj : j < NUM_SENSORS) (r : Run F)
    (hp : r.st.mPendingEventsMask &&& (1 <<< j) ≠ 0) (he : isEnabled cfg r.st j = true)
    (hcap : dueBefore cfg r.st j < r.count) :
    OutEvent.data j { r.st.mPendingEvents.get j with timestamp := cfg.timevalToNano t } ∈
      (syncLoop cfg env t (List.range NUM_SENSORS) r).out := by
  have hrange : List.range NUM_SENSORS = [ACC, SO, SM] := by decide
  rw [hrange]
  have hdA := dueData_nonneg cfg r.st ACC
  have hdS := dueData_nonneg cfg r.st SO
  have hm := mask_ne_zero_of_bit _ _ hp
  have hj3 : j = ACC ∨ j = SO ∨ j = SM := by
    unfold NUM_SENSORS at hj; unfold ACC SO SM; omega
  rcases hj3 with rfl | rfl | rfl
  · have hd : dueBefore cfg r.st ACC = 0 := by simp [dueBefore, ACC, SO, SM]
    rw [hd] at hcap
    have hc : r.count ≠ 0 := by omega
    rw [syncLoop_cons_of_mask cfg env t ACC _ r hc hm]
    obtain ⟨ds, _, ho⟩ := syncLoop_out cfg env t [SO, SM] (syncStep cfg env t ACC r)
    rw [syncStep_emits cfg env t ACC r hp he] at ho
    exact mem_of_eq_append _ _ _ _ ho
  · have hd : dueBefore cfg r.st SO = dueData cfg r.st ACC := by simp [dueBefore, ACC, SO, SM]
    rw [hd] at hcap
    have hc : r.count ≠ 0 := by omega
    obtain ⟨a1, a2, a3, a4, _⟩ := syncStep_other cfg env t ACC (Or.inl rfl) SO (by decide)
      (by decide) r
    have hpa : (syncStep cfg env t ACC r).st.mPendingEventsMask &&& (1 <<< SO) ≠ 0 := by
      rw [a2]; exact hp
    have hea : isEnabled cfg (syncStep cfg env t ACC r).st SO = true := by
      rw [isEnabled_congr cfg _ r.st SO a1]; exact he
    have hca : (syncStep cfg env t ACC r).count ≠ 0 := by rw [a4]; omega
    rw [syncLoop_cons_of_mask cfg env t ACC _ r hc hm,
      syncLoop_cons_of_mask cfg env t SO _ _ hca (mask_ne_zero_of_bit _ _ hpa)]
    obtain ⟨ds, _, ho⟩ := syncLoop_out cfg env t [SM]
      (syncStep cfg env t SO (syncStep cfg env t ACC r))
    rw [syncStep_emits cfg env t SO _ hpa hea, a3] at ho
    exact mem_of_eq_append _ _ _ _ ho
  · have hd : dueBefore cfg r.st SM = dueData cfg r.st ACC + dueData cfg r.st SO := by
      simp [dueBefore, ACC, SO, SM]
    rw [hd] at hcap
    have hc : r.count ≠ 0 := by omega
    obtain ⟨a1, a2, a3, a4, _⟩ := syncStep_other cfg env t ACC (Or.inl rfl) SM (by decide)
      (by decide) r
    obtain ⟨_, s2, _, _, _⟩ := syncStep_other cfg env t ACC (Or.inl rfl) SO (by decide)
      (by decide) r
    have hdSa : dueData cfg (syncStep cfg env t ACC r).st SO = dueData cfg r.st SO :=
      dueData_congr cfg _ _ _ a1 s2
    have hpa : (syncStep cfg env t ACC r).st.mPendingEventsMask &&& (1 <<< SM) ≠ 0 := by
      rw [a2]; exact hp
    have hca : (syncStep cfg env t ACC r).count ≠ 0 := by rw [a4]; omega
    obtain ⟨b1, b2, b3, b4, _⟩ := syncStep_other cfg env t SO (Or.inr rfl) SM (by decide)
      (by decide) (syncStep cfg env t ACC r)
    have hpb : (syncStep cfg env t SO (syncStep cfg env t ACC r)).st.mPendingEventsMask &&&
        (1 <<< SM) ≠ 0 := by
      rw [b2]; exact hpa
    have heb : isEnabled cfg (syncStep cfg env t SO (syncStep cfg env t ACC r)).st SM = true := by
      rw [isEnabled_congr cfg _ r.st SM (b1.trans a1)]; exact he
    have hcb : (syncStep cfg env t SO (syncStep cfg env t ACC r)).count ≠ 0 := by
      rw [b4, hdSa, a4]; omega
    rw [syncLoop_cons_of_mask cfg env t ACC _ r hc hm,
      syncLoop_cons_of_mask cfg env t SO _ _ hca (mask_ne_zero_of_bit _ _ hpa),
      syncLoop_cons_of_mask cfg env t SM _ _ hcb (mask_ne_zero_of_bit _ _ hpb)]
    have ho := syncStep_emits cfg env t SM _ hpb heb
    rw [b3, a3] at ho
    show _ ∈ (syncStep cfg env t SM _).out
    rw [ho]
    simp

/-- C11, refuted as stated: from the state with the three sensors enabled, a call with
capacity 1 receives an axis event, a screen-orientation event, a significant-motion event
and a sync marker; it writes the accelerometer record and returns 1, and the
screen-orientation and significant-motion slots stay pending. The next call, capacity 1,
receives one sync marker: it writes the screen-orientation record only; the
significant-motion slot, though enabled, is not written at this marker and is still
pending afterwards. -/
theorem pending_slot_not_written_at_next_marker :
    sampleCrowdedCall.ret = 1 ∧
      isPending sampleCrowdedCall.st SO = true ∧
      isPending sampleCrowdedCall.st SM = true ∧
      isEnabled sampleConfig sampleCrowdedCall.st SM = true ∧
      sampleNextMarkerCall.ret = 1 ∧
      (sampleNextMarkerCall.out.filter (OutEvent.isDataOf SO)).length = 1 ∧
      sampleNextMarkerCall.out.filter (OutEvent.isDataOf SM) = [] ∧
      isPending sampleNextMarkerCall.st SM = true := by
  decide

/-! ## The pending mask in reachable states -/

theorem markPending_mask_lt {F : Type} (st : State F) (i : Nat) (ev : SensorsEvent F)
    (hi : i < NUM_SENSORS) (h : st.mPendingEventsMask < 8) :
    (markPending st i ev).mPendingEventsMask < 8 := by
  have hb : 1 <<< i < 2 ^ 3 := by
    have hi3 : i = 0 ∨ i = 1 ∨ i = 2 := by unfold NUM_SENSORS at hi; omega
    rcases hi3 with rfl | rfl | rfl <;> decide
  have hm : st.mPendingEventsMask < 2 ^ 3 := by simpa using h
  have := Nat.or_lt_two_pow hm hb
  simpa [markPending] using this

theorem syncLoop_mask_lt {F : Type} (cfg : Config F) (env : ReadEnv) (t : TimeVal) :
    ∀ (l : List Nat) (r : Run F), r.st.mPendingEventsMask < 8 →
      (syncLoop cfg env t l r).st.mPendingEventsMask < 8
  | [], r, h => by simpa [syncLoop] using h
  | i :: rest, r, h => by
    unfold syncLoop
    split_ifs
    · exact h
    · apply syncLoop_mask_lt cfg env t rest
      rw [syncStep_mask]
      split_ifs
      · exact lt_of_le_of_lt Nat.and_le_left h
      · exact h

theorem processEvent_mask_lt {F : Type} (cfg : Config F) (env : ReadEnv) (e : InputEvent)
    (r : Run F) (h : r.st.mPendingEventsMask < 8) :
    (processEvent cfg env e r).st.mPendingEventsMask < 8 := by
  unfold processEvent
  split_ifs
  all_goals first
    | exact syncLoop_mask_lt cfg env e.time _ r h
    | exact markPending_mask_lt r.st _ _ (by decide) h
    | exact h

theorem eventLoop_mask_lt {F : Type} (cfg : Config F) (env : ReadEnv) :
    ∀ (q : List InputEvent) (r : Run F), r.st.mPendingEventsMask < 8 →
      (eventLoop cfg env q r).st.mPendingEventsMask < 8
  | [], r, h => by simpa [eventLoop] using h
  | e :: q, r, h => by
    unfold eventLoop
    split_ifs
    · exact h
    · exact eventLoop_mask_lt cfg env q _ (processEvent_mask_lt cfg env e r h)

/-- In every reachable state the pending mask only has bits of the three slots. -/
theorem reachable_mask_lt {F : Type} (cfg : Config F) (st : State F) (h : Reachable cfg st) :
    st.mPendingEventsMask < 8 := by
  induction h with
  | constructed => show (0 : Nat) < 8; decide
  | afterEnable st handle en ioctlRet _ ih =>
    obtain ⟨f, b, e⟩ := enable_st cfg st handle en ioctlRet
    rw [e]
    exact ih
  | afterSetDelay st handle ns ioctlRet _ ih =>
    obtain ⟨d, e⟩ := setDelay_st cfg st handle ns ioctlRet
    rw [e]
    exact ih
  | afterFlush st handle _ ih =>
    rcases flush_st cfg st handle with e | e | e <;> rw [e] <;> exact ih
  | afterReadEvents st count env _ ih =>
    unfold readEvents
    split_ifs
    · exact ih
    · exact ih
    · apply eventLoop_mask_lt
      obtain ⟨c, hc⟩ := flushLoop_st cfg env (List.range NUM_SENSORS) (startRun st count env)
      rw [hc]
      exact ih

/-! ## flush at the largest counter value -/

theorem flushTimes_reachable {F : Type} (cfg : Config F) (st : State F) (handle : Int)
    (h : Reachable cfg st) : ∀ n, Reachable cfg (flushTimes cfg st handle n)
  | 0 => h
  | n + 1 => Reachable.afterFlush _ handle (flushTimes_reachable cfg st handle h n)

theorem flushTimes_ID_A {F : Type} (cfg : Config F) (st : State F)
    (hen : isEnabled cfg st ACC = true) (lo : INT_MIN ≤ st.mPendingEventsFlushCount.acc) :
    ∀ n : Nat, st.mPendingEventsFlushCount.acc + n ≤ INT_MAX →
      flushTimes cfg st cfg.ID_A n =
        { st with mPendingEventsFlushCount :=
            { st.mPendingEventsFlushCount with
              acc := st.mPendingEventsFlushCount.acc + n } }
  | 0, _ => by simp [flushTimes]
  | n + 1, hn => by
    have hn1 : st.mPendingEventsFlushCount.acc + (n : Int) < INT_MAX := by
      push_cast at hn
      omega
    have ih := flushTimes_ID_A cfg st hen lo n (le_of_lt hn1)
    have hen2 : isEnabled cfg (flushTimes cfg st cfg.ID_A n) ACC = true := by
      rw [ih]
      exact hen
    show (flush cfg (flushTimes cfg st cfg.ID_A n) cfg.ID_A).st = _
    rw [flush_ID_A_enabled cfg _ hen2, ih]
    show ({ st with mPendingEventsFlushCount :=
            { st.mPendingEventsFlushCount with
              acc := toInt32 (st.mPendingEventsFlushCount.acc + (n : Int) + 1) } } : State F) = _
    rw [toInt32_succ _ (by omega) hn1]
    push_cast
    simp [add_assoc]

/-- C9, the case the claim leaves out: after the constructor, a successful `enable(ID_A, 1)`
and 2147483647 calls of `flush(ID_A)` the accelerometer's flush counter is `INT_MAX`; one
more `flush(ID_A)` returns 0 and stores `INT_MIN`, which is not the counter plus one. -/
theorem flush_at_INT_MAX_wraps :
    Reachable sampleConfig
        (flushTimes sampleConfig
          (enable sampleConfig (init sampleConfig) sampleConfig.ID_A 1 0).st
          sampleConfig.ID_A 2147483647) ∧
      isEnabled sampleConfig
        (flushTimes sampleConfig
          (enable sampleConfig (init sampleConfig) sampleConfig.ID_A 1 0).st
          sampleConfig.ID_A 2147483647) ACC = true ∧
      (flushTimes sampleConfig
          (enable sampleConfig (init sampleConfig) sampleConfig.ID_A 1 0).st
          sampleConfig.ID_A 2147483647).mPendingEventsFlushCount.get ACC = 2147483647 ∧
      (flush sampleConfig
          (flushTimes sampleConfig
            (enable sampleConfig (init sampleConfig) sampleConfig.ID_A 1 0).st
            sampleConfig.ID_A 2147483647) sampleConfig.ID_A).ret = 0 ∧
      (flush sampleConfig
          (flushTimes sampleConfig
            (enable sampleConfig (init sampleConfig) sampleConfig.ID_A 1 0).st
            sampleConfig.ID_A 2147483647)
          sampleConfig.ID_A).st.mPendingEventsFlushCount.get ACC = -2147483648 ∧
      (flush sampleConfig
          (flushTimes sampleConfig
            (enable sampleConfig (init sampleConfig) sampleConfig.ID_A 1 0).st
            sampleConfig.ID_A 2147483647)
          sampleConfig.ID_A).st.mPendingEventsFlushCount.get ACC ≠
        (flushTimes sampleConfig
          (enable sampleConfig (init sampleConfig) sampleConfig.ID_A 1 0).st
          sampleConfig.ID_A 2147483647).mPendingEventsFlushCount.get ACC + 1 := by
  have hst := flushTimes_ID_A sampleConfig
    (enable sampleConfig (init sampleConfig) sampleConfig.ID_A 1 0).st (by decide) (by decide)
    2147483647 (by decide)
  refine ⟨flushTimes_reachable _ _ _ (Reachable.afterEnable _ _ _ _ Reachable.constructed) _,
    ?_, ?_, ?_, ?_, ?_⟩
  all_goals rw [hst]
  all_goals decide

/-! ## The while loop, event by event -/

theorem runTo_cons {F : Type} (cfg : Config F) (env : ReadEnv) (e : InputEvent)
    (evs : List InputEvent) (r : Run F) :
    runTo cfg env (e :: evs) r = runTo cfg env evs (processEvent cfg env e r) := rfl

theorem runTo_append {F : Type} (cfg : Config F) (env : ReadEnv) (a b : List InputEvent)
    (r : Run F) : runTo cfg env (a ++ b) r = runTo cfg env b (runTo cfg env a r) := by
  simp [runTo, List.foldl_append]

theorem flushLoop_count_le {F : Type} (cfg : Config F) (env : ReadEnv) :
    ∀ (l : List Nat) (r : Run F), (flushLoop cfg env l r).count ≤ r.count
  | [], r => le_refl _
  | i :: rest, r => by
    unfold flushLoop
    split_ifs
    · exact le_refl _
    · refine le_trans (flushLoop_count_le cfg env rest _) ?_
      unfold flushStep
      split_ifs
      · exact le_refl _
      · show r.count - 1 ≤ r.count
        omega

theorem syncStep_count_le {F : Type} (cfg : Config F) (env : ReadEnv) (t : TimeVal) (i : Nat)
    (r : Run F) : (syncStep cfg env t i r).count ≤ r.count := by
  unfold syncStep
  by_cases hp : r.st.mPendingEventsMask &&& (1 <<< i) ≠ 0
  · rw [if_pos hp, syncAkm_count]
    by_cases he : (stampSlot cfg t i r.st).mEnabled &&& indexToMask cfg i ≠ 0
    · simp only []
      rw [if_pos he, syncEmit_count]
      show r.count - 1 ≤ r.count
      omega
    · simp only []
      rw [if_neg he]
  · rw [if_neg hp]

theorem syncLoop_count_le {F : Type} (cfg : Config F) (env : ReadEnv) (t : TimeVal) :
    ∀ (l : List Nat) (r : Run F), (syncLoop cfg env t l r).count ≤ r.count
  | [], r => le_refl _
  | i :: rest, r => by
    unfold syncLoop
    split_ifs
    · exact le_refl _
    · exact le_trans (syncLoop_count_le cfg env t rest _) (syncStep_count_le cfg env t i r)

theorem processEvent_count_le {F : Type} (cfg : Config F) (env : ReadEnv) (e : InputEvent)
    (r : Run F) : (processEvent cfg env e r).count ≤ r.count := by
  unfold processEvent
  split_ifs
  all_goals first
    | exact syncLoop_count_le cfg env e.time _ r
    | exact le_refl _

theorem runTo_count_le {F : Type} (cfg : Config F) (env : ReadEnv) :
    ∀ (evs : List InputEvent) (r : Run F), (runTo cfg env evs r).count ≤ r.count
  | [], _ => le_refl _
  | e :: evs, r =>
    le_trans (runTo_count_le cfg env evs (processEvent cfg env e r))
      (processEvent_count_le cfg env e r)

theorem readEventsUpTo_count_le {F : Type} (cfg : Config F) (st : State F) (count : Int)
    (env : ReadEnv) (evs : List InputEvent) :
    (readEventsUpTo cfg st count env evs).count ≤ count :=
  le_trans (runTo_count_le cfg env evs _)
    (flushLoop_count_le cfg env (List.range NUM_SENSORS) (startRun st count env))

theorem readEventsUpTo_nil_count {F : Type} (cfg : Config F) (st : State F) (count : Int)
    (env : ReadEnv) (h0 : 0 ≤ count) :
    (readEventsUpTo cfg st count env []).count =
      if count ≤ dueFlush st then 0 else count - dueFlush st :=
  flushLoop_count_eq cfg env (startRun st count env) h0

theorem processEvent_count_zero {F : Type} (cfg : Config F) (env : ReadEnv) (e : InputEvent)
    (r : Run F) (h : r.count = 0) : (processEvent cfg env e r).count = 0 := by
  unfold processEvent
  split_ifs
  all_goals first
    | exact h
    | (rw [syncLoop_of_count_zero cfg env e.time _ r h]; exact h)

theorem runTo_count_zero {F : Type} (cfg : Config F) (env : ReadEnv) :
    ∀ (evs : List InputEvent) (r : Run F), r.count = 0 → (runTo cfg env evs r).count = 0
  | [], _, h => h
  | e :: evs, r, h =>
    runTo_count_zero cfg env evs (processEvent cfg env e r)
      (processEvent_count_zero cfg env e r h)

theorem eventLoop_append_runTo {F : Type} (cfg : Config F) (env : ReadEnv)
    (q : List InputEvent) :
    ∀ (evs : List InputEvent) (r : Run F), (runTo cfg env evs r).count ≠ 0 →
      eventLoop cfg env (evs ++ q) r = eventLoop cfg env q (runTo cfg env evs r)
  | [], _, _ => rfl
  | e :: evs, r, h => by
    have hc : r.count ≠ 0 := fun h0 => h (runTo_count_zero cfg env (e :: evs) r h0)
    rw [List.cons_append, eventLoop_cons cfg env e _ r hc]
    exact eventLoop_append_runTo cfg env q evs (processEvent cfg env e r) h

theorem readEvents_at_marker {F : Type} (cfg : Config F) (st : State F) (count : Int)
    (env : ReadEnv) (evs : List InputEvent) (e : InputEvent) (rest : List InputEvent)
    (hn : 0 ≤ env.n) (hbuf : st.mInputReader ++ env.incoming = evs ++ e :: rest)
    (hc : 0 < (readEventsUpTo cfg st count env evs).count) :
    1 ≤ count ∧
      readEvents cfg st count env =
        { ret := (eventLoop cfg env rest
            (processEvent cfg env e (readEventsUpTo cfg st count env evs))).numEventReceived
          st := (eventLoop cfg env rest
            (processEvent cfg env e (readEventsUpTo cfg st count env evs))).st
          out := (eventLoop cfg env rest
            (processEvent cfg env e (readEventsUpTo cfg st count env evs))).out
          fx := (eventLoop cfg env rest
            (processEvent cfg env e (readEventsUpTo cfg st count env evs))).fx } := by
  have hle := readEventsUpTo_count_le cfg st count env evs
  have hc1 : 1 ≤ count := by omega
  refine ⟨hc1, ?_⟩
  obtain ⟨c, hst1⟩ := flushLoop_st cfg env (List.range NUM_SENSORS) (startRun st count env)
  have hrd : (flushLoop cfg env (List.range NUM_SENSORS) (startRun st count env)).st.mInputReader
      = evs ++ e :: rest := by
    rw [hst1]; exact hbuf
  have hne : (readEventsUpTo cfg st count env evs).count ≠ 0 := by omega
  rw [readEvents_eq cfg st count env hc1 hn, hrd,
    eventLoop_append_runTo cfg env (e :: rest) evs _ hne]
  have hstep : eventLoop cfg env (e :: rest)
      (runTo cfg env evs (flushLoop cfg env (List.range NUM_SENSORS) (startRun st count env))) =
      eventLoop cfg env rest (processEvent cfg env e (readEventsUpTo cfg st count env evs)) :=
    eventLoop_cons cfg env e rest _ hne
  rw [hstep]

theorem processEvent_sync {F : Type} (cfg : Config F) (env : ReadEnv) (e : InputEvent)
    (r : Run F) (h : e.type = EV_SYN) :
    processEvent cfg env e r = syncLoop cfg env e.time (List.range NUM_SENSORS) r := by
  simp [processEvent, h, EV_MSC, EV_ABS, EV_SYN]

theorem processEvent_noSync {F : Type} (cfg : Config F) (env : ReadEnv) (e : InputEvent)
    (r : Run F) (h : e.type ≠ EV_SYN) :
    processEvent cfg env e r = r ∨
      ∃ i ev, i < NUM_SENSORS ∧
        processEvent cfg env e r = { r with st := markPending r.st i ev } := by
  unfold processEvent
  split_ifs
  all_goals first
    | exact Or.inl rfl
    | exact Or.inr ⟨ACC, _, by decide, rfl⟩
    | exact Or.inr ⟨SO, _, by decide, rfl⟩
    | exact Or.inr ⟨SM, _, by decide, rfl⟩

theorem or_and_ne_zero (m b k : Nat) (h : m &&& (1 <<< k) ≠ 0) :
    (m ||| b) &&& (1 <<< k) ≠ 0 := by
  intro h0
  rw [and_shiftLeft_eq_zero_iff] at h0
  apply h
  rw [and_shiftLeft_eq_zero_iff]
  rw [Nat.testBit_or] at h0
  simp only [Bool.or_eq_false_iff] at h0
  exact h0.1

theorem runTo_noSync {F : Type} (cfg : Config F) (env : ReadEnv) :
    ∀ (evs : List InputEvent) (r : Run F), (∀ e ∈ evs, e.type ≠ EV_SYN) →
      (runTo cfg env evs r).count = r.count ∧
      (runTo cfg env evs r).out = r.out ∧
      (runTo cfg env evs r).fx = r.fx ∧
      (runTo cfg env evs r).st.mEnabled = r.st.mEnabled ∧
      (runTo cfg env evs r).st.mOriEnabled = r.st.mOriEnabled ∧
      ∀ j, r.st.mPendingEventsMask &&& (1 <<< j) ≠ 0 →
        (runTo cfg env evs r).st.mPendingEventsMask &&& (1 <<< j) ≠ 0
  | [], r, _ => ⟨rfl, rfl, rfl, rfl, rfl, fun _ h => h⟩
  | e :: evs, r, h => by
    obtain ⟨a1, a2, a3, a4, a5, a6⟩ := runTo_noSync cfg env evs (processEvent cfg env e r)
      (fun x hx => h x (List.mem_cons_of_mem _ hx))
    rw [runTo_cons]
    rcases processEvent_noSync cfg env e r (h e (List.mem_cons_self _ _)) with h1 | ⟨i, ev, _, h1⟩
    · rw [h1] at a1 a2 a3 a4 a5 a6 ⊢
      exact ⟨a1, a2, a3, a4, a5, a6⟩
    · rw [h1] at a1 a2 a3 a4 a5 a6 ⊢
      exact ⟨a1, a2, a3, a4, a5, fun j hj => a6 j (or_and_ne_zero _ _ _ hj)⟩

/-! ## The side channel, marker by marker -/

theorem and_and_of_and_eq_zero (a x k : Nat) (h : a &&& k = 0) : (a &&& x) &&& k = 0 := by
  rw [Nat.and_assoc, Nat.and_comm x k, ← Nat.and_assoc, h, Nat.zero_and]

theorem enable_ID_SM_frame {F : Type} (cfg : Config F) (hd : cfg.handlesDistinct)
    (st : State F) (res : Int) :
    (enable cfg st cfg.ID_SM 0 res).st.mOriEnabled = st.mOriEnabled ∧
      ∀ k, st.mEnabled &&& k = 0 → (enable cfg st cfg.ID_SM 0 res).st.mEnabled &&& k = 0 := by
  obtain ⟨h1, h2, h3, h4, h5, h6⟩ := hd
  have e : enable cfg st cfg.ID_SM 0 res =
      enableMasked cfg st cfg.ID_SM 0 cfg.MODE_MOVEMENT res := by
    simp [enable, Ne.symm h2, Ne.symm h4]
  rw [e]
  unfold enableMasked
  by_cases hs : st.mEnabled &&& cfg.MODE_MOVEMENT = 0
  · simp [hs]
  · by_cases hr : res < 0
    · simp [hs, hr]
    · simp only [hs, hr, ne_eq, not_true_eq_false, if_false, true_and]
      exact fun k hk => and_and_of_and_eq_zero _ _ _ hk

theorem syncEmit_SM_st {F : Type} (cfg : Config F) (env : ReadEnv) (r : Run F) :
    (syncEmit cfg env SM r).st = (enable cfg r.st cfg.ID_SM 0 (env.ioctl r.ioctls)).st := by
  simp [syncEmit]
  rfl

theorem syncStep_ACC_off {F : Type} (cfg : Config F) (hd : cfg.handlesDistinct)
    (env : ReadEnv) (t : TimeVal) (i : Nat) (r : Run F)
    (hoff : isEnabled cfg r.st ACC = false) :
    isEnabled cfg (syncStep cfg env t i r).st ACC = false ∧
      (syncStep cfg env t i r).st.mOriEnabled = r.st.mOriEnabled ∧
      (syncStep cfg env t i r).out.filter (OutEvent.isDataOf ACC) =
        r.out.filter (OutEvent.isDataOf ACC) := by
  have h0 : r.st.mEnabled &&& indexToMask cfg ACC = 0 := by simpa [isEnabled] using hoff
  unfold syncStep
  by_cases hp : r.st.mPendingEventsMask &&& (1 <<< i) ≠ 0
  · rw [if_pos hp, syncAkm_st, syncAkm_out]
    by_cases he : (stampSlot cfg t i r.st).mEnabled &&& indexToMask cfg i ≠ 0
    · simp only []
      rw [if_pos he]
      have hi : i ≠ ACC := by
        rintro rfl
        exact he h0
      have hout : (syncEmit cfg env i
          ({ r with st := stampSlot cfg t i r.st } : Run F)).out.filter (OutEvent.isDataOf ACC) =
          r.out.filter (OutEvent.isDataOf ACC) := by
        rw [syncEmit_out]
        simp [List.filter_append, OutEvent.isDataOf, hi]
      by_cases hSM : i = SM
      · subst hSM
        obtain ⟨f1, f2⟩ := enable_ID_SM_frame cfg hd (stampSlot cfg t SM r.st)
          (env.ioctl ({ r with st := stampSlot cfg t SM r.st } : Run F).ioctls)
        have f3 := f2 _ h0
        rw [syncEmit_SM_st]
        refine ⟨?_, f1, hout⟩
        simp only [isEnabled, f3]
        rfl
      · rw [syncEmit_of_ne_SM _ _ _ _ hSM]
        exact ⟨hoff, rfl, by simp [List.filter_append, OutEvent.isDataOf, hi]⟩
    · simp only []
      rw [if_neg he]
      exact ⟨hoff, rfl, rfl⟩
  · rw [if_neg hp]
    exact ⟨hoff, rfl, rfl⟩

theorem syncLoop_ACC_off {F : Type} (cfg : Config F) (hd : cfg.handlesDistinct)
    (env : ReadEnv) (t : TimeVal) :
    ∀ (l : List Nat) (r : Run F), isEnabled cfg r.st ACC = false →
      isEnabled cfg (syncLoop cfg env t l r).st ACC = false ∧
        (syncLoop cfg env t l r).st.mOriEnabled = r.st.mOriEnabled ∧
        (syncLoop cfg env t l r).out.filter (OutEvent.isDataOf ACC) =
          r.out.filter (OutEvent.isDataOf ACC)
  | [], _, hoff => ⟨hoff, rfl, rfl⟩
  | i :: rest, r, hoff => by
    unfold syncLoop
    split_ifs
    · exact ⟨hoff, rfl, rfl⟩
    · obtain ⟨a1, a2, a3⟩ := syncStep_ACC_off cfg hd env t i r hoff
      obtain ⟨b1, b2, b3⟩ := syncLoop_ACC_off cfg hd env t rest _ a1
      exact ⟨b1, b2.trans a2, b3.trans a3⟩

theorem processEvent_ACC_off {F : Type} (cfg : Config F) (hd : cfg.handlesDistinct)
    (env : ReadEnv) (e : InputEvent) (r : Run F) (hoff : isEnabled cfg r.st ACC = false) :
    isEnabled cfg (processEvent cfg env e r).st ACC = false ∧
      (processEvent cfg env e r).st.mOriEnabled = r.st.mOriEnabled ∧
      (processEvent cfg env e r).out.filter (OutEvent.isDataOf ACC) =
        r.out.filter (OutEvent.isDataOf ACC) := by
  unfold processEvent
  split_ifs
  all_goals first
    | exact syncLoop_ACC_off cfg hd env e.time _ r hoff
    | exact ⟨hoff, rfl, rfl⟩

theorem runTo_ACC_off {F : Type} (cfg : Config F) (hd : cfg.handlesDistinct) (env : ReadEnv) :
    ∀ (evs : List InputEvent) (r : Run F), isEnabled cfg r.st ACC = false →
      isEnabled cfg (runTo cfg env evs r).st ACC = false ∧
        (runTo cfg env evs r).st.mOriEnabled = r.st.mOriEnabled ∧
        (runTo cfg env evs r).out.filter (OutEvent.isDataOf ACC) =
          r.out.filter (OutEvent.isDataOf ACC)
  | [], _, hoff => ⟨hoff, rfl, rfl⟩
  | e :: evs, r, hoff => by
    obtain ⟨a1, a2, a3⟩ := processEvent_ACC_off cfg hd env e r hoff
    obtain ⟨b1, b2, b3⟩ := runTo_ACC_off cfg hd env evs _ a1
    exact ⟨b1, b2.trans a2, b3.trans a3⟩

theorem eventLoop_ACC_off {F : Type} (cfg : Config F) (hd : cfg.handlesDistinct)
    (env : ReadEnv) :
    ∀ (q : List InputEvent) (r : Run F), isEnabled cfg r.st ACC = false →
      (eventLoop cfg env q r).out.filter (OutEvent.isDataOf ACC) =
        r.out.filter (OutEvent.isDataOf ACC)
  | [], _, _ => rfl
  | e :: q, r, hoff => by
    unfold eventLoop
    split_ifs
    · rfl
    · obtain ⟨a1, _, a3⟩ := processEvent_ACC_off cfg hd env e r hoff
      exact (eventLoop_ACC_off cfg hd env q _ a1).trans a3

theorem syncStep_fx_ext {F : Type} (cfg : Config F) (env : ReadEnv) (t : TimeVal) (i : Nat)
    (r : Run F) : ∃ d, (syncStep cfg env t i r).fx = r.fx ++ d := by
  have hakm : ∀ x : Run F, ∃ d, (syncAkm i x).fx = x.fx ++ d := by
    intro x
    unfold syncAkm
    split_ifs
    · exact ⟨_, rfl⟩
    · exact ⟨[], by simp⟩
  have hemit : ∀ x : Run F, ∃ d, (syncEmit cfg env i x).fx = x.fx ++ d := by
    intro x
    unfold syncEmit
    split_ifs
    · exact ⟨_, rfl⟩
    · exact ⟨[], by simp⟩
  unfold syncStep
  split_ifs with hp
  · by_cases he : (stampSlot cfg t i r.st).mEnabled &&& indexToMask cfg i ≠ 0
    · simp only []
      rw [if_pos he]
      obtain ⟨d1, h1⟩ := hemit ({ r with st := stampSlot cfg t i r.st } : Run F)
      obtain ⟨d2, h2⟩ := hakm (syncEmit cfg env i ({ r with st := stampSlot cfg t i r.st } : Run F))
      exact ⟨d1 ++ d2, by rw [h2, h1, List.append_assoc]⟩
    · simp only []
      rw [if_neg he]
      exact hakm _
  · exact ⟨[], by simp⟩

theorem syncLoop_fx_ext {F : Type} (cfg : Config F) (env : ReadEnv) (t : TimeVal) :
    ∀ (l : List Nat) (r : Run F), ∃ d, (syncLoop cfg env t l r).fx = r.fx ++ d
  | [], r => ⟨[], by simp [syncLoop]⟩
  | i :: rest, r => by
    unfold syncLoop
    split_ifs
    · exact ⟨[], by simp⟩
    · obtain ⟨d1, h1⟩ := syncStep_fx_ext cfg env t i r
      obtain ⟨d2, h2⟩ := syncLoop_fx_ext cfg env t rest (syncStep cfg env t i r)
      exact ⟨d1 ++ d2, by rw [h2, h1, List.append_assoc]⟩

theorem processEvent_fx_ext {F : Type} (cfg : Config F) (env : ReadEnv) (e : InputEvent)
    (r : Run F) : ∃ d, (processEvent cfg env e r).fx = r.fx ++ d := by
  unfold processEvent
  split_ifs
  all_goals first
    | exact syncLoop_fx_ext cfg env e.time _ r
    | exact ⟨[], by simp⟩

theorem eventLoop_fx_ext {F : Type} (cfg : Config F) (env : ReadEnv) :
    ∀ (q : List InputEvent) (r : Run F), ∃ d, (eventLoop cfg env q r).fx = r.fx ++ d
  | [], r => ⟨[], by simp [eventLoop]⟩
  | e :: q, r => by
    unfold eventLoop
    split_ifs
    · exact ⟨[], by simp⟩
    · obtain ⟨d1, h1⟩ := processEvent_fx_ext cfg env e r
      obtain ⟨d2, h2⟩ := eventLoop_fx_ext cfg env q (processEvent cfg env e r)
      exact ⟨d1 ++ d2, by rw [h2, h1, List.append_assoc]⟩

theorem runTo_axes {F : Type} (cfg : Config F) (env : ReadEnv) :
    ∀ (axes : List InputEvent) (r : Run F), (∀ e ∈ axes, isAxisEvent cfg e) →
      runTo cfg env axes r = { r with st := absorbAxes cfg axes r.st }
  | [], _, _ => rfl
  | e :: axes, r, h => by
    rw [runTo_cons, processEvent_axis cfg env e r (h e (List.mem_cons_self _ _)),
      runTo_axes cfg env axes _ (fun x hx => h x (List.mem_cons_of_mem _ hx))]
    rfl

/-- C12: the side-channel flag is set and the accelerometer bit is clear in the enabled
mask when the call starts; the reader holds any events `pre`, then an accelerometer axis
event `ax`, then events `mid` none of which is a sync marker, then a sync marker `syn`,
then any events `rest`; `fill` does not fail and capacity remains when the call reads
`syn` (`count` is positive there). Then the requests that the call makes while it handles
`syn` hold exactly one `writeAkmAccel`, with the x, y, z that the accelerometer record has
when `syn` is read, and they are part of the requests of the call; no accelerometer record
is among the elements the call writes; the returned value is the number of elements
written. When all of `pre` and `mid` are axis events, that record is the record of the
state the call started in with the axis events applied to it in order. -/
theorem readEvents_side_channel_only {F : Type} (cfg : Config F) (hd : cfg.handlesDistinct)
    (st : State F) (count : Int) (env : ReadEnv) (pre mid rest : List InputEvent)
    (ax syn : InputEvent)
    (hori : st.mOriEnabled = true) (hoff : isEnabled cfg st ACC = false)
    (hn : 0 ≤ env.n)
    (hbuf : st.mInputReader ++ env.incoming = (pre ++ ax :: mid) ++ syn :: rest)
    (hax : isAxisEvent cfg ax) (hmid : ∀ e ∈ mid, e.type ≠ EV_SYN)
    (hsyn : syn.type = EV_SYN)
    (hcap : 0 < (readEventsUpTo cfg st count env (pre ++ ax :: mid)).count) :
    (∃ delta later : List (Effect F),
        (processEvent cfg env syn (readEventsUpTo cfg st count env (pre ++ ax :: mid))).fx =
          (readEventsUpTo cfg st count env (pre ++ ax :: mid)).fx ++ delta ∧
        delta.filter Effect.isAkmAccel =
          [Effect.writeAkmAccel
            (readEventsUpTo cfg st count env (pre ++ ax :: mid)).st.mPendingEvents.acc.data0
            (readEventsUpTo cfg st count env (pre ++ ax :: mid)).st.mPendingEvents.acc.data1
            (readEventsUpTo cfg st count env (pre ++ ax :: mid)).st.mPendingEvents.acc.data2] ∧
        (readEvents cfg st count env).fx =
          (readEventsUpTo cfg st count env (pre ++ ax :: mid)).fx ++ delta ++ later) ∧
      (readEvents cfg st count env).out.filter (OutEvent.isDataOf ACC) = [] ∧
      (readEvents cfg st count env).ret = ((readEvents cfg st count env).out.length : Int) ∧
      ((∀ e ∈ pre ++ mid, isAxisEvent cfg e) →
        (readEventsUpTo cfg st count env (pre ++ ax :: mid)).st.mPendingEvents.acc =
          (pre ++ ax :: mid).foldl (fun a e => axisUpdate cfg e a) st.mPendingEvents.acc) := by
  obtain ⟨hc1, heq⟩ := readEvents_at_marker cfg st count env (pre ++ ax :: mid) syn rest hn
    hbuf hcap
  -- the flush loop
  obtain ⟨c, hst1⟩ := flushLoop_st cfg env (List.range NUM_SENSORS) (startRun st count env)
  have hout1 : (flushLoop cfg env (List.range NUM_SENSORS)
      (startRun st count env)).out.filter (OutEvent.isDataOf ACC) = [] :=
    flushLoop_no_data cfg env (List.range NUM_SENSORS) (startRun st count env) ACC
  have hR : readEventsUpTo cfg st count env (pre ++ ax :: mid) =
      runTo cfg env mid (processEvent cfg env ax (runTo cfg env pre
        (flushLoop cfg env (List.range NUM_SENSORS) (startRun st count env)))) := by
    unfold readEventsUpTo
    rw [runTo_append, runTo_cons]
  have haxes : (∀ e ∈ pre ++ mid, isAxisEvent cfg e) →
      (readEventsUpTo cfg st count env (pre ++ ax :: mid)).st.mPendingEvents.acc =
        (pre ++ ax :: mid).foldl (fun a e => axisUpdate cfg e a) st.mPendingEvents.acc := by
    intro hall
    have hall2 : ∀ e ∈ pre ++ ax :: mid, isAxisEvent cfg e := by
      intro e he
      rcases List.mem_append.mp he with h | h
      · exact hall e (List.mem_append_left _ h)
      · rcases List.mem_cons.mp h with h | h
        · rw [h]; exact hax
        · exact hall e (List.mem_append_right _ h)
    unfold readEventsUpTo
    rw [runTo_axes cfg env _ _ hall2]
    obtain ⟨_, _, f3, _⟩ := absorbAxes_frame cfg (pre ++ ax :: mid)
      (flushLoop cfg env (List.range NUM_SENSORS) (startRun st count env)).st
    show (absorbAxes cfg (pre ++ ax :: mid) _).mPendingEvents.acc = _
    rw [f3, hst1]
    rfl
  generalize flushLoop cfg env (List.range NUM_SENSORS) (startRun st count env) = r1
    at hst1 hout1 hR
  have hoff1 : isEnabled cfg r1.st ACC = false := by
    rw [isEnabled_congr cfg r1.st st ACC (by rw [hst1]; rfl)]; exact hoff
  have hori1 : r1.st.mOriEnabled = true := by rw [hst1]; exact hori
  -- the events before the axis event
  obtain ⟨p1, p2, p3⟩ := runTo_ACC_off cfg hd env pre r1 hoff1
  -- the axis event
  have hax2 := processEvent_axis cfg env ax (runTo cfg env pre r1) hax
  -- the events between the axis event and the marker
  obtain ⟨m1, m2, m3, m4, m5, m6⟩ := runTo_noSync cfg env mid
    (processEvent cfg env ax (runTo cfg env pre r1)) hmid
  rw [← hR] at m1 m2 m3 m4 m5 m6
  have hbit : (readEventsUpTo cfg st count env (pre ++ ax :: mid)).st.mPendingEventsMask &&&
      (1 <<< ACC) ≠ 0 := by
    apply m6
    rw [hax2]
    show ((runTo cfg env pre r1).st.mPendingEventsMask ||| (1 <<< ACC)) &&& (1 <<< ACC) ≠ 0
    rw [or_and_self]
    decide
  have hoffR : isEnabled cfg (readEventsUpTo cfg st count env (pre ++ ax :: mid)).st ACC =
      false := by
    rw [isEnabled_congr cfg _ (runTo cfg env pre r1).st ACC (by rw [m4, hax2]; rfl)]
    exact p1
  have horiR : (readEventsUpTo cfg st count env (pre ++ ax :: mid)).st.mOriEnabled = true := by
    rw [m5, hax2]
    show (runTo cfg env pre r1).st.mOriEnabled = true
    rw [p2]; exact hori1
  have houtR : (readEventsUpTo cfg st count env (pre ++ ax :: mid)).out.filter
      (OutEvent.isDataOf ACC) = [] := by
    rw [m2, hax2]
    show (runTo cfg env pre r1).out.filter (OutEvent.isDataOf ACC) = []
    rw [p3]; exact hout1
  generalize readEventsUpTo cfg st count env (pre ++ ax :: mid) = R
    at heq hcap hbit hoffR horiR houtR haxes ⊢
  -- the marker
  have hcR : R.count ≠ 0 := by omega
  have hrange : List.range NUM_SENSORS = [ACC, SO, SM] := by decide
  have hstep := syncStep_ACC_side_channel cfg env syn.time R hbit hoffR horiR
  have hsync : processEvent cfg env syn R =
      syncLoop cfg env syn.time [SO, SM] (syncStep cfg env syn.time ACC R) := by
    rw [processEvent_sync cfg env syn R hsyn, hrange,
      syncLoop_cons_of_mask cfg env syn.time ACC _ R hcR (mask_ne_zero_of_bit _ _ hbit)]
  obtain ⟨d, hd1⟩ := syncLoop_fx_ext cfg env syn.time [SO, SM] (syncStep cfg env syn.time ACC R)
  obtain ⟨g1, _⟩ := syncLoop_no_accel cfg env syn.time [SO, SM]
    (syncStep cfg env syn.time ACC R) (by decide)
  have hdf : d.filter Effect.isAkmAccel = [] := by
    rw [hd1, List.filter_append] at g1
    exact List.append_right_eq_self.mp g1
  obtain ⟨later, hl⟩ := eventLoop_fx_ext cfg env rest (processEvent cfg env syn R)
  obtain ⟨s1, _, s3⟩ := processEvent_ACC_off cfg hd env syn R hoffR
  have hfx : (processEvent cfg env syn R).fx =
      R.fx ++ (Effect.writeAkmAccel R.st.mPendingEvents.acc.data0
        R.st.mPendingEvents.acc.data1 R.st.mPendingEvents.acc.data2 :: d) := by
    rw [hsync, hd1, hstep]
    simp
  refine ⟨⟨_, later, hfx, ?_, ?_⟩, ?_, readEvents_ret_eq_length cfg st count env hc1 hn,
    haxes⟩
  · simp [List.filter_cons, Effect.isAkmAccel, hdf]
  · rw [heq]
    show (eventLoop cfg env rest (processEvent cfg env syn R)).fx = _
    rw [hl, hfx]
  · rw [heq]
    show (eventLoop cfg env rest (processEvent cfg env syn R)).out.filter _ = []
    rw [eventLoop_ACC_off cfg hd env rest _ s1, s3]
    exact houtR

theorem readEvents_side_channel_only_witness :
    isEnabled sampleConfig { init sampleConfig with mOriEnabled := true, mEnabled := 2 } ACC =
        false ∧
      (readEvents sampleConfig { init sampleConfig with mOriEnabled := true, mEnabled := 2 } 2
        (sampleEnv 4
          [{ time := ⟨1, 0⟩, type := EV_ABS, code := sampleConfig.EVENT_TYPE_ACCEL_X, value := 7 },
           { time := ⟨1, 1⟩, type := EV_MSC, code := sampleConfig.EVENT_TYPE_SO, value := 3 },
           { time := ⟨5, 6⟩, type := EV_SYN, code := 0, value := 0 },
           { time := ⟨7, 0⟩, type := EV_ABS, code := sampleConfig.EVENT_TYPE_ACCEL_Y, value := 4 }]
          0)).out.filter (OutEvent.isDataOf ACC) = [] ∧
      (readEvents sampleConfig { init sampleConfig with mOriEnabled := true, mEnabled := 2 } 2
        (sampleEnv 4
          [{ time := ⟨1, 0⟩, type := EV_ABS, code := sampleConfig.EVENT_TYPE_ACCEL_X, value := 7 },
           { time := ⟨1, 1⟩, type := EV_MSC, code := sampleConfig.EVENT_TYPE_SO, value := 3 },
           { time := ⟨5, 6⟩, type := EV_SYN, code := 0, value := 0 },
           { time := ⟨7, 0⟩, type := EV_ABS, code := sampleConfig.EVENT_TYPE_ACCEL_Y, value := 4 }]
          0)).fx = [Effect.writeAkmAccel 14 0 0] ∧
      (readEvents sampleConfig { init sampleConfig with mOriEnabled := true, mEnabled := 2 } 2
        (sampleEnv 4
          [{ time := ⟨1, 0⟩, type := EV_ABS, code := sampleConfig.EVENT_TYPE_ACCEL_X, value := 7 },
           { time := ⟨1, 1⟩, type := EV_MSC, code := sampleConfig.EVENT_TYPE_SO, value := 3 },
           { time := ⟨5, 6⟩, type := EV_SYN, code := 0, value := 0 },
           { time := ⟨7, 0⟩, type := EV_ABS, code := sampleConfig.EVENT_TYPE_ACCEL_Y, value := 4 }]
          0)).ret = 1 :=
  ⟨by decide,
    (readEvents_side_channel_only sampleConfig (by decide)
      { init sampleConfig with mOriEnabled := true, mEnabled := 2 } 2
      (sampleEnv 4
        [{ time := ⟨1, 0⟩, type := EV_ABS, code := sampleConfig.EVENT_TYPE_ACCEL_X, value := 7 },
         { time := ⟨1, 1⟩, type := EV_MSC, code := sampleConfig.EVENT_TYPE_SO, value := 3 },
         { time := ⟨5, 6⟩, type := EV_SYN, code := 0, value := 0 },
         { time := ⟨7, 0⟩, type := EV_ABS, code := sampleConfig.EVENT_TYPE_ACCEL_Y, value := 4 }]
        0)
      []
      [{ time := ⟨1, 1⟩, type := EV_MSC, code := sampleConfig.EVENT_TYPE_SO, value := 3 }]
      [{ time := ⟨7, 0⟩, type := EV_ABS, code := sampleConfig.EVENT_TYPE_ACCEL_Y, value := 4 }]
      { time := ⟨1, 0⟩, type := EV_ABS, code := sampleConfig.EVENT_TYPE_ACCEL_X, value := 7 }
      { time := ⟨5, 6⟩, type := EV_SYN, code := 0, value := 0 }
      rfl (by decide) (by decide) rfl (by decide) (by decide) rfl (by decide)).2.1,
    by decide, by decide⟩

/-! ## Significant motion fires once -/

theorem syncStep_ioctls_of_ne_SM {F : Type} (cfg : Config F) (env : ReadEnv) (t : TimeVal)
    (i : Nat) (hi : i ≠ SM) (r : Run F) : (syncStep cfg env t i r).ioctls = r.ioctls := by
  have hakm : ∀ x : Run F, (syncAkm i x).ioctls = x.ioctls := by
    intro x
    unfold syncAkm
    split_ifs
    · simp [Run.ioctls, List.filter_append, Effect.isIoctl]
    · rfl
  unfold syncStep
  by_cases hp : r.st.mPendingEventsMask &&& (1 <<< i) ≠ 0
  · rw [if_pos hp, hakm]
    by_cases he : (stampSlot cfg t i r.st).mEnabled &&& indexToMask cfg i ≠ 0
    · simp only []
      rw [if_pos he, syncEmit_of_ne_SM _ _ _ _ hi]
      rfl
    · simp only []
      rw [if_neg he]
      rfl
  · rw [if_neg hp]

theorem syncStep_smOneShot {F : Type} (cfg : Config F) (hd : cfg.handlesDistinct)
    (hb : cfg.MODE_MOVEMENT < 4294967296) (env : ReadEnv) (hio : 0 ≤ env.ioctl 0)
    (t : TimeVal) (i : Nat) (hi : i < NUM_SENSORS) (r : Run F) (h : r.smOneShot cfg) :
    (syncStep cfg env t i r).smOneShot cfg := by
  have hi3 : i = ACC ∨ i = SO ∨ i = SM := by
    unfold NUM_SENSORS at hi; unfold ACC SO SM; omega
  rcases h with ⟨hen, hout, hio0⟩ | ⟨hoff, hlen⟩
  · have before : i = ACC ∨ i = SO → (syncStep cfg env t i r).smOneShot cfg := by
      intro hb2
      obtain ⟨a1, _, _, _, a5⟩ := syncStep_before_SM cfg env t i hb2 r
      have hne : i ≠ SM := by rcases hb2 with rfl | rfl <;> decide
      refine Or.inl ⟨?_, ?_, ?_⟩
      · rw [isEnabled_congr cfg _ r.st SM a1]; exact hen
      · rw [a5]; exact hout
      · rw [syncStep_ioctls_of_ne_SM cfg env t i hne r]; exact hio0
    rcases hi3 with rfl | rfl | rfl
    · exact before (Or.inl rfl)
    · exact before (Or.inr rfl)
    · by_cases hp : r.st.mPendingEventsMask &&& (1 <<< SM) ≠ 0
      · obtain ⟨f1, f2⟩ := syncStep_SM_fires cfg hd hb env t r hp hen (by rw [hio0]; exact hio)
        refine Or.inr ⟨f2, ?_⟩
        rw [f1, List.filter_append, hout]
        simp [OutEvent.isDataOf]
      · have e : syncStep cfg env t SM r = r := by
          unfold syncStep
          rw [if_neg hp]
        rw [e]
        exact Or.inl ⟨hen, hout, hio0⟩
  · obtain ⟨s1, s2⟩ := syncStep_SM_off cfg env t i r hoff
    refine Or.inr ⟨?_, ?_⟩
    · rw [isEnabled_congr cfg _ r.st SM s1]; exact hoff
    · rw [s2]; exact hlen

theorem syncLoop_smOneShot {F : Type} (cfg : Config F) (hd : cfg.handlesDistinct)
    (hb : cfg.MODE_MOVEMENT < 4294967296) (env : ReadEnv) (hio : 0 ≤ env.ioctl 0)
    (t : TimeVal) :
    ∀ (l : List Nat) (r : Run F), (∀ i ∈ l, i < NUM_SENSORS) → r.smOneShot cfg →
      (syncLoop cfg env t l r).smOneShot cfg
  | [], _, _, h => h
  | i :: rest, r, hl, h => by
    unfold syncLoop
    split_ifs
    · exact h
    · exact syncLoop_smOneShot cfg hd hb env hio t rest _
        (fun j hj => hl j (List.mem_cons_of_mem _ hj))
        (syncStep_smOneShot cfg hd hb env hio t i (hl i (List.mem_cons_self _ _)) r h)

theorem processEvent_smOneShot {F : Type} (cfg : Config F) (hd : cfg.handlesDistinct)
    (hb : cfg.MODE_MOVEMENT < 4294967296) (env : ReadEnv) (hio : 0 ≤ env.ioctl 0)
    (e : InputEvent) (r : Run F) (h : r.smOneShot cfg) :
    (processEvent cfg env e r).smOneShot cfg := by
  by_cases hs : e.type = EV_SYN
  · rw [processEvent_sync cfg env e r hs]
    exact syncLoop_smOneShot cfg hd hb env hio e.time _ r
      (fun i hi => List.mem_range.mp hi) h
  · rcases processEvent_noSync cfg env e r hs with h1 | ⟨i, ev, _, h1⟩
    · rw [h1]; exact h
    · rw [h1]; exact h

theorem runTo_smOneShot {F : Type} (cfg : Config F) (hd : cfg.handlesDistinct)
    (hb : cfg.MODE_MOVEMENT < 4294967296) (env : ReadEnv) (hio : 0 ≤ env.ioctl 0) :
    ∀ (evs : List InputEvent) (r : Run F), r.smOneShot cfg →
      (runTo cfg env evs r).smOneShot cfg
  | [], _, h => h
  | e :: evs, r, h =>
    runTo_smOneShot cfg hd hb env hio evs _ (processEvent_smOneShot cfg hd hb env hio e r h)

theorem processEvent_noSync_fone {F : Type} (cfg : Config F) (env : ReadEnv) (e : InputEvent)
    (r : Run F) (hs : e.type ≠ EV_SYN) (hf : r.st.mPendingEvents.sm.data0 = cfg.fone) :
    (processEvent cfg env e r).st.mPendingEvents.sm.data0 = cfg.fone := by
  unfold processEvent
  split_ifs
  all_goals first
    | exact hf
    | rfl

theorem runTo_noSync_fone {F : Type} (cfg : Config F) (env : ReadEnv) :
    ∀ (evs : List InputEvent) (r : Run F), (∀ e ∈ evs, e.type ≠ EV_SYN) →
      r.st.mPendingEvents.sm.data0 = cfg.fone →
      (runTo cfg env evs r).st.mPendingEvents.sm.data0 = cfg.fone
  | [], _, _, hf => hf
  | e :: evs, r, h, hf =>
    runTo_noSync_fone cfg env evs _ (fun x hx => h x (List.mem_cons_of_mem _ hx))
      (processEvent_noSync_fone cfg env e r (h e (List.mem_cons_self _ _)) hf)

theorem dueBefore_nonneg {F : Type} (cfg : Config F) (st : State F) (j : Nat) :
    0 ≤ dueBefore cfg st j := by
  have := dueData_nonneg cfg st ACC
  have := dueData_nonneg cfg st SO
  unfold dueBefore
  split_ifs <;> omega

/-- C4, as the source has it: significant-motion is enabled when the call starts; the
reader holds any events `pre`, then a significant-motion `EV_MSC` event `msc`, then events
`mid` none of which is a sync marker, then a sync marker `syn`, then any events `rest`;
`fill` does not fail; capacity remains when the fan-out of `syn` reaches the
significant-motion slot (when `syn` is read, `count` exceeds the accelerometer and
screen-orientation records due); and the first ioctl of the call, which is the set-enable
request of the automatic `enable(ID_SM, 0)`, succeeds. Then the call writes exactly one
significant-motion record; significant-motion is disabled in the enabled mask afterwards;
and a `readEvents` call from any state in which significant-motion is disabled, this one
in particular, writes no significant-motion record and leaves it disabled. If
significant-motion is still enabled when `syn` is read, the one record written is the one
of `syn`: payload `1.0f`, stamped with the time of `syn`. -/
theorem readEvents_significant_motion_one_shot {F : Type} (cfg : Config F)
    (hd : cfg.handlesDistinct) (hm : cfg.masksSeparate) (hcodes : cfg.codesDistinct)
    (st : State F) (count : Int) (env : ReadEnv) (pre mid rest : List InputEvent)
    (msc syn : InputEvent)
    (hSM : isEnabled cfg st SM = true) (hn : 0 ≤ env.n) (hio : 0 ≤ env.ioctl 0)
    (hbuf : st.mInputReader ++ env.incoming = (pre ++ msc :: mid) ++ syn :: rest)
    (hmsc : msc.type = EV_MSC ∧ msc.code = cfg.EVENT_TYPE_SM)
    (hmid : ∀ e ∈ mid, e.type ≠ EV_SYN) (hsyn : syn.type = EV_SYN)
    (hcap : dueBefore cfg (readEventsUpTo cfg st count env (pre ++ msc :: mid)).st SM <
      (readEventsUpTo cfg st count env (pre ++ msc :: mid)).count) :
    ((readEvents cfg st count env).out.filter (OutEvent.isDataOf SM)).length = 1 ∧
      isEnabled cfg (readEvents cfg st count env).st SM = false ∧
      (∀ (s : State F) (count2 : Int) (env2 : ReadEnv), isEnabled cfg s SM = false →
        (readEvents cfg s count2 env2).out.filter (OutEvent.isDataOf SM) = [] ∧
          isEnabled cfg (readEvents cfg s count2 env2).st SM = false) ∧
      (isEnabled cfg (readEventsUpTo cfg st count env (pre ++ msc :: mid)).st SM = true →
        (readEvents cfg st count env).out.filter (OutEvent.isDataOf SM) =
          [OutEvent.data SM
            { (readEventsUpTo cfg st count env (pre ++ msc :: mid)).st.mPendingEvents.sm with
              data0 := cfg.fone, timestamp := cfg.timevalToNano syn.time }]) := by
  obtain ⟨_, _, _, _, _, hb, _, _, _⟩ := hm
  obtain ⟨_, _, _, c4⟩ := hcodes
  obtain ⟨hmt, hmc⟩ := hmsc
  have hdb := dueBefore_nonneg cfg (readEventsUpTo cfg st count env (pre ++ msc :: mid)).st SM
  obtain ⟨hc1, heq⟩ := readEvents_at_marker cfg st count env (pre ++ msc :: mid) syn rest hn
    hbuf (by omega)
  -- the flush loop
  obtain ⟨c, hst1⟩ := flushLoop_st cfg env (List.range NUM_SENSORS) (startRun st count env)
  have hout1 : (flushLoop cfg env (List.range NUM_SENSORS)
      (startRun st count env)).out.filter (OutEvent.isDataOf SM) = [] :=
    flushLoop_no_data cfg env (List.range NUM_SENSORS) (startRun st count env) SM
  have hfx1 : (flushLoop cfg env (List.range NUM_SENSORS) (startRun st count env)).fx = [] :=
    flushLoop_fx cfg env (List.range NUM_SENSORS) (startRun st count env)
  have hR : readEventsUpTo cfg st count env (pre ++ msc :: mid) =
      runTo cfg env mid (processEvent cfg env msc (runTo cfg env pre
        (flushLoop cfg env (List.range NUM_SENSORS) (startRun st count env)))) := by
    unfold readEventsUpTo
    rw [runTo_append, runTo_cons]
  generalize flushLoop cfg env (List.range NUM_SENSORS) (startRun st count env) = r1
    at hst1 hout1 hfx1 hR
  have k1 : r1.smOneShot cfg := by
    refine Or.inl ⟨?_, hout1, ?_⟩
    · rw [isEnabled_congr cfg r1.st st SM (by rw [hst1]; rfl)]; exact hSM
    · simp [Run.ioctls, hfx1]
  -- the events before the significant-motion event, and that event
  have k2 := runTo_smOneShot cfg hd hb env hio pre r1 k1
  have hmscR : processEvent cfg env msc (runTo cfg env pre r1) =
      { runTo cfg env pre r1 with
        st := markPending (runTo cfg env pre r1).st SM
          { (runTo cfg env pre r1).st.mPendingEvents.get SM with data0 := cfg.fone } } := by
    simp [processEvent, hmt, hmc, EV_MSC, EV_ABS, Ne.symm c4]
  have k3 := processEvent_smOneShot cfg hd hb env hio msc _ k2
  -- the events between it and the marker
  have k4 := runTo_smOneShot cfg hd hb env hio mid _ k3
  obtain ⟨_, _, _, _, _, m6⟩ := runTo_noSync cfg env mid
    (processEvent cfg env msc (runTo cfg env pre r1)) hmid
  have hfone := runTo_noSync_fone cfg env mid
    (processEvent cfg env msc (runTo cfg env pre r1)) hmid (by rw [hmscR]; rfl)
  rw [← hR] at k4 m6 hfone
  have hbit : (readEventsUpTo cfg st count env (pre ++ msc :: mid)).st.mPendingEventsMask &&&
      (1 <<< SM) ≠ 0 := by
    apply m6
    rw [hmscR]
    show ((runTo cfg env pre r1).st.mPendingEventsMask ||| (1 <<< SM)) &&& (1 <<< SM) ≠ 0
    rw [or_and_self]
    decide
  generalize readEventsUpTo cfg st count env (pre ++ msc :: mid) = R
    at heq hcap hdb k4 hfone hbit ⊢
  have hsync := processEvent_sync cfg env syn R hsyn
  have key : ((eventLoop cfg env rest (processEvent cfg env syn R)).out.filter
        (OutEvent.isDataOf SM)).length = 1 ∧
      isEnabled cfg (eventLoop cfg env rest (processEvent cfg env syn R)).st SM = false ∧
      (isEnabled cfg R.st SM = true →
        (eventLoop cfg env rest (processEvent cfg env syn R)).out.filter
            (OutEvent.isDataOf SM) =
          [OutEvent.data SM
            { R.st.mPendingEvents.sm with
              data0 := cfg.fone, timestamp := cfg.timevalToNano syn.time }]) := by
    rcases k4 with ⟨henR, houtR, hioR⟩ | ⟨hoffR, hlenR⟩
    · have hd2 : dueBefore cfg R.st SM = dueData cfg R.st ACC + dueData cfg R.st SO := by
        simp [dueBefore, ACC, SO, SM]
      rw [hd2] at hcap
      have hdA := dueData_nonneg cfg R.st ACC
      have hdS := dueData_nonneg cfg R.st SO
      have hcR : R.count ≠ 0 := by omega
      -- the marker: slot ACC
      obtain ⟨a1, a2, a3, a4, a5⟩ := syncStep_before_SM cfg env syn.time ACC (Or.inl rfl) R
      have a6 := syncStep_ioctls_of_ne_SM cfg env syn.time ACC (by decide) R
      generalize hra : syncStep cfg env syn.time ACC R = ra at a1 a2 a3 a4 a5 a6
      have hbita : ra.st.mPendingEventsMask &&& (1 <<< SM) ≠ 0 := by
        rw [a2 SM (by decide) (by decide)]; exact hbit
      have hdSa : dueData cfg ra.st SO = dueData cfg R.st SO :=
        dueData_congr cfg _ _ _ a1 (a2 SO (by decide) (by decide))
      have hca : ra.count ≠ 0 := by omega
      -- the marker: slot SO
      obtain ⟨b1, b2, b3, b4, b5⟩ := syncStep_before_SM cfg env syn.time SO (Or.inr rfl) ra
      have b6 := syncStep_ioctls_of_ne_SM cfg env syn.time SO (by decide) ra
      generalize hrb : syncStep cfg env syn.time SO ra = rb at b1 b2 b3 b4 b5 b6
      have hbitb : rb.st.mPendingEventsMask &&& (1 <<< SM) ≠ 0 := by
        rw [b2 SM (by decide) (by decide)]; exact hbita
      have hcb : rb.count ≠ 0 := by omega
      have henb : isEnabled cfg rb.st SM = true := by
        rw [isEnabled_congr cfg rb.st R.st SM (b1.trans a1)]; exact henR
      -- the marker: slot SM
      obtain ⟨f1, f2⟩ := syncStep_SM_fires cfg hd hb env syn.time rb hbitb henb
        (by rw [b6, a6, hioR]; exact hio)
      have hr3 : processEvent cfg env syn R = syncStep cfg env syn.time SM rb := by
        have hrange : List.range NUM_SENSORS = [ACC, SO, SM] := by decide
        rw [hsync, hrange, syncLoop_cons_of_guard cfg env syn.time ACC _ R hcR hbit, hra,
          syncLoop_cons_of_guard cfg env syn.time SO _ ra hca hbita, hrb,
          syncLoop_cons_of_guard cfg env syn.time SM _ rb hcb hbitb]
        rfl
      rw [hr3]
      obtain ⟨g1, g2⟩ := eventLoop_SM_off cfg env rest (syncStep cfg env syn.time SM rb) f2
      have hfil : (eventLoop cfg env rest (syncStep cfg env syn.time SM rb)).out.filter
          (OutEvent.isDataOf SM) =
          [OutEvent.data SM
            { R.st.mPendingEvents.sm with
              data0 := cfg.fone, timestamp := cfg.timevalToNano syn.time }] := by
        rw [g2, f1, List.filter_append, b5, a5, houtR, b3, a3]
        simp [OutEvent.isDataOf, ← hfone]
      refine ⟨by rw [hfil]; rfl, ?_, fun _ => hfil⟩
      rw [isEnabled_congr cfg _ _ SM g1]
      exact f2
    · obtain ⟨s1, s2⟩ := processEvent_SM_off cfg env syn R hoffR
      have hoff2 : isEnabled cfg (processEvent cfg env syn R).st SM = false := by
        rw [isEnabled_congr cfg _ R.st SM s1]; exact hoffR
      obtain ⟨g1, g2⟩ := eventLoop_SM_off cfg env rest (processEvent cfg env syn R) hoff2
      refine ⟨by rw [g2, s2]; exact hlenR, ?_, ?_⟩
      · rw [isEnabled_congr cfg _ _ SM g1]; exact hoff2
      · intro hen
        rw [hoffR] at hen
        exact absurd hen (by decide)
  have hout : (readEvents cfg st count env).out =
      (eventLoop cfg env rest (processEvent cfg env syn R)).out := by rw [heq]
  have hst : (readEvents cfg st count env).st =
      (eventLoop cfg env rest (processEvent cfg env syn R)).st := by rw [heq]
  rw [hout, hst]
  exact ⟨key.1, key.2.1,
    fun s count2 env2 hoff => readEvents_SM_off cfg s count2 env2 hoff, key.2.2⟩

theorem readEvents_significant_motion_one_shot_witness :
    isEnabled sampleConfig sampleAllEnabled SM = true ∧
      (readEvents sampleConfig sampleAllEnabled 3
        (sampleEnv 4
          [{ time := ⟨1, 0⟩, type := EV_ABS, code := sampleConfig.EVENT_TYPE_ACCEL_X, value := 7 },
           { time := ⟨1, 2⟩, type := EV_MSC, code := sampleConfig.EVENT_TYPE_SM, value := 0 },
           { time := ⟨1, 3⟩, type := EV_MSC, code := sampleConfig.EVENT_TYPE_SO, value := 3 },
           { time := ⟨5, 6⟩, type := EV_SYN, code := 0, value := 0 }] 0)).out.filter
          (OutEvent.isDataOf SM) =
        [OutEvent.data SM
          { (init sampleConfig).mPendingEvents.sm with
            data0 := sampleConfig.fone, timestamp := sampleConfig.timevalToNano ⟨5, 6⟩ }] ∧
      isEnabled sampleConfig
        (readEvents sampleConfig sampleAllEnabled 3
          (sampleEnv 4
            [{ time := ⟨1, 0⟩, type := EV_ABS, code := sampleConfig.EVENT_TYPE_ACCEL_X,
               value := 7 },
             { time := ⟨1, 2⟩, type := EV_MSC, code := sampleConfig.EVENT_TYPE_SM, value := 0 },
             { time := ⟨1, 3⟩, type := EV_MSC, code := sampleConfig.EVENT_TYPE_SO, value := 3 },
             { time := ⟨5, 6⟩, type := EV_SYN, code := 0, value := 0 }] 0)).st SM = false :=
  ⟨by decide, by decide,
    (readEvents_significant_motion_one_shot sampleConfig (by decide) (by decide) (by decide)
      sampleAllEnabled 3
      (sampleEnv 4
        [{ time := ⟨1, 0⟩, type := EV_ABS, code := sampleConfig.EVENT_TYPE_ACCEL_X, value := 7 },
         { time := ⟨1, 2⟩, type := EV_MSC, code := sampleConfig.EVENT_TYPE_SM, value := 0 },
         { time := ⟨1, 3⟩, type := EV_MSC, code := sampleConfig.EVENT_TYPE_SO, value := 3 },
         { time := ⟨5, 6⟩, type := EV_SYN, code := 0, value := 0 }] 0)
      [{ time := ⟨1, 0⟩, type := EV_ABS, code := sampleConfig.EVENT_TYPE_ACCEL_X, value := 7 }]
      [{ time := ⟨1, 3⟩, type := EV_MSC, code := sampleConfig.EVENT_TYPE_SO, value := 3 }]
      []
      { time := ⟨1, 2⟩, type := EV_MSC, code := sampleConfig.EVENT_TYPE_SM, value := 0 }
      { time := ⟨5, 6⟩, type := EV_SYN, code := 0, value := 0 }
      (by decide) (by decide) (by decide) rfl (by decide) (by decide) rfl (by decide)).2.1⟩

/-! ## A pending slot and the capacity at a marker -/

/-- C11, as the source has it, for a slot `j`. First part: a call whose reader holds any
events `pre1`, then a sync marker `syn1`, then any events `q1`; when the call reads `syn1`
slot `j` is pending and the capacity is positive but does not exceed the records that the
fan-out writes before it visits `j`, so that it reaches zero before `j` is visited. Then
after the call the pending bit of `j` is still set, the record of `j` is the one it was
when `syn1` was read, no record of `j` has been written since `syn1` was read, the enabled
mask is as it was then, and the reader keeps `q1`. Second part: a call from any state in
which `j` is pending and enabled, whose reader holds events `pre2` none of which is a sync
marker, then a sync marker `syn2`; when the call reads `syn2` the capacity exceeds the
records that the fan-out writes before it visits `j`. Then the call writes the record of
`j`, stamped with the time of `syn2`. -/
theorem pending_slot_waits_for_capacity {F : Type} (cfg : Config F) (j : Nat)
    (hj : j < NUM_SENSORS) :
    (∀ (st : State F) (count1 : Int) (env1 : ReadEnv) (pre1 q1 : List InputEvent)
        (syn1 : InputEvent),
        0 ≤ env1.n →
        st.mInputReader ++ env1.incoming = pre1 ++ syn1 :: q1 →
        syn1.type = EV_SYN →
        isPending (readEventsUpTo cfg st count1 env1 pre1).st j = true →
        0 < (readEventsUpTo cfg st count1 env1 pre1).count →
        (readEventsUpTo cfg st count1 env1 pre1).count ≤
          dueBefore cfg (readEventsUpTo cfg st count1 env1 pre1).st j →
        isPending (readEvents cfg st count1 env1).st j = true ∧
          (readEvents cfg st count1 env1).st.mPendingEvents.get j =
            (readEventsUpTo cfg st count1 env1 pre1).st.mPendingEvents.get j ∧
          (readEvents cfg st count1 env1).out.filter (OutEvent.isDataOf j) =
            (readEventsUpTo cfg st count1 env1 pre1).out.filter (OutEvent.isDataOf j) ∧
          (readEvents cfg st count1 env1).st.mEnabled =
            (readEventsUpTo cfg st count1 env1 pre1).st.mEnabled ∧
          (readEvents cfg st count1 env1).st.mInputReader = q1) ∧
      (∀ (s : State F) (count2 : Int) (env2 : ReadEnv) (pre2 q2 : List InputEvent)
        (syn2 : InputEvent),
        0 ≤ env2.n →
        s.mInputReader ++ env2.incoming = pre2 ++ syn2 :: q2 →
        (∀ e ∈ pre2, e.type ≠ EV_SYN) →
        syn2.type = EV_SYN →
        isPending s j = true →
        isEnabled cfg s j = true →
        dueBefore cfg (readEventsUpTo cfg s count2 env2 pre2).st j <
          (readEventsUpTo cfg s count2 env2 pre2).count →
        OutEvent.data j
            { (readEventsUpTo cfg s count2 env2 pre2).st.mPendingEvents.get j with
              timestamp := cfg.timevalToNano syn2.time } ∈
          (readEvents cfg s count2 env2).out) := by
  constructor
  · intro st count1 env1 pre1 q1 syn1 hn1 hbuf1 hsyn1 hp hpos hex
    obtain ⟨_, heq⟩ := readEvents_at_marker cfg st count1 env1 pre1 syn1 q1 hn1 hbuf1 hpos
    generalize readEventsUpTo cfg st count1 env1 pre1 = R at heq hp hpos hex ⊢
    obtain ⟨x1, x2, x3, x4, x5⟩ := syncLoop_exhausted cfg env1 syn1.time j hj R (by omega) hex
    rw [heq, processEvent_sync cfg env1 syn1 R hsyn1,
      eventLoop_of_count_zero cfg env1 q1 _ x1]
    refine ⟨?_, x4, x5, x2, rfl⟩
    have hp2 : R.st.mPendingEventsMask &&& (1 <<< j) ≠ 0 := by simpa [isPending] using hp
    show isPending (syncLoop cfg env1 syn1.time (List.range NUM_SENSORS) R).st j = true
    simp only [isPending, x3]
    simpa using hp2
  · intro s count2 env2 pre2 q2 syn2 hn2 hbuf2 hpre2 hsyn2 hp hen hcap
    have hdb := dueBefore_nonneg cfg (readEventsUpTo cfg s count2 env2 pre2).st j
    obtain ⟨_, heq⟩ := readEvents_at_marker cfg s count2 env2 pre2 syn2 q2 hn2 hbuf2
      (by omega)
    obtain ⟨c, hst1⟩ := flushLoop_st cfg env2 (List.range NUM_SENSORS) (startRun s count2 env2)
    obtain ⟨_, _, _, m4, _, m6⟩ := runTo_noSync cfg env2 pre2
      (flushLoop cfg env2 (List.range NUM_SENSORS) (startRun s count2 env2)) hpre2
    have hp2 : s.mPendingEventsMask &&& (1 <<< j) ≠ 0 := by simpa [isPending] using hp
    have hpR : (readEventsUpTo cfg s count2 env2 pre2).st.mPendingEventsMask &&& (1 <<< j) ≠
        0 := by
      apply m6
      rw [hst1]
      exact hp2
    have henR : isEnabled cfg (readEventsUpTo cfg s count2 env2 pre2).st j = true := by
      rw [isEnabled_congr cfg _ s j (by
        show (runTo cfg env2 pre2 _).st.mEnabled = s.mEnabled
        rw [m4, hst1]
        rfl)]
      exact hen
    generalize readEventsUpTo cfg s count2 env2 pre2 = R at heq hcap hpR henR ⊢
    have hmem := syncLoop_reaches cfg env2 syn2.time j hj R hpR henR hcap
    obtain ⟨ds, _, ho⟩ := eventLoop_out cfg env2 q2
      (syncLoop cfg env2 syn2.time (List.range NUM_SENSORS) R)
    rw [heq, processEvent_sync cfg env2 syn2 R hsyn2]
    show _ ∈ (eventLoop cfg env2 q2 _).out
    rw [ho]
    exact List.mem_append_left _ hmem

theorem pending_slot_waits_for_capacity_witness :
    isPending
        (readEvents sampleConfig sampleAllEnabled 1
          (sampleEnv 4
            [{ time := ⟨1, 0⟩, type := EV_ABS, code := sampleConfig.EVENT_TYPE_ACCEL_X,
               value := 7 },
             { time := ⟨1, 1⟩, type := EV_MSC, code := sampleConfig.EVENT_TYPE_SO, value := 3 },
             { time := ⟨1, 2⟩, type := EV_MSC, code := sampleConfig.EVENT_TYPE_SM, value := 0 },
             { time := ⟨5, 6⟩, type := EV_SYN, code := 0, value := 0 }] 0)).st SM = true ∧
      OutEvent.data SM
          { (init sampleConfig).mPendingEvents.sm with
            data0 := sampleConfig.fone, timestamp := sampleConfig.timevalToNano ⟨9, 0⟩ } ∈
        (readEvents sampleConfig sampleCrowdedCall.st 2
          (sampleEnv 1 [{ time := ⟨9, 0⟩, type := EV_SYN, code := 0, value := 0 }] 0)).out :=
  ⟨((pending_slot_waits_for_capacity sampleConfig SM (by decide)).1 sampleAllEnabled 1
      (sampleEnv 4
        [{ time := ⟨1, 0⟩, type := EV_ABS, code := sampleConfig.EVENT_TYPE_ACCEL_X, value := 7 },
         { time := ⟨1, 1⟩, type := EV_MSC, code := sampleConfig.EVENT_TYPE_SO, value := 3 },
         { time := ⟨1, 2⟩, type := EV_MSC, code := sampleConfig.EVENT_TYPE_SM, value := 0 },
         { time := ⟨5, 6⟩, type := EV_SYN, code := 0, value := 0 }] 0)
      [{ time := ⟨1, 0⟩, type := EV_ABS, code := sampleConfig.EVENT_TYPE_ACCEL_X, value := 7 },
       { time := ⟨1, 1⟩, type := EV_MSC, code := sampleConfig.EVENT_TYPE_SO, value := 3 },
       { time := ⟨1, 2⟩, type := EV_MSC, code := sampleConfig.EVENT_TYPE_SM, value := 0 }]
      []
      { time := ⟨5, 6⟩, type := EV_SYN, code := 0, value := 0 }
      (by decide) rfl rfl (by decide) (by decide) (by decide)).1,
    (pending_slot_waits_for_capacity sampleConfig SM (by decide)).2 sampleCrowdedCall.st 2
      (sampleEnv 1 [{ time := ⟨9, 0⟩, type := EV_SYN, code := 0, value := 0 }] 0)
      [] []
      { time := ⟨9, 0⟩, type := EV_SYN, code := 0, value := 0 }
      (by decide) (by decide) (by decide) rfl (by decide) (by decide) (by decide)⟩

end AccelerometerSensor
